import Mathlib

/-!
Panda3D: cull bins, Vulkan resource contexts and the graphics state guardian.

A shallow embedding of `CullBinFixed` (panda/src/cull/cullBinFixed.cxx), of
`VulkanTextureContext` (panda/src/vulkandisplay/vulkanTextureContext.{h,cxx})
and of the base class `GraphicsStateGuardian`
(panda/src/display/graphicsStateGuardian.cxx), followed by the properties
established about them.

Conventions: C++ vectors are lists, `push_back` appends at the end, Vulkan
handles and flag words are natural numbers (`VK_NULL_HANDLE` is `0`), and a
member function becomes a function from the object before the call to the
object after the call together with the commands it issued.
-/

namespace Panda

/-! ## CullBinFixed -/

/-- A `CullableObject` as far as the fixed bin looks at it: an identity and
the value of `object->_state->get_draw_order()`. -/
structure CullableObject where
  id : Nat
  draw_order : Int
  deriving DecidableEq

/-- The bin entry `CullBinFixed::ObjectData(object, draw_order)`. -/
structure ObjectData where
  _object : CullableObject
  _draw_order : Int
  deriving DecidableEq

/-- Modelled from the spec: `ObjectData::operator <` is declared in
cullBinFixed.h, which is not among the sources; the bin sorts "by
`order_key` only", so the comparison is on `_draw_order` alone. -/
def ObjectData.lt (a b : ObjectData) : Bool :=
  decide (a._draw_order < b._draw_order)

/-- The bin: its `_objects` vector. -/
structure CullBinFixed where
  _objects : List ObjectData
  deriving DecidableEq

/-- A bin as constructed by `make_bin`: no objects yet. -/
def CullBinFixed.make_bin : CullBinFixed := ⟨[]⟩

/-- `CullBinFixed::add_object`: reads the draw order off the object's state
and pushes the pair at the back of `_objects`. -/
def CullBinFixed.add_object (bin : CullBinFixed) (object : CullableObject) :
    CullBinFixed :=
  let draw_order := object.draw_order
  { bin with _objects := bin._objects ++ [ObjectData.mk object draw_order] }

/-- One step of the stable sort: `x`, which came before every element of the
already sorted `l`, moves right past the elements that are strictly less than
it and stops at the first that is not. -/
def stable_insert (x : ObjectData) : List ObjectData → List ObjectData
  | [] => [x]
  | y :: ys => if ObjectData.lt y x then y :: stable_insert x ys else x :: y :: ys

/-- `std::stable_sort(first, last)` with `operator <`, as a stable insertion
sort. -/
def stable_sort : List ObjectData → List ObjectData
  | [] => []
  | x :: xs => stable_insert x (stable_sort xs)

/-- `CullBinFixed::finish_cull`: `std::stable_sort(_objects.begin(),
_objects.end())`. -/
def CullBinFixed.finish_cull (bin : CullBinFixed) : CullBinFixed :=
  { bin with _objects := stable_sort bin._objects }

/-- A call `object->draw(gsg, force, current_thread)`. -/
structure DrawCall where
  object : CullableObject
  force : Bool
  deriving DecidableEq

/-- `CullBinFixed::draw`: walks `_objects` front to back and draws each
object; the result is the sequence of draw calls made. -/
def CullBinFixed.draw (bin : CullBinFixed) (force : Bool) : List DrawCall :=
  bin._objects.map (fun data => DrawCall.mk data._object force)

/-- `CullBinFixed::fill_result_graph`: the objects handed to the builder, in
order. -/
def CullBinFixed.fill_result_graph (bin : CullBinFixed) : List CullableObject :=
  bin._objects.map (fun data => data._object)

/-- The bin after a sequence of `add_object` calls on a new bin. -/
def CullBinFixed.submit (objects : List CullableObject) : CullBinFixed :=
  objects.foldl CullBinFixed.add_object CullBinFixed.make_bin

/-- The entry `add_object` makes for an object. -/
def ObjectData.of (object : CullableObject) : ObjectData :=
  ObjectData.mk object object.draw_order

/-! ## Vulkan constants (vulkan_core.h) -/

def VK_NULL_HANDLE : Nat := 0
def VK_FORMAT_UNDEFINED : Nat := 0
def VK_IMAGE_LAYOUT_UNDEFINED : Nat := 0
def VK_QUEUE_FAMILY_IGNORED : Nat := 0xFFFFFFFF
def VK_WHOLE_SIZE : Nat := 0xFFFFFFFFFFFFFFFF
def VK_STRUCTURE_TYPE_BUFFER_MEMORY_BARRIER : Nat := 44
def VK_STRUCTURE_TYPE_IMAGE_MEMORY_BARRIER : Nat := 45

def VK_PIPELINE_STAGE_TOP_OF_PIPE_BIT : Nat := 0x00000001
def VK_PIPELINE_STAGE_BOTTOM_OF_PIPE_BIT : Nat := 0x00002000

def VK_ACCESS_SHADER_WRITE_BIT : Nat := 0x00000040
def VK_ACCESS_COLOR_ATTACHMENT_WRITE_BIT : Nat := 0x00000100
def VK_ACCESS_DEPTH_STENCIL_ATTACHMENT_WRITE_BIT : Nat := 0x00000400
def VK_ACCESS_TRANSFER_WRITE_BIT : Nat := 0x00001000
def VK_ACCESS_HOST_WRITE_BIT : Nat := 0x00004000
def VK_ACCESS_MEMORY_WRITE_BIT : Nat := 0x00010000

/-- Bitwise complement of a 32-bit flag word (`~x` on a `VkFlags`). -/
def not32 (x : Nat) : Nat := 0xFFFFFFFF ^^^ (x % 2 ^ 32)

/-! ## VulkanTextureContext -/

/-- A `VulkanMemoryBlock`; the class is declared outside the sources, so only
its identity is kept. Handle `0` is the empty block a moved-from member is left
as. -/
structure VulkanMemoryBlock where
  handle : Nat
  deriving DecidableEq

/-- The fields of `VulkanTextureContext` (vulkanTextureContext.h), with
`data_size_bytes` standing for the size kept by the `TextureContext` base
class through `update_data_size_bytes`. -/
structure VulkanTextureContext where
  _format : Nat
  _mip_levels : Nat
  _array_layers : Nat
  _aspect_mask : Nat
  _image : Nat
  _image_views : List Nat
  _buffer : Nat
  _buffer_views : List Nat
  _block : VulkanMemoryBlock
  _layout : Nat
  _write_access_mask : Nat
  _write_stage_mask : Nat
  _read_stage_mask : Nat
  data_size_bytes : Nat
  deriving DecidableEq

/-- A context as the in-class member initialisers of vulkanTextureContext.h
leave it: no handles, layout undefined, no write access recorded, and
`TOP_OF_PIPE` recorded as both the write stage and the read stage. -/
def VulkanTextureContext.fresh : VulkanTextureContext :=
  { _format := VK_FORMAT_UNDEFINED
    _mip_levels := 1
    _array_layers := 1
    _aspect_mask := 0
    _image := VK_NULL_HANDLE
    _image_views := []
    _buffer := VK_NULL_HANDLE
    _buffer_views := []
    _block := ⟨0⟩
    _layout := VK_IMAGE_LAYOUT_UNDEFINED
    _write_access_mask := 0
    _write_stage_mask := VK_PIPELINE_STAGE_TOP_OF_PIPE_BIT
    _read_stage_mask := VK_PIPELINE_STAGE_TOP_OF_PIPE_BIT
    data_size_bytes := 0 }

/-- The lists of `VulkanFrameData` that `release` appends to. -/
structure VulkanFrameData where
  _pending_destroy_images : List Nat
  _pending_destroy_image_views : List Nat
  _pending_destroy_buffers : List Nat
  _pending_destroy_buffer_views : List Nat
  _pending_free : List VulkanMemoryBlock
  deriving DecidableEq

/-- Frame data with nothing pending. -/
def VulkanFrameData.empty : VulkanFrameData := ⟨[], [], [], [], []⟩

/-- A native destroy call on the device. -/
inductive VkDeviceCall where
  | vkDestroyImageView (image_view : Nat)
  | vkDestroyImage (image : Nat)
  | vkDestroyBufferView (buffer_view : Nat)
  | vkDestroyBuffer (buffer : Nat)
  deriving DecidableEq

/-- `VkImageMemoryBarrier`, with the subresource range flattened. -/
structure VkImageMemoryBarrier where
  sType : Nat
  srcAccessMask : Nat
  dstAccessMask : Nat
  oldLayout : Nat
  newLayout : Nat
  srcQueueFamilyIndex : Nat
  dstQueueFamilyIndex : Nat
  image : Nat
  aspectMask : Nat
  baseMipLevel : Nat
  levelCount : Nat
  baseArrayLayer : Nat
  layerCount : Nat
  deriving DecidableEq

/-- `VkBufferMemoryBarrier`. -/
structure VkBufferMemoryBarrier where
  sType : Nat
  srcAccessMask : Nat
  dstAccessMask : Nat
  srcQueueFamilyIndex : Nat
  dstQueueFamilyIndex : Nat
  buffer : Nat
  offset : Nat
  size : Nat
  deriving DecidableEq

/-- A recorded `vkCmdPipelineBarrier`: the stage masks, the dependency flags,
the number of global memory barriers, and the buffer and image barriers that
the counts passed to the call select. -/
structure PipelineBarrier where
  srcStageMask : Nat
  dstStageMask : Nat
  dependencyFlags : Nat
  memoryBarrierCount : Nat
  bufferMemoryBarriers : List VkBufferMemoryBarrier
  imageMemoryBarriers : List VkImageMemoryBarrier
  deriving DecidableEq

/-- `VulkanTextureContext::release`: moves the handles to the pending lists of
the frame data and clears them on the context; the third component is the
sequence of native destroy calls made, of which the function has none. The
debug output is left out. -/
def VulkanTextureContext.release (tc : VulkanTextureContext)
    (frame_data : VulkanFrameData) :
    VulkanTextureContext × VulkanFrameData × List VkDeviceCall :=
  let (tc, frame_data) :=
    if tc._image ≠ VK_NULL_HANDLE then
      ({ tc with _image := VK_NULL_HANDLE },
       { frame_data with
          _pending_destroy_images := frame_data._pending_destroy_images ++ [tc._image] })
    else (tc, frame_data)
  let (tc, frame_data) :=
    if ¬ tc._image_views.isEmpty then
      ({ tc with _image_views := [] },
       { frame_data with
          _pending_destroy_image_views :=
            frame_data._pending_destroy_image_views ++ tc._image_views })
    else (tc, frame_data)
  let (tc, frame_data) :=
    if tc._buffer ≠ VK_NULL_HANDLE then
      ({ tc with _buffer := VK_NULL_HANDLE },
       { frame_data with
          _pending_destroy_buffers := frame_data._pending_destroy_buffers ++ [tc._buffer] })
    else (tc, frame_data)
  let (tc, frame_data) :=
    if ¬ tc._buffer_views.isEmpty then
      ({ tc with _buffer_views := [] },
       { frame_data with
          _pending_destroy_buffer_views :=
            frame_data._pending_destroy_buffer_views ++ tc._buffer_views })
    else (tc, frame_data)
  let frame_data :=
    { frame_data with _pending_free := frame_data._pending_free ++ [tc._block] }
  let tc := { tc with _block := ⟨0⟩ }
  let tc := { tc with data_size_bytes := 0 }
  let tc := { tc with _format := VK_FORMAT_UNDEFINED }
  let tc := { tc with _layout := VK_IMAGE_LAYOUT_UNDEFINED }
  (tc, frame_data, [])

/-- `VulkanTextureContext::destroy_now`: destroys the views and handles on the
device immediately. -/
def VulkanTextureContext.destroy_now (tc : VulkanTextureContext) :
    VulkanTextureContext × List VkDeviceCall :=
  let calls := tc._image_views.map VkDeviceCall.vkDestroyImageView
  let tc := { tc with _image_views := [] }
  let (tc, calls) :=
    if tc._image ≠ VK_NULL_HANDLE then
      ({ tc with _image := VK_NULL_HANDLE },
       calls ++ [VkDeviceCall.vkDestroyImage tc._image])
    else (tc, calls)
  let calls := calls ++ tc._buffer_views.map VkDeviceCall.vkDestroyBufferView
  let tc := { tc with _buffer_views := [] }
  let (tc, calls) :=
    if tc._buffer ≠ VK_NULL_HANDLE then
      ({ tc with _buffer := VK_NULL_HANDLE },
       calls ++ [VkDeviceCall.vkDestroyBuffer tc._buffer])
    else (tc, calls)
  let tc := { tc with data_size_bytes := 0 }
  let tc := { tc with _format := VK_FORMAT_UNDEFINED }
  let tc := { tc with _layout := VK_IMAGE_LAYOUT_UNDEFINED }
  (tc, calls)

/-- The write bits `transition` looks for in a destination access mask. -/
def WRITE_ACCESS_BITS : Nat :=
  VK_ACCESS_SHADER_WRITE_BIT |||
  VK_ACCESS_COLOR_ATTACHMENT_WRITE_BIT |||
  VK_ACCESS_DEPTH_STENCIL_ATTACHMENT_WRITE_BIT |||
  VK_ACCESS_TRANSFER_WRITE_BIT |||
  VK_ACCESS_HOST_WRITE_BIT |||
  VK_ACCESS_MEMORY_WRITE_BIT

/-- The part of `VulkanTextureContext::transition` from the declaration of
`img_barrier` to the end of the function: fills in the barriers, records the one
`vkCmdPipelineBarrier` command and updates the layout and the masks. -/
def VulkanTextureContext.transition_emit (tc : VulkanTextureContext)
    (layout dst_stage_mask dst_access_mask write_mask src_stage_mask : Nat) :
    VulkanTextureContext × List PipelineBarrier :=
  let img_barrier : VkImageMemoryBarrier :=
    { sType := VK_STRUCTURE_TYPE_IMAGE_MEMORY_BARRIER
      srcAccessMask := tc._write_access_mask
      dstAccessMask := dst_access_mask
      oldLayout := tc._layout
      newLayout := layout
      srcQueueFamilyIndex := VK_QUEUE_FAMILY_IGNORED
      dstQueueFamilyIndex := VK_QUEUE_FAMILY_IGNORED
      image := tc._image
      aspectMask := tc._aspect_mask
      baseMipLevel := 0
      levelCount := tc._mip_levels
      baseArrayLayer := 0
      layerCount := tc._array_layers }
  let buf_barrier : VkBufferMemoryBarrier :=
    { sType := VK_STRUCTURE_TYPE_BUFFER_MEMORY_BARRIER
      srcAccessMask := tc._write_access_mask
      dstAccessMask := dst_access_mask
      srcQueueFamilyIndex := VK_QUEUE_FAMILY_IGNORED
      dstQueueFamilyIndex := VK_QUEUE_FAMILY_IGNORED
      buffer := tc._buffer
      offset := 0
      size := VK_WHOLE_SIZE }
  let command : PipelineBarrier :=
    { srcStageMask := src_stage_mask
      dstStageMask := dst_stage_mask
      dependencyFlags := 0
      memoryBarrierCount := 0
      bufferMemoryBarriers :=
        if tc._buffer ≠ VK_NULL_HANDLE then [buf_barrier] else []
      imageMemoryBarriers :=
        if tc._image ≠ VK_NULL_HANDLE then [img_barrier] else [] }
  let tc := { tc with _layout := layout }
  let tc :=
    if write_mask ≠ 0 then
      { tc with _write_stage_mask := dst_stage_mask, _write_access_mask := write_mask }
    else
      { tc with _write_stage_mask := 0, _write_access_mask := 0 }
  let tc :=
    { tc with
      _read_stage_mask :=
        dst_stage_mask &&& not32 VK_PIPELINE_STAGE_BOTTOM_OF_PIPE_BIT }
  (tc, [command])

/-- `VulkanTextureContext::transition`: the context after the call and the
pipeline barriers recorded into the command buffer by it (none on the early
return, one otherwise). The `queue_family` argument is not used by the
function. -/
def VulkanTextureContext.transition (tc : VulkanTextureContext)
    (_queue_family : Nat) (layout : Nat) (dst_stage_mask : Nat)
    (dst_access_mask : Nat) : VulkanTextureContext × List PipelineBarrier :=
  let layout := if tc._image = VK_NULL_HANDLE then tc._layout else layout
  let write_mask := dst_access_mask &&& WRITE_ACCESS_BITS
  let src_stage_mask := tc._write_stage_mask
  if tc._layout ≠ layout ∨ write_mask ≠ 0 then
    let src_stage_mask := src_stage_mask ||| tc._read_stage_mask
    let src_stage_mask :=
      if src_stage_mask = 0 then VK_PIPELINE_STAGE_TOP_OF_PIPE_BIT else src_stage_mask
    tc.transition_emit layout dst_stage_mask dst_access_mask write_mask src_stage_mask
  else if src_stage_mask = 0 then
    (tc, [])
  else
    tc.transition_emit layout dst_stage_mask dst_access_mask write_mask src_stage_mask

/-- One access request: the arguments of a `transition` call. -/
structure Access where
  layout : Nat
  dst_stage_mask : Nat
  dst_access_mask : Nat
  deriving DecidableEq

/-- Runs a sequence of `transition` calls; the result is the final context and,
per call, the barriers the call recorded. -/
def run_transitions (tc : VulkanTextureContext) :
    List Access → VulkanTextureContext × List (List PipelineBarrier)
  | [] => (tc, [])
  | a :: rest =>
    let r := tc.transition 0 a.layout a.dst_stage_mask a.dst_access_mask
    let rr := run_transitions r.1 rest
    (rr.1, r.2 :: rr.2)

/-- The guard of the early return of `transition`. -/
def VulkanTextureContext.read_after_read (tc : VulkanTextureContext)
    (layout dst_access_mask : Nat) : Prop :=
  (if tc._image = VK_NULL_HANDLE then tc._layout else layout) = tc._layout
    ∧ dst_access_mask &&& WRITE_ACCESS_BITS = 0
    ∧ tc._write_stage_mask = 0

instance (tc : VulkanTextureContext) (layout dst_access_mask : Nat) :
    Decidable (tc.read_after_read layout dst_access_mask) := by
  unfold VulkanTextureContext.read_after_read
  exact inferInstance

/-- The last barrier recorded by a sequence of calls, given the barriers of
each call. -/
def last_barrier : List (List PipelineBarrier) → Option PipelineBarrier
  | [] => none
  | out :: rest =>
    match last_barrier rest with
    | some b => some b
    | none => out.getLast?

/-- The source stage mask a barrier for a write or a layout change gets from the
masks recorded on the context: their union, or `TOP_OF_PIPE` when that is
zero. -/
def VulkanTextureContext.pending_stages (tc : VulkanTextureContext) : Nat :=
  if tc._write_stage_mask ||| tc._read_stage_mask = 0
    then VK_PIPELINE_STAGE_TOP_OF_PIPE_BIT
    else tc._write_stage_mask ||| tc._read_stage_mask

/-! ## The frame ring -/

/-- A resource waiting in a pending list of a `VulkanFrameData`. -/
inductive Resource where
  | image (handle : Nat)
  | image_view (handle : Nat)
  | buffer (handle : Nat)
  | buffer_view (handle : Nat)
  | block (b : VulkanMemoryBlock)
  deriving DecidableEq

/-- Modelled from the spec: a slot of the ring of pending-destroy lists "one
per in-flight frame slot"; the frame-data pool is not among the sources.
`frame_index` is the frame the slot last served (`none` before its first use),
`pending` the frame data that `release` fills during that frame. -/
structure FrameSlot where
  frame_index : Option Nat
  pending : VulkanFrameData
  deriving DecidableEq

/-- A native destruction made by the frame ring: the resource, the frame during
which it was released and the frame at whose begin it was destroyed. -/
structure Destruction where
  resource : Resource
  released_in : Nat
  destroyed_at : Nat
  deriving DecidableEq

/-- Modelled from the spec: the FrameEpochAllocator of section 4.4, which is
not among the sources. `epoch` counts the frames begun so far (frames are
numbered from 0, frame `n` uses slot `n % pipeline_depth`), `completed` lists
the frames whose completion the device has confirmed, `destroyed` is the log of
native destructions. -/
structure FrameEpochAllocator where
  pipeline_depth : Nat
  slots : List FrameSlot
  epoch : Nat
  completed : List Nat
  destroyed : List Destruction
  deriving DecidableEq

/-- Modelled from the spec: a ring of `pipeline_depth` unused slots. -/
def FrameEpochAllocator.make (pipeline_depth : Nat) : FrameEpochAllocator :=
  { pipeline_depth := pipeline_depth
    slots := List.replicate pipeline_depth ⟨none, VulkanFrameData.empty⟩
    epoch := 0
    completed := []
    destroyed := [] }

/-- Modelled from the spec: a release made during the current frame
(`epoch - 1`); it is `VulkanTextureContext::release` on the frame data of the
slot of that frame. -/
def FrameEpochAllocator.release (a : FrameEpochAllocator)
    (tc : VulkanTextureContext) : FrameEpochAllocator × VulkanTextureContext :=
  let idx := (a.epoch - 1) % a.pipeline_depth
  match a.slots[idx]? with
  | none => (a, tc)
  | some slot =>
    let r := tc.release slot.pending
    ({ a with slots := a.slots.set idx { slot with pending := r.2.1 } }, r.1)

/-- An `LColor` / `LVecBase4`; the components are exact rationals here, and the
functions below only compare them with 0 and 1 or copy and multiply them. -/
structure LColor where
  x : Rat
  y : Rat
  z : Rat
  w : Rat
  deriving DecidableEq

/-- `LVecBase4(1.0f, 1.0f, 1.0f, 1.0f)`. -/
def LColor.one : LColor := ⟨1, 1, 1, 1⟩

/-- A non-empty `NodePath` to a node that is a `Light`: the two `nassertv`
checks of `do_issue_light` hold for every on-light of a `LightAttrib`, so an
on-light is given by the identity of its node and the colour of the light. -/
structure LightNode where
  id : Nat
  color : LColor
  deriving DecidableEq

/-- A `LightAttrib` as `do_issue_light` reads it. The on-lights are sorted with
the non-ambient lights first ("LightAttrib guarantees that the on lights are
sorted, and that non-ambient lights come before ambient lights"), so they are
kept as the two parts of that list. -/
structure LightAttrib where
  non_ambient_lights : List LightNode
  ambient_lights : List LightNode
  ambient_contribution : LColor
  deriving DecidableEq

/-- The sorted list of on-lights, `get_on_light(0)`, `get_on_light(1)`, ... -/
def LightAttrib.on_lights (attrib : LightAttrib) : List LightNode :=
  attrib.non_ambient_lights ++ attrib.ambient_lights

/-- `LightAttrib::has_any_on_light`. -/
def LightAttrib.has_any_on_light (attrib : LightAttrib) : Bool :=
  !attrib.on_lights.isEmpty

/-- `LightAttrib::get_num_non_ambient_lights`. -/
def LightAttrib.get_num_non_ambient_lights (attrib : LightAttrib) : Nat :=
  attrib.non_ambient_lights.length

/-- `PlaneNode::CE_visible`. -/
def CE_visible : Nat := 0x0001

/-- A non-empty `NodePath` to a `PlaneNode`, with the node's clip effect. -/
structure PlaneNode where
  id : Nat
  clip_effect : Nat
  deriving DecidableEq

/-- A `ClipPlaneAttrib`: its on-planes in order. -/
structure ClipPlaneAttrib where
  on_planes : List PlaneNode
  deriving DecidableEq

/-- A `ColorScaleAttrib` as `do_issue_color_scale` reads it. -/
structure ColorScaleAttrib where
  has_scale : Bool
  has_alpha_scale : Bool
  scale : LColor
  deriving DecidableEq

/-- A `GeomMunger` as `get_geom_munger` looks at it: an identity, whether it
is registered, and whether it is of type `StateMunger`. -/
structure GeomMunger where
  id : Nat
  is_registered : Bool
  is_state_munger : Bool
  deriving DecidableEq

/-- `RenderState::Mungers`, a `SimpleHashMap` from GSG id to munger: its
entries in table order. A well-formed map has no two entries with one key. -/
structure Mungers where
  entries : List (Int × GeomMunger)
  deriving DecidableEq

/-- `SimpleHashMap::is_empty`. -/
def Mungers.is_empty (m : Mungers) : Bool := m.entries.isEmpty

/-- `SimpleHashMap::get_num_entries`. -/
def Mungers.get_num_entries (m : Mungers) : Nat := m.entries.length

/-- `SimpleHashMap::get_key(n)`. -/
def Mungers.get_key (m : Mungers) (n : Nat) : Option Int := (m.entries[n]?).map Prod.fst

/-- `SimpleHashMap::get_data(n)`. -/
def Mungers.get_data (m : Mungers) (n : Nat) : Option GeomMunger :=
  (m.entries[n]?).map Prod.snd

/-- The index of the first entry with the key, if there is one. -/
def find_entry : List (Int × GeomMunger) → Int → Option Nat
  | [], _ => none
  | e :: rest, key =>
    if e.1 = key then some 0 else (find_entry rest key).map (fun i => i + 1)

/-- `SimpleHashMap::find(key)`: the index of the entry with the key, or -1. -/
def Mungers.find (m : Mungers) (key : Int) : Int :=
  match find_entry m.entries key with
  | some i => (i : Int)
  | none => -1

/-- `SimpleHashMap::remove_element(n)`: the entry leaves the table. -/
def Mungers.remove_element (m : Mungers) (n : Nat) : Mungers :=
  ⟨m.entries.eraseIdx n⟩

/-- `SimpleHashMap::store(key, data)`: replaces the data of the entry with the
key if there is one, appends a new entry otherwise; yields the map and the
index of the entry. -/
def Mungers.store (m : Mungers) (key : Int) (data : GeomMunger) : Mungers × Int :=
  match find_entry m.entries key with
  | some i => (⟨m.entries.set i (key, data)⟩, (i : Int))
  | none => (⟨m.entries ++ [(key, data)]⟩, (m.entries.length : Int))

/-- A `RenderState` as the functions below read it: the attributes
`get_attrib_def` finds in the light, clip-plane and colour-scale slots (the
first two are checked against null by their readers), and the mutable munger
cache `_mungers` with `_last_mi`. -/
structure RenderState where
  light : Option LightAttrib
  clip_plane : Option ClipPlaneAttrib
  color_scale : ColorScaleAttrib
  _mungers : Mungers
  _last_mi : Int
  deriving DecidableEq

/-- `RenderState::make_empty()`. -/
def RenderState.make_empty : RenderState :=
  { light := none
    clip_plane := none
    color_scale := ⟨false, false, LColor.one⟩
    _mungers := ⟨[]⟩
    _last_mi := -1 }

/-- `CoordinateSystem`. -/
inductive CoordinateSystem where
  | CS_default
  | CS_zup_right
  | CS_yup_right
  | CS_zup_left
  | CS_yup_left
  | CS_invalid
  deriving DecidableEq

/-- The `TransformState` values the functions below make. -/
inductive TransformState where
  | make_identity
  | convert_mat (source target : CoordinateSystem)
  | inverse_of (t : TransformState)
  deriving DecidableEq

/-- A `Lens` as `set_scene` reads it. -/
structure Lens where
  id : Nat
  coordinate_system : CoordinateSystem
  is_linear : Bool
  deriving DecidableEq

/-- A `SceneSetup`: its lens, which may be null. -/
structure SceneSetup where
  id : Nat
  lens : Option Lens
  deriving DecidableEq

/-- The bits of a `RenderState::SlotMask` (a 32-bit `BitMask`) as a word. -/
structure SlotMask where
  word : Nat
  deriving DecidableEq

/-- `BitMask::get_bit(index)`. -/
def SlotMask.get_bit (m : SlotMask) (index : Nat) : Bool := m.word.testBit index

/-- `BitMask::clear_bit(index)`: `_word &= ~(1 << index)` on 32 bits. -/
def SlotMask.clear_bit (m : SlotMask) (index : Nat) : SlotMask :=
  ⟨m.word &&& (0xFFFFFFFF ^^^ ((1 <<< index) % 2 ^ 32))⟩

/-- `BitMask::clear()`. -/
def SlotMask.clear (_m : SlotMask) : SlotMask := ⟨0⟩

/-- The class slots that `RenderAttribRegistry` hands out at run time to the
attribute classes named in `do_issue_color_scale`. -/
structure ClassSlots where
  TextureAttrib : Nat
  TexMatrixAttrib : Nat
  TransparencyAttrib : Nat
  LightAttrib : Nat
  MaterialAttrib : Nat
  deriving DecidableEq

/-- The fields of `GraphicsStateGuardian` that the functions below read or
write. -/
structure GraphicsStateGuardian where
  _id : Int
  _max_lights : Int
  _max_clip_planes : Int
  _color_scale_via_lighting : Bool
  _alpha_scale_via_texture : Bool
  _state_rs : RenderState
  _target_rs : Option RenderState
  _state_mask : SlotMask
  _scene_setup : Option SceneSetup
  _current_lens : Option Lens
  _coordinate_system : CoordinateSystem
  _internal_coordinate_system : CoordinateSystem
  _cs_transform : TransformState
  _inv_cs_transform : TransformState
  _projection_mat : Option TransformState
  _projection_mat_inv : Option TransformState
  _has_scene_graph_color : Bool
  _scene_graph_color : LColor
  _color_blend_involves_color_scale : Bool
  _texture_involves_color_scale : Bool
  _vertex_colors_enabled : Bool
  _lighting_enabled : Bool
  _num_lights_enabled : Nat
  _num_clip_planes_enabled : Nat
  _clip_planes_enabled : Bool
  _color_scale_enabled : Bool
  _current_color_scale : LColor
  _has_texture_alpha_scale : Bool
  _has_material_force_color : Bool
  _material_force_color : LColor
  _light_color_scale : LColor
  deriving DecidableEq

/-- A call of one of the virtual hooks of the GSG. `bind_light` stands for
`light_obj->bind(this, light, light_id)`, by which the light binds itself to
the id on the GSG. -/
inductive GsgCall where
  | enable_lighting (enable : Bool)
  | set_ambient_light (color : LColor)
  | enable_light (light_id : Nat) (enable : Bool)
  | begin_bind_lights
  | bind_light (light : LightNode) (light_id : Nat)
  | end_bind_lights
  | enable_clip_planes (enable : Bool)
  | enable_clip_plane (plane_id : Nat) (enable : Bool)
  | begin_bind_clip_planes
  | bind_clip_plane (plane : PlaneNode) (plane_id : Nat)
  | end_bind_clip_planes
  deriving DecidableEq

/-- The render state `_target_rs` points to. The pointer is set before any
`do_issue_` function runs; for a null pointer the empty state is read. -/
def GraphicsStateGuardian.target (gsg : GraphicsStateGuardian) : RenderState :=
  gsg._target_rs.getD RenderState.make_empty

/-- The value of `(size_t)n` for an `int` n, with a 64-bit `size_t`. -/
def size_t_of_int (n : Int) : Nat := (n % 2 ^ 64).toNat

/-- The loop of `do_issue_light` over the on-lights `get_on_light(li)`,
`li < filtered_lights`: the GSG and `num_enabled` after the loop and the hook
calls made, in order. -/
def GraphicsStateGuardian.do_issue_light_loop :
    List LightNode → GraphicsStateGuardian → Nat →
      GraphicsStateGuardian × Nat × List GsgCall
  | [], gsg, num_enabled => (gsg, num_enabled, [])
  | light :: rest, gsg, num_enabled =>
    let calls1 :=
      if !gsg._lighting_enabled then [GsgCall.enable_lighting true] else []
    let gsg :=
      if !gsg._lighting_enabled then { gsg with _lighting_enabled := true } else gsg
    let color := light.color
    if color.x ≠ 0 ∨ color.y ≠ 0 ∨ color.z ≠ 0 then
      let calls2 :=
        [GsgCall.enable_light num_enabled true]
          ++ (if num_enabled = 0 then [GsgCall.begin_bind_lights] else [])
          ++ [GsgCall.bind_light light num_enabled]
      let r := do_issue_light_loop rest gsg (num_enabled + 1)
      (r.1, r.2.1, calls1 ++ calls2 ++ r.2.2)
    else
      let r := do_issue_light_loop rest gsg num_enabled
      (r.1, r.2.1, calls1 ++ r.2.2)

/-- `GraphicsStateGuardian::do_issue_light`: the GSG afterwards and the hook
calls made, in order. The spam output is left out. -/
def GraphicsStateGuardian.do_issue_light (gsg : GraphicsStateGuardian) :
    GraphicsStateGuardian × List GsgCall :=
  let target_light := gsg.target.light
  let any_on_lights :=
    match target_light with
    | some attrib => attrib.has_any_on_light
    | none => false
  let r :=
    match target_light with
    | some attrib =>
      let filtered_lights :=
        min (size_t_of_int gsg._max_lights) attrib.get_num_non_ambient_lights
      GraphicsStateGuardian.do_issue_light_loop (attrib.on_lights.take filtered_lights) gsg 0
    | none => (gsg, 0, [])
  let gsg := r.1
  let num_enabled := r.2.1
  let calls := r.2.2
  let calls :=
    calls ++ (List.range' num_enabled (gsg._num_lights_enabled - num_enabled)).map
      (fun i => GsgCall.enable_light i false)
  let gsg := { gsg with _num_lights_enabled := num_enabled }
  let r2 : GraphicsStateGuardian × List GsgCall :=
    if !any_on_lights then
      if gsg._color_scale_via_lighting
          && (gsg._has_material_force_color || decide (gsg._light_color_scale ≠ LColor.one)) then
        let calls2 := if !gsg._lighting_enabled then [GsgCall.enable_lighting true] else []
        let gsg := if !gsg._lighting_enabled then { gsg with _lighting_enabled := true } else gsg
        (gsg, calls2 ++ [GsgCall.set_ambient_light LColor.one])
      else
        let calls2 := if gsg._lighting_enabled then [GsgCall.enable_lighting false] else []
        let gsg := if gsg._lighting_enabled then { gsg with _lighting_enabled := false } else gsg
        (gsg, calls2)
    else
      let calls2 := if !gsg._lighting_enabled then [GsgCall.enable_lighting true] else []
      let gsg := if !gsg._lighting_enabled then { gsg with _lighting_enabled := true } else gsg
      let ambient :=
        match target_light with
        | some attrib => attrib.ambient_contribution
        | none => LColor.one
      (gsg, calls2 ++ [GsgCall.set_ambient_light ambient])
  let gsg := r2.1
  let calls := calls ++ r2.2
  let calls := if num_enabled ≠ 0 then calls ++ [GsgCall.end_bind_lights] else calls
  (gsg, calls)

/-- The loop of `do_issue_clip_plane` over the on-planes of the filtered
attribute. -/
def GraphicsStateGuardian.do_issue_clip_plane_loop :
    List PlaneNode → GraphicsStateGuardian → Nat →
      GraphicsStateGuardian × Nat × List GsgCall
  | [], gsg, num_enabled => (gsg, num_enabled, [])
  | plane :: rest, gsg, num_enabled =>
    if plane.clip_effect &&& CE_visible ≠ 0 then
      let calls1 :=
        if !gsg._clip_planes_enabled then [GsgCall.enable_clip_planes true] else []
      let gsg :=
        if !gsg._clip_planes_enabled then { gsg with _clip_planes_enabled := true } else gsg
      let calls2 :=
        [GsgCall.enable_clip_plane num_enabled true]
          ++ (if num_enabled = 0 then [GsgCall.begin_bind_clip_planes] else [])
          ++ [GsgCall.bind_clip_plane plane num_enabled]
      let r := do_issue_clip_plane_loop rest gsg (num_enabled + 1)
      (r.1, r.2.1, calls1 ++ calls2 ++ r.2.2)
    else
      do_issue_clip_plane_loop rest gsg num_enabled

/-- `GraphicsStateGuardian::do_issue_clip_plane`. `ClipPlaneAttrib::filter_to_max`
is not among the sources and is passed in as `filter_to_max`. -/
def GraphicsStateGuardian.do_issue_clip_plane
    (filter_to_max : ClipPlaneAttrib → Int → ClipPlaneAttrib)
    (gsg : GraphicsStateGuardian) : GraphicsStateGuardian × List GsgCall :=
  let target_clip_plane := gsg.target.clip_plane
  let r :=
    match target_clip_plane with
    | some attrib =>
      let new_plane := filter_to_max attrib gsg._max_clip_planes
      GraphicsStateGuardian.do_issue_clip_plane_loop new_plane.on_planes gsg 0
    | none => (gsg, 0, [])
  let gsg := r.1
  let num_enabled := r.2.1
  let calls := r.2.2
  let calls :=
    calls ++ (List.range' num_enabled (gsg._num_clip_planes_enabled - num_enabled)).map
      (fun i => GsgCall.enable_clip_plane i false)
  let gsg := { gsg with _num_clip_planes_enabled := num_enabled }
  if num_enabled = 0 then
    let calls2 := if gsg._clip_planes_enabled then [GsgCall.enable_clip_planes false] else []
    let gsg := if gsg._clip_planes_enabled then { gsg with _clip_planes_enabled := false } else gsg
    (gsg, calls ++ calls2)
  else
    (gsg, calls ++ [GsgCall.end_bind_clip_planes])

/-- Componentwise product of two colours. -/
def LColor.componentwise_mult (a b : LColor) : LColor :=
  ⟨a.x * b.x, a.y * b.y, a.z * b.z, a.w * b.w⟩

/-- `GraphicsStateGuardian::determine_light_color_scale`. -/
def GraphicsStateGuardian.determine_light_color_scale (gsg : GraphicsStateGuardian) :
    GraphicsStateGuardian :=
  if gsg._has_scene_graph_color then
    let gsg := { gsg with _has_material_force_color := true }
    let gsg := { gsg with _material_force_color := gsg._scene_graph_color }
    let gsg := { gsg with _light_color_scale := LColor.one }
    if !gsg._color_blend_involves_color_scale && gsg._color_scale_enabled then
      { gsg with
        _material_force_color :=
          gsg._scene_graph_color.componentwise_mult gsg._current_color_scale }
    else gsg
  else if !gsg._vertex_colors_enabled then
    let gsg := { gsg with _has_material_force_color := true }
    let gsg := { gsg with _material_force_color := LColor.one }
    let gsg := { gsg with _light_color_scale := LColor.one }
    if !gsg._color_blend_involves_color_scale && gsg._color_scale_enabled then
      { gsg with
        _material_force_color :=
          gsg._material_force_color.componentwise_mult gsg._current_color_scale }
    else gsg
  else
    let gsg := { gsg with _has_material_force_color := false }
    let gsg := { gsg with _light_color_scale := LColor.one }
    if !gsg._color_blend_involves_color_scale && gsg._color_scale_enabled then
      { gsg with _light_color_scale := gsg._current_color_scale }
    else gsg

/-- `GraphicsStateGuardian::set_state_and_transform`: the body is empty in the
base class; it makes no hook call and leaves the GSG as it is. -/
def GraphicsStateGuardian.set_state_and_transform (gsg : GraphicsStateGuardian)
    (_state : Option RenderState) (_trans : TransformState) :
    GraphicsStateGuardian × List GsgCall :=
  (gsg, [])

/-- `GraphicsStateGuardian::set_coordinate_system`; `default_cs` is the value of
the global `get_default_coordinate_system()`. -/
def GraphicsStateGuardian.set_coordinate_system (default_cs : CoordinateSystem)
    (gsg : GraphicsStateGuardian) (cs : CoordinateSystem) : GraphicsStateGuardian :=
  let cs := if cs = CoordinateSystem.CS_default then default_cs else cs
  if gsg._coordinate_system = cs then gsg
  else
    let gsg := { gsg with _coordinate_system := cs }
    if gsg._internal_coordinate_system = CoordinateSystem.CS_default
        ∨ gsg._internal_coordinate_system = gsg._coordinate_system then
      { gsg with
        _cs_transform := TransformState.make_identity
        _inv_cs_transform := TransformState.make_identity }
    else
      { gsg with
        _cs_transform :=
          TransformState.convert_mat gsg._coordinate_system gsg._internal_coordinate_system
        _inv_cs_transform :=
          TransformState.convert_mat gsg._internal_coordinate_system gsg._coordinate_system }

/-- `GraphicsStateGuardian::calc_projection_mat`. -/
def GraphicsStateGuardian.calc_projection_mat (_gsg : GraphicsStateGuardian)
    (lens : Option Lens) : Option TransformState :=
  match lens with
  | none => none
  | some l => if !l.is_linear then none else some TransformState.make_identity

/-- `GraphicsStateGuardian::prepare_lens`: false in the base class. -/
def GraphicsStateGuardian.prepare_lens (_gsg : GraphicsStateGuardian) : Bool := false

/-- `GraphicsStateGuardian::set_scene`: the GSG afterwards and the value
returned. -/
def GraphicsStateGuardian.set_scene (default_cs : CoordinateSystem)
    (gsg : GraphicsStateGuardian) (scene_setup : SceneSetup) :
    GraphicsStateGuardian × Bool :=
  let gsg := { gsg with _scene_setup := some scene_setup }
  let gsg := { gsg with _current_lens := scene_setup.lens }
  match gsg._current_lens with
  | none => (gsg, false)
  | some lens =>
    let gsg := gsg.set_coordinate_system default_cs lens.coordinate_system
    let gsg := { gsg with _projection_mat := gsg.calc_projection_mat gsg._current_lens }
    match gsg._projection_mat with
    | none => (gsg, false)
    | some projection_mat =>
      let gsg := { gsg with _projection_mat_inv := some (TransformState.inverse_of projection_mat) }
      (gsg, gsg.prepare_lens)

/-- The end of `get_geom_munger`, from "Nothing in the map; create a new
entry": makes a munger, returns it unstored when one of the two `nassertr`
checks fails, and otherwise stores it under the id of the GSG.
`make_geom_munger` is virtual and passed in; it may return null. -/
def GraphicsStateGuardian.get_geom_munger_create (gsg : GraphicsStateGuardian)
    (make_geom_munger : RenderState → Option GeomMunger) (state : RenderState) :
    RenderState × Option GeomMunger :=
  match make_geom_munger state with
  | none => (state, none)
  | some munger =>
    if !munger.is_registered then (state, some munger)
    else if !munger.is_state_munger then (state, some munger)
    else
      let r := state._mungers.store gsg._id munger
      ({ state with _mungers := r.1, _last_mi := r.2 }, some munger)

/-- The middle of `get_geom_munger`, from "Nope, we have to look it up in the
map": finds the entry of this GSG; a registered munger is returned and its
index remembered, an unregistered one is removed from the map before a new one
is created. -/
def GraphicsStateGuardian.get_geom_munger_lookup (gsg : GraphicsStateGuardian)
    (make_geom_munger : RenderState → Option GeomMunger) (state : RenderState) :
    RenderState × Option GeomMunger :=
  let mi := state._mungers.find gsg._id
  if mi ≥ 0 then
    match state._mungers.get_data mi.toNat with
    | some munger =>
      if munger.is_registered then
        ({ state with _last_mi := mi }, some munger)
      else
        gsg.get_geom_munger_create make_geom_munger
          { state with _mungers := state._mungers.remove_element mi.toNat }
    | none => gsg.get_geom_munger_create make_geom_munger state
  else
    gsg.get_geom_munger_create make_geom_munger state

/-- `GraphicsStateGuardian::get_geom_munger`: the state afterwards (its munger
map and `_last_mi` are mutable) and the munger returned. -/
def GraphicsStateGuardian.get_geom_munger (gsg : GraphicsStateGuardian)
    (make_geom_munger : RenderState → Option GeomMunger) (state : RenderState) :
    RenderState × Option GeomMunger :=
  if !state._mungers.is_empty then
    let mi := state._last_mi
    if mi ≥ 0 ∧ mi.toNat < state._mungers.get_num_entries
        ∧ state._mungers.get_key mi.toNat = some gsg._id then
      match state._mungers.get_data mi.toNat with
      | some munger =>
        if munger.is_registered then (state, some munger)
        else gsg.get_geom_munger_lookup make_geom_munger state
      | none => gsg.get_geom_munger_lookup make_geom_munger state
    else
      gsg.get_geom_munger_lookup make_geom_munger state
  else
    gsg.get_geom_munger_create make_geom_munger state

/-- The part of `GraphicsStateGuardian::reset` on the fields kept here. -/
def GraphicsStateGuardian.reset (gsg : GraphicsStateGuardian) : GraphicsStateGuardian :=
  { gsg with
    _state_rs := RenderState.make_empty
    _target_rs := none
    _state_mask := gsg._state_mask.clear
    _scene_setup := some ⟨0, none⟩
    _has_scene_graph_color := false
    _scene_graph_color := LColor.one
    _color_blend_involves_color_scale := false
    _texture_involves_color_scale := false
    _vertex_colors_enabled := true
    _lighting_enabled := false
    _num_lights_enabled := 0
    _num_clip_planes_enabled := 0
    _clip_planes_enabled := false
    _color_scale_enabled := false
    _current_color_scale := LColor.one
    _has_texture_alpha_scale := false
    _has_material_force_color := false
    _material_force_color := LColor.one
    _light_color_scale := LColor.one }

/-- A GSG as the constructor and `reset` leave it, with the given capability
limits and colour-scale options. -/
def GraphicsStateGuardian.make (max_lights max_clip_planes : Int)
    (color_scale_via_lighting alpha_scale_via_texture : Bool) : GraphicsStateGuardian :=
  GraphicsStateGuardian.reset
    { _id := 0
      _max_lights := max_lights
      _max_clip_planes := max_clip_planes
      _color_scale_via_lighting := color_scale_via_lighting
      _alpha_scale_via_texture := alpha_scale_via_texture
      _state_rs := RenderState.make_empty
      _target_rs := none
      _state_mask := ⟨0⟩
      _scene_setup := none
      _current_lens := none
      _coordinate_system := CoordinateSystem.CS_invalid
      _internal_coordinate_system := CoordinateSystem.CS_default
      _cs_transform := TransformState.make_identity
      _inv_cs_transform := TransformState.make_identity
      _projection_mat := none
      _projection_mat_inv := none
      _has_scene_graph_color := false
      _scene_graph_color := LColor.one
      _color_blend_involves_color_scale := false
      _texture_involves_color_scale := false
      _vertex_colors_enabled := true
      _lighting_enabled := false
      _num_lights_enabled := 0
      _num_clip_planes_enabled := 0
      _clip_planes_enabled := false
      _color_scale_enabled := false
      _current_color_scale := LColor.one
      _has_texture_alpha_scale := false
      _has_material_force_color := false
      _material_force_color := LColor.one
      _light_color_scale := LColor.one }

/-- A render state whose light attribute has the given non-ambient on-lights
and no ambient light. -/
def RenderState.with_lights (lights : List LightNode) : RenderState :=
  { RenderState.make_empty with light := some ⟨lights, [], ⟨0, 0, 0, 0⟩⟩ }

/-- Makes `target` the target state and runs `do_issue_light`. -/
def GraphicsStateGuardian.issue_light_for (gsg : GraphicsStateGuardian)
    (target : RenderState) : GraphicsStateGuardian × List GsgCall :=
  GraphicsStateGuardian.do_issue_light { gsg with _target_rs := some target }

/-- Makes `target` the target state and runs `do_issue_clip_plane`. -/
def GraphicsStateGuardian.issue_clip_plane_for
    (filter_to_max : ClipPlaneAttrib → Int → ClipPlaneAttrib)
    (gsg : GraphicsStateGuardian) (target : RenderState) :
    GraphicsStateGuardian × List GsgCall :=
  GraphicsStateGuardian.do_issue_clip_plane filter_to_max { gsg with _target_rs := some target }

/-- The light ids that a sequence of hook calls enables, in order. -/
def enabled_light_ids (calls : List GsgCall) : List Nat :=
  calls.filterMap (fun c =>
    match c with
    | GsgCall.enable_light i true => some i
    | _ => none)

/-- The light ids that a sequence of hook calls disables, in order. -/
def disabled_light_ids (calls : List GsgCall) : List Nat :=
  calls.filterMap (fun c =>
    match c with
    | GsgCall.enable_light i false => some i
    | _ => none)

/-- The lights bound by a sequence of hook calls, each with its id. -/
def light_binds (calls : List GsgCall) : List (LightNode × Nat) :=
  calls.filterMap (fun c =>
    match c with
    | GsgCall.bind_light l i => some (l, i)
    | _ => none)

/-- The plane ids that a sequence of hook calls enables, in order. -/
def enabled_plane_ids (calls : List GsgCall) : List Nat :=
  calls.filterMap (fun c =>
    match c with
    | GsgCall.enable_clip_plane i true => some i
    | _ => none)

/-- The plane ids that a sequence of hook calls disables, in order. -/
def disabled_plane_ids (calls : List GsgCall) : List Nat :=
  calls.filterMap (fun c =>
    match c with
    | GsgCall.enable_clip_plane i false => some i
    | _ => none)

/-- The arguments of the `enable_lighting` calls in a sequence of hook calls. -/
def lighting_switches (calls : List GsgCall) : List Bool :=
  calls.filterMap (fun c =>
    match c with
    | GsgCall.enable_lighting b => some b
    | _ => none)

/-- The arguments of the `enable_clip_planes` calls in a sequence of hook
calls. -/
def clip_switches (calls : List GsgCall) : List Bool :=
  calls.filterMap (fun c =>
    match c with
    | GsgCall.enable_clip_planes b => some b
    | _ => none)

/-- The light has a colour to contribute: the test of `do_issue_light` before
it binds a light. -/
def LightNode.contributes (light : LightNode) : Bool :=
  decide (light.color.x ≠ 0 ∨ light.color.y ≠ 0 ∨ light.color.z ≠ 0)

/-- The plane clips what is visible: the test of `do_issue_clip_plane` before
it binds a plane. -/
def PlaneNode.clips_visible (plane : PlaneNode) : Bool :=
  decide (plane.clip_effect &&& CE_visible ≠ 0)

/-- Every switch in the sequence differs from the flag as it stands when the
switch is made, the flag starting at `flag` and following the switches. -/
def switches_change : Bool → List Bool → Prop
  | _, [] => True
  | flag, b :: rest => b ≠ flag ∧ switches_change b rest

/-- The flag after a sequence of switches: the last switch, or the flag before
if there is none. -/
def flag_after (flag : Bool) (switches : List Bool) : Bool :=
  switches.getLast?.getD flag

/-- The on-lights that `do_issue_light` walks over: the first
`filtered_lights` on-lights of the target light attribute, none if the
attribute is null. -/
def GraphicsStateGuardian.filtered_lights (gsg : GraphicsStateGuardian) : List LightNode :=
  match gsg.target.light with
  | some attrib =>
    attrib.on_lights.take
      (min (size_t_of_int gsg._max_lights) attrib.get_num_non_ambient_lights)
  | none => []

/-- The on-planes that `do_issue_clip_plane` walks over: those of the filtered
target clip-plane attribute, none if the attribute is null. -/
def GraphicsStateGuardian.filtered_planes
    (filter_to_max : ClipPlaneAttrib → Int → ClipPlaneAttrib)
    (gsg : GraphicsStateGuardian) : List PlaneNode :=
  match gsg.target.clip_plane with
  | some attrib => (filter_to_max attrib gsg._max_clip_planes).on_planes
  | none => []

/-- The value `any_on_lights` has in `do_issue_light`: whether the target light
attribute is there and has an on-light. -/
def GraphicsStateGuardian.any_on_lights (gsg : GraphicsStateGuardian) : Bool :=
  match gsg.target.light with
  | some attrib => attrib.has_any_on_light
  | none => false

/-- The non-ambient on-lights of the target light attribute, none if the
attribute is null. -/
def GraphicsStateGuardian.target_non_ambient_lights (gsg : GraphicsStateGuardian) :
    List LightNode :=
  match gsg.target.light with
  | some attrib => attrib.non_ambient_lights
  | none => []

/-- A state change that reaches `do_issue_light` or `do_issue_clip_plane`, with
the target state it is made for. -/
inductive IssueOp where
  | light (target : RenderState)
  | clip_plane (target : RenderState)
  deriving DecidableEq

/-- Runs one state change. -/
def GraphicsStateGuardian.issue (filter_to_max : ClipPlaneAttrib → Int → ClipPlaneAttrib)
    (gsg : GraphicsStateGuardian) : IssueOp → GraphicsStateGuardian × List GsgCall
  | IssueOp.light target => gsg.issue_light_for target
  | IssueOp.clip_plane target => gsg.issue_clip_plane_for filter_to_max target

/-- Runs a sequence of state changes; the hook calls are those of all of them,
in order. -/
def GraphicsStateGuardian.issue_all (filter_to_max : ClipPlaneAttrib → Int → ClipPlaneAttrib)
    (gsg : GraphicsStateGuardian) : List IssueOp → GraphicsStateGuardian × List GsgCall
  | [] => (gsg, [])
  | op :: rest =>
    let r := gsg.issue filter_to_max op
    let rr := GraphicsStateGuardian.issue_all filter_to_max r.1 rest
    (rr.1, r.2 ++ rr.2)

/-- The statement `_state_mask.clear_bit(slot)`. -/
def GraphicsStateGuardian.clear_state_bit (gsg : GraphicsStateGuardian) (slot : Nat) :
    GraphicsStateGuardian :=
  { gsg with _state_mask := gsg._state_mask.clear_bit slot }

/-- First block of `do_issue_color_scale`: "If the previous color scale had
set a special texture, clear the texture now." -/
def GraphicsStateGuardian.color_scale_clear_previous (slots : ClassSlots)
    (gsg : GraphicsStateGuardian) : GraphicsStateGuardian :=
  if gsg._has_texture_alpha_scale then gsg.clear_state_bit slots.TextureAttrib else gsg

/-- Second block of `do_issue_color_scale`: takes over the target colour scale
and resets `_has_texture_alpha_scale`. -/
def GraphicsStateGuardian.color_scale_take_target (target_color_scale : ColorScaleAttrib)
    (gsg : GraphicsStateGuardian) : GraphicsStateGuardian :=
  let gsg := { gsg with _color_scale_enabled := target_color_scale.has_scale }
  let gsg := { gsg with _current_color_scale := target_color_scale.scale }
  { gsg with _has_texture_alpha_scale := false }

/-- Third block of `do_issue_color_scale`: the three tests on what the colour
scale is involved in. -/
def GraphicsStateGuardian.color_scale_invalidate (slots : ClassSlots)
    (gsg : GraphicsStateGuardian) : GraphicsStateGuardian :=
  let gsg :=
    if gsg._color_blend_involves_color_scale then
      gsg.clear_state_bit slots.TransparencyAttrib
    else gsg
  let gsg :=
    if gsg._texture_involves_color_scale then gsg.clear_state_bit slots.TextureAttrib
    else gsg
  if gsg._color_scale_via_lighting then
    let gsg := gsg.clear_state_bit slots.LightAttrib
    let gsg := gsg.clear_state_bit slots.MaterialAttrib
    gsg.determine_light_color_scale
  else gsg

/-- Last block of `do_issue_color_scale`: "This color scale will set a special
texture--so again, clear the texture." -/
def GraphicsStateGuardian.color_scale_set_texture (slots : ClassSlots)
    (target_color_scale : ColorScaleAttrib) (gsg : GraphicsStateGuardian) :
    GraphicsStateGuardian :=
  if gsg._alpha_scale_via_texture && !gsg._has_scene_graph_color
      && gsg._vertex_colors_enabled && target_color_scale.has_alpha_scale then
    let gsg := gsg.clear_state_bit slots.TextureAttrib
    let gsg := gsg.clear_state_bit slots.TexMatrixAttrib
    { gsg with _has_texture_alpha_scale := true }
  else gsg

/-- `GraphicsStateGuardian::do_issue_color_scale`, with the class slots of the
attributes it names passed in: its four blocks in the order of the source. -/
def GraphicsStateGuardian.do_issue_color_scale (slots : ClassSlots)
    (gsg : GraphicsStateGuardian) : GraphicsStateGuardian :=
  let gsg := gsg.color_scale_clear_previous slots
  let target_color_scale := gsg.target.color_scale
  let gsg := gsg.color_scale_take_target target_color_scale
  let gsg := gsg.color_scale_invalidate slots
  gsg.color_scale_set_texture slots target_color_scale

/-- The munger `m` is the one cached on `state` for the GSG with the given id:
it is registered, the munger map has exactly one entry under the id and that
entry holds `m`, and `_last_mi` is the index of that entry. -/
def munger_cached (id : Int) (state : RenderState) (m : GeomMunger) : Prop :=
  m.is_registered = true
  ∧ state._mungers.entries.filter (fun e => decide (e.1 = id)) = [(id, m)]
  ∧ 0 ≤ state._last_mi
  ∧ state._mungers.entries[state._last_mi.toNat]? = some (id, m)

/-- A context that held image 3, was written by a transfer (stage and access
0x1000) into layout 7, was released and then was given the new image 9. -/
def released_and_reused : VulkanTextureContext :=
  { ((({ VulkanTextureContext.fresh with _image := 3 }).transition
        0 7 0x1000 VK_ACCESS_TRANSFER_WRITE_BIT).1.release VulkanFrameData.empty).1
    with _image := 9 }

/-- The source stage masks and the source access masks of the image barriers of
a sequence of barrier commands. -/
def barrier_sources (commands : List PipelineBarrier) : List (Nat × List Nat) :=
  commands.map (fun b => (b.srcStageMask, b.imageMemoryBarriers.map (fun ib => ib.srcAccessMask)))

/-! ## Drawing a bin and its outcomes -/

/-- One call `data._object->draw(_gsg, force, current_thread)` made by
`CullBinFixed::draw`, with the GSG it was given and whether the drawable
managed to draw. The outcome is recorded only: `draw` does not read it. -/
structure DrawRecord where
  object : CullableObject
  gsg : Nat
  force : Bool
  drawn : Bool
  deriving DecidableEq

/-- The range-based `for` loop of `CullBinFixed::draw` over the entries, with
`draws` telling for each drawable whether its draw succeeds. -/
def draw_objects (gsg : Nat) (force : Bool) (draws : CullableObject → Bool) :
    List ObjectData → List DrawRecord
  | [] => []
  | data :: rest =>
    DrawRecord.mk data._object gsg force (draws data._object)
      :: draw_objects gsg force draws rest

/-- `CullBinFixed::draw` on a bin whose `_gsg` (a member of the `CullBin` base
class) is `gsg`: the bin afterwards and the draw calls made. -/
def CullBinFixed.draw_on (bin : CullBinFixed) (gsg : Nat) (force : Bool)
    (draws : CullableObject → Bool) : CullBinFixed × List DrawRecord :=
  (bin, draw_objects gsg force draws bin._objects)

/-- The iterator loop of `CullBinFixed::fill_result_graph`: the objects passed
to `builder.add_object`, in order. -/
def fill_objects : List ObjectData → List CullableObject
  | [] => []
  | data :: rest => data._object :: fill_objects rest

/-- `CullBinFixed::fill_result_graph`: the bin afterwards and the objects
handed to the builder. -/
def CullBinFixed.fill_result_graph_on (bin : CullBinFixed) :
    CullBinFixed × List CullableObject :=
  (bin, fill_objects bin._objects)

/-! ## More of GraphicsStateGuardian -/

/-- An assertion failure raised with `nassert_raise`. -/
inductive AssertRaise where
  /-- The failure "Compute shaders not supported by GSG". -/
  | compute_shaders_not_supported
  deriving DecidableEq

/-- `GraphicsStateGuardian::dispatch_compute` of the base class: the GSG
afterwards and the assertion failures raised. The function returns `void`. -/
def GraphicsStateGuardian.dispatch_compute (gsg : GraphicsStateGuardian)
    (_num_groups_x _num_groups_y _num_groups_z : Int) :
    GraphicsStateGuardian × List AssertRaise :=
  (gsg, [AssertRaise.compute_shaders_not_supported])

/-- The scene setup `_scene_null`, made by `reset` with `new SceneSetup`: it has
no lens. -/
def SceneSetup.scene_null : SceneSetup := ⟨0, none⟩

/-- `GraphicsStateGuardian::end_scene`: the GSG afterwards and the hook calls
made, in order. -/
def GraphicsStateGuardian.end_scene (gsg : GraphicsStateGuardian) :
    GraphicsStateGuardian × List GsgCall :=
  let gsg := { gsg with _scene_setup := some SceneSetup.scene_null }
  let calls :=
    (List.range' 0 gsg._num_lights_enabled).map (fun i => GsgCall.enable_light i false)
  let gsg := { gsg with _num_lights_enabled := 0 }
  let calls :=
    calls ++ (List.range' 0 gsg._num_clip_planes_enabled).map
      (fun i => GsgCall.enable_clip_plane i false)
  let gsg := { gsg with _num_clip_planes_enabled := 0 }
  let gsg := { gsg with _state_rs := RenderState.make_empty }
  let gsg := { gsg with _state_mask := gsg._state_mask.clear }
  (gsg, calls)

/-- `GraphicsStateGuardian::get_cs_transform_for`: the GSG afterwards and the
transform returned. The member function is `const` and assigns no member.
`TransformState.convert_mat a b` stands for the call
`TransformState::make_mat(LMatrix4::convert_mat(a, b))`, as in
`set_coordinate_system`. -/
def GraphicsStateGuardian.get_cs_transform_for (gsg : GraphicsStateGuardian)
    (cs : CoordinateSystem) : GraphicsStateGuardian × TransformState :=
  if gsg._coordinate_system = cs then
    (gsg, gsg._cs_transform)
  else if gsg._internal_coordinate_system = CoordinateSystem.CS_default
      ∨ gsg._internal_coordinate_system = cs then
    (gsg, TransformState.make_identity)
  else
    (gsg, TransformState.convert_mat cs gsg._internal_coordinate_system)

/-- The stored `_cs_transform` is the one `set_coordinate_system` computes for
the stored `_coordinate_system`: what every call of `set_coordinate_system`
that changes the coordinate system leaves behind. -/
def GraphicsStateGuardian.cs_transform_current (gsg : GraphicsStateGuardian) : Prop :=
  gsg._cs_transform
    = (if gsg._internal_coordinate_system = CoordinateSystem.CS_default
          ∨ gsg._internal_coordinate_system = gsg._coordinate_system then
        TransformState.make_identity
      else
        TransformState.convert_mat gsg._coordinate_system gsg._internal_coordinate_system)

instance (gsg : GraphicsStateGuardian) : Decidable gsg.cs_transform_current := by
  unfold GraphicsStateGuardian.cs_transform_current
  infer_instance

/-- A reading of the transforms in which `LMatrix4::convert_mat` takes
`CS_default`, on either side, for the default coordinate system and converts a
coordinate system to itself by the identity matrix, for which
`TransformState::make_mat` gives the identity transform. Neither function is
among the sources. -/
def TransformState.resolved (default_cs : CoordinateSystem) : TransformState → TransformState
  | TransformState.make_identity => TransformState.make_identity
  | TransformState.convert_mat source target =>
    let source := if source = CoordinateSystem.CS_default then default_cs else source
    let target := if target = CoordinateSystem.CS_default then default_cs else target
    if source = target then TransformState.make_identity
    else TransformState.convert_mat source target
  | TransformState.inverse_of t => TransformState.inverse_of (t.resolved default_cs)

/-- What a hook call means for the bracket of bind calls. -/
inductive BindEvent where
  | begin_bind
  | bind
  | end_bind
  | other
  deriving DecidableEq

/-- The hook calls of the light bracket. -/
def light_bind_event : GsgCall → BindEvent
  | GsgCall.begin_bind_lights => BindEvent.begin_bind
  | GsgCall.bind_light _ _ => BindEvent.bind
  | GsgCall.end_bind_lights => BindEvent.end_bind
  | _ => BindEvent.other

/-- The hook calls of the clip-plane bracket. -/
def plane_bind_event : GsgCall → BindEvent
  | GsgCall.begin_bind_clip_planes => BindEvent.begin_bind
  | GsgCall.bind_clip_plane _ _ => BindEvent.bind
  | GsgCall.end_bind_clip_planes => BindEvent.end_bind
  | _ => BindEvent.other

/-- Where a sequence of hook calls stands in the bracket "begin, then one or
more binds, then end". -/
inductive BindPhase where
  | idle
  | begun
  | bound
  | ended
  deriving DecidableEq

/-- One step through the bracket; `none` when the call is out of place: a begin
that is not the first, a bind outside the bracket, an end without a bind before
it or without a begin. -/
def BindPhase.step : BindPhase → BindEvent → Option BindPhase
  | phase, BindEvent.other => some phase
  | BindPhase.idle, BindEvent.begin_bind => some BindPhase.begun
  | BindPhase.begun, BindEvent.bind => some BindPhase.bound
  | BindPhase.bound, BindEvent.bind => some BindPhase.bound
  | BindPhase.bound, BindEvent.end_bind => some BindPhase.ended
  | _, _ => none

/-- Runs a sequence of events through the bracket. -/
def BindPhase.run : BindPhase → List BindEvent → Option BindPhase
  | phase, [] => some phase
  | phase, e :: rest =>
    match phase.step e with
    | some next => BindPhase.run next rest
    | none => none

/-- The plane nodes bound by a sequence of hook calls, each with its id. -/
def plane_binds (calls : List GsgCall) : List (PlaneNode × Nat) :=
  calls.filterMap (fun c =>
    match c with
    | GsgCall.bind_clip_plane p i => some (p, i)
    | _ => none)

/-- The phase of the bracket inside the loops when `n` lights or planes have
been bound. -/
def loop_phase (n : Nat) : BindPhase := if n = 0 then BindPhase.idle else BindPhase.bound

/-! ### Lemmas on the sort -/

theorem submit_objects_aux (objects : List CullableObject) (bin : CullBinFixed) :
    (objects.foldl CullBinFixed.add_object bin)._objects
      = bin._objects ++ objects.map ObjectData.of := by
  induction objects generalizing bin with
  | nil => simp
  | cons o os ih =>
    simp [List.foldl, ih, CullBinFixed.add_object, ObjectData.of]

theorem submit_objects (objects : List CullableObject) :
    (CullBinFixed.submit objects)._objects = objects.map ObjectData.of := by
  simp [CullBinFixed.submit, submit_objects_aux, CullBinFixed.make_bin]

theorem stable_insert_perm (x : ObjectData) (l : List ObjectData) :
    (stable_insert x l).Perm (x :: l) := by
  induction l with
  | nil => simp [stable_insert]
  | cons y ys ih =>
    unfold stable_insert
    split
    · exact (List.Perm.cons y ih).trans (List.Perm.swap x y ys)
    · exact List.Perm.refl _

theorem stable_sort_perm (l : List ObjectData) : (stable_sort l).Perm l := by
  induction l with
  | nil => exact List.Perm.refl _
  | cons x xs ih =>
    exact (stable_insert_perm x (stable_sort xs)).trans (List.Perm.cons x ih)

theorem stable_insert_sorted (x : ObjectData) (l : List ObjectData)
    (h : l.Pairwise (fun a b => a._draw_order ≤ b._draw_order)) :
    (stable_insert x l).Pairwise (fun a b => a._draw_order ≤ b._draw_order) := by
  induction l with
  | nil => simp [stable_insert]
  | cons y ys ih =>
    have hy := List.pairwise_cons.mp h
    unfold stable_insert
    split
    · rename_i hlt
      have hlt2 : y._draw_order < x._draw_order := by
        simpa [ObjectData.lt] using hlt
      refine List.pairwise_cons.mpr ⟨?_, ih hy.2⟩
      intro b hb
      have hb2 := (stable_insert_perm x ys).mem_iff.mp hb
      rcases List.mem_cons.mp hb2 with rfl | hb3
      · exact le_of_lt hlt2
      · exact hy.1 b hb3
    · rename_i hnlt
      have hle : x._draw_order ≤ y._draw_order := by
        simpa [ObjectData.lt] using hnlt
      refine List.pairwise_cons.mpr ⟨?_, h⟩
      intro b hb
      rcases List.mem_cons.mp hb with rfl | hb3
      · exact hle
      · exact le_trans hle (hy.1 b hb3)

theorem stable_sort_sorted (l : List ObjectData) :
    (stable_sort l).Pairwise (fun a b => a._draw_order ≤ b._draw_order) := by
  induction l with
  | nil => exact List.Pairwise.nil
  | cons x xs ih => exact stable_insert_sorted x _ ih

theorem stable_insert_filter (k : Int) (x : ObjectData) (l : List ObjectData) :
    (stable_insert x l).filter (fun d => decide (d._draw_order = k))
      = (x :: l).filter (fun d => decide (d._draw_order = k)) := by
  induction l with
  | nil => simp [stable_insert]
  | cons y ys ih =>
    unfold stable_insert
    split
    · rename_i hlt
      have hlt2 : y._draw_order < x._draw_order := by
        simpa [ObjectData.lt] using hlt
      by_cases hyk : y._draw_order = k
      · have hxk : ¬ x._draw_order = k := by omega
        simp [List.filter_cons, hyk, hxk, ih]
      · simp [List.filter_cons, hyk, ih]
    · rfl

theorem stable_sort_filter (k : Int) (l : List ObjectData) :
    (stable_sort l).filter (fun d => decide (d._draw_order = k))
      = l.filter (fun d => decide (d._draw_order = k)) := by
  induction l with
  | nil => rfl
  | cons x xs ih =>
    show (stable_insert x (stable_sort xs)).filter _ = _
    rw [stable_insert_filter, List.filter_cons, List.filter_cons, ih]

/-! ### Lemmas on `transition` -/

theorem transition_noop (tc : VulkanTextureContext) (q layout s a : Nat)
    (h : tc.read_after_read layout a) :
    tc.transition q layout s a = (tc, []) := by
  obtain ⟨h1, h2, h3⟩ := h
  unfold VulkanTextureContext.transition
  simp only [h1, h2, h3]
  simp

theorem transition_write_eq (tc : VulkanTextureContext) (q layout s a : Nat)
    (h : a &&& WRITE_ACCESS_BITS ≠ 0) :
    tc.transition q layout s a
      = tc.transition_emit (if tc._image = VK_NULL_HANDLE then tc._layout else layout)
          s a (a &&& WRITE_ACCESS_BITS)
          (if tc._write_stage_mask ||| tc._read_stage_mask = 0
            then VK_PIPELINE_STAGE_TOP_OF_PIPE_BIT
            else tc._write_stage_mask ||| tc._read_stage_mask) := by
  unfold VulkanTextureContext.transition
  simp [h]

theorem transition_emits (tc : VulkanTextureContext) (q layout s a : Nat)
    (h : ¬ tc.read_after_read layout a) :
    ∃ src, tc.transition q layout s a
      = tc.transition_emit (if tc._image = VK_NULL_HANDLE then tc._layout else layout)
          s a (a &&& WRITE_ACCESS_BITS) src := by
  unfold VulkanTextureContext.transition
  simp only []
  by_cases h1 : tc._layout ≠ (if tc._image = VK_NULL_HANDLE then tc._layout else layout)
      ∨ a &&& WRITE_ACCESS_BITS ≠ 0
  · rw [if_pos h1]
    exact ⟨_, rfl⟩
  · rw [if_neg h1]
    by_cases h2 : tc._write_stage_mask = 0
    · exfalso
      apply h
      simp only [not_or, not_not] at h1
      exact ⟨h1.1.symm, h1.2, h2⟩
    · rw [if_neg h2]
      exact ⟨_, rfl⟩

theorem transition_emit_fst (tc : VulkanTextureContext) (layout s a wm src : Nat) :
    (tc.transition_emit layout s a wm src).1
      = { tc with
          _layout := layout
          _write_stage_mask := if wm ≠ 0 then s else 0
          _write_access_mask := if wm ≠ 0 then wm else 0
          _read_stage_mask := s &&& not32 VK_PIPELINE_STAGE_BOTTOM_OF_PIPE_BIT } := by
  unfold VulkanTextureContext.transition_emit
  by_cases h : wm = 0 <;> simp [h]

theorem transition_emit_snd (tc : VulkanTextureContext) (layout s a wm src : Nat) :
    ∃ b, (tc.transition_emit layout s a wm src).2 = [b]
      ∧ b.srcStageMask = src ∧ b.dstStageMask = s
      ∧ b.imageMemoryBarriers.length = (if tc._image ≠ VK_NULL_HANDLE then 1 else 0)
      ∧ b.bufferMemoryBarriers.length = (if tc._buffer ≠ VK_NULL_HANDLE then 1 else 0)
      ∧ (∀ ib ∈ b.imageMemoryBarriers,
          ib.oldLayout = tc._layout ∧ ib.newLayout = layout
            ∧ ib.srcAccessMask = tc._write_access_mask ∧ ib.dstAccessMask = a
            ∧ ib.image = tc._image)
      ∧ (∀ bb ∈ b.bufferMemoryBarriers,
          bb.srcAccessMask = tc._write_access_mask ∧ bb.dstAccessMask = a
            ∧ bb.buffer = tc._buffer) := by
  refine ⟨_, rfl, rfl, rfl, ?_, ?_, ?_, ?_⟩
  · by_cases h : tc._image = VK_NULL_HANDLE <;> simp [h]
  · by_cases h : tc._buffer = VK_NULL_HANDLE <;> simp [h]
  · intro ib hib
    by_cases h : tc._image = VK_NULL_HANDLE
    · simp [h] at hib
    · simp [h] at hib
      subst hib
      exact ⟨rfl, rfl, rfl, rfl, rfl⟩
  · intro bb hbb
    by_cases h : tc._buffer = VK_NULL_HANDLE
    · simp [h] at hbb
    · simp [h] at hbb
      subst hbb
      exact ⟨rfl, rfl, rfl⟩

theorem transition_read_barrier (tc : VulkanTextureContext) (q layout s a : Nat)
    (ha : a &&& WRITE_ACCESS_BITS = 0)
    (hl : (if tc._image = VK_NULL_HANDLE then tc._layout else layout) = tc._layout)
    (hw : tc._write_stage_mask ≠ 0) :
    tc.transition q layout s a
      = tc.transition_emit tc._layout s a 0 tc._write_stage_mask := by
  unfold VulkanTextureContext.transition
  simp only [hl, ha]
  simp [hw]

theorem transition_layout_change (tc : VulkanTextureContext) (q layout s a : Nat)
    (hl : (if tc._image = VK_NULL_HANDLE then tc._layout else layout) ≠ tc._layout) :
    tc.transition q layout s a
      = tc.transition_emit (if tc._image = VK_NULL_HANDLE then tc._layout else layout)
          s a (a &&& WRITE_ACCESS_BITS)
          (if tc._write_stage_mask ||| tc._read_stage_mask = 0
            then VK_PIPELINE_STAGE_TOP_OF_PIPE_BIT
            else tc._write_stage_mask ||| tc._read_stage_mask) := by
  unfold VulkanTextureContext.transition
  simp only []
  rw [if_pos (Or.inl (Ne.symm hl))]

end Panda

/-! ## Properties -/

namespace Panda

/-- C1: for every sequence of `add_object` submissions on a new bin, after
`finish_cull` the entries are a permutation of the submitted entries, they are
in non-decreasing draw order, the entries of each draw order are in their
submission order, and `draw` visits the objects in exactly the order of the
entries; for draw orders 5, 1, 5 submitted as items 1, 2, 3 the objects are
drawn in the order item 2, item 1, item 3. -/
theorem C1_finish_cull_stable_sorted_draw (objects : List CullableObject)
    (force : Bool) :
    ((CullBinFixed.submit objects).finish_cull._objects.Perm
        (objects.map ObjectData.of))
    ∧ ((CullBinFixed.submit objects).finish_cull._objects.Pairwise
        (fun a b => a._draw_order ≤ b._draw_order))
    ∧ (∀ k : Int,
        (CullBinFixed.submit objects).finish_cull._objects.filter
            (fun d => decide (d._draw_order = k))
          = (objects.map ObjectData.of).filter
            (fun d => decide (d._draw_order = k)))
    ∧ ((CullBinFixed.submit objects).finish_cull.draw force
        = (CullBinFixed.submit objects).finish_cull._objects.map
            (fun d => DrawCall.mk d._object force))
    ∧ ((CullBinFixed.submit [⟨1, 5⟩, ⟨2, 1⟩, ⟨3, 5⟩]).finish_cull.draw force
        = [⟨⟨2, 1⟩, force⟩, ⟨⟨1, 5⟩, force⟩, ⟨⟨3, 5⟩, force⟩]) := by
  refine ⟨?_, ?_, ?_, rfl, ?_⟩
  · simp only [CullBinFixed.finish_cull, submit_objects]
    exact stable_sort_perm _
  · simp only [CullBinFixed.finish_cull, submit_objects]
    exact stable_sort_sorted _
  · intro k
    simp only [CullBinFixed.finish_cull, submit_objects]
    exact stable_sort_filter k _
  · cases force <;> decide

/-- C7: a `transition` call that does not take the read-after-read early return
records exactly one pipeline-barrier command; the command carries one image
barrier exactly when the image handle is set and one buffer barrier exactly
when the buffer handle is set; its destination stage is the call's argument,
and each barrier in it has the call's access mask as destination access and
the previously recorded write access mask as source access, the image barrier
with the layout before the call as old layout and the layout after the call as
new layout. -/
theorem C7_transition_one_pipeline_barrier (tc : VulkanTextureContext)
    (queue_family layout dst_stage_mask dst_access_mask : Nat)
    (h : ¬ tc.read_after_read layout dst_access_mask) :
    ∃ b : PipelineBarrier,
      (tc.transition queue_family layout dst_stage_mask dst_access_mask).2 = [b]
      ∧ b.dstStageMask = dst_stage_mask
      ∧ b.imageMemoryBarriers.length = (if tc._image ≠ VK_NULL_HANDLE then 1 else 0)
      ∧ b.bufferMemoryBarriers.length = (if tc._buffer ≠ VK_NULL_HANDLE then 1 else 0)
      ∧ (∀ ib ∈ b.imageMemoryBarriers,
          ib.oldLayout = tc._layout
          ∧ ib.newLayout
              = (tc.transition queue_family layout dst_stage_mask dst_access_mask).1._layout
          ∧ ib.srcAccessMask = tc._write_access_mask
          ∧ ib.dstAccessMask = dst_access_mask
          ∧ ib.image = tc._image)
      ∧ (∀ bb ∈ b.bufferMemoryBarriers,
          bb.srcAccessMask = tc._write_access_mask
          ∧ bb.dstAccessMask = dst_access_mask
          ∧ bb.buffer = tc._buffer) := by
  obtain ⟨src, hsrc⟩ := transition_emits tc queue_family layout dst_stage_mask dst_access_mask h
  obtain ⟨b, hb, -, hdst, himg, hbuf, hib, hbb⟩ :=
    transition_emit_snd tc (if tc._image = VK_NULL_HANDLE then tc._layout else layout)
      dst_stage_mask dst_access_mask (dst_access_mask &&& WRITE_ACCESS_BITS) src
  refine ⟨b, ?_, hdst, himg, hbuf, ?_, hbb⟩
  · rw [hsrc]; exact hb
  · intro ib hmem
    obtain ⟨h1, h2, h3, h4, h5⟩ := hib ib hmem
    refine ⟨h1, ?_, h3, h4, h5⟩
    rw [hsrc, transition_emit_fst]
    exact h2

/-- Witness of C7: a write to an image in layout 0, requested in layout 7. -/
theorem C7_transition_one_pipeline_barrier_witness :
    ∃ b : PipelineBarrier,
      (({ VulkanTextureContext.fresh with _image := 3 }).transition 0 7 0x1000 0x1000).2 = [b]
      ∧ b.dstStageMask = 0x1000
      ∧ b.imageMemoryBarriers.length
          = (if ({ VulkanTextureContext.fresh with _image := 3 })._image ≠ VK_NULL_HANDLE
              then 1 else 0)
      ∧ b.bufferMemoryBarriers.length
          = (if ({ VulkanTextureContext.fresh with _image := 3 })._buffer ≠ VK_NULL_HANDLE
              then 1 else 0)
      ∧ (∀ ib ∈ b.imageMemoryBarriers,
          ib.oldLayout = ({ VulkanTextureContext.fresh with _image := 3 })._layout
          ∧ ib.newLayout
              = (({ VulkanTextureContext.fresh with _image := 3 }).transition
                  0 7 0x1000 0x1000).1._layout
          ∧ ib.srcAccessMask
              = ({ VulkanTextureContext.fresh with _image := 3 })._write_access_mask
          ∧ ib.dstAccessMask = 0x1000
          ∧ ib.image = ({ VulkanTextureContext.fresh with _image := 3 })._image)
      ∧ (∀ bb ∈ b.bufferMemoryBarriers,
          bb.srcAccessMask
              = ({ VulkanTextureContext.fresh with _image := 3 })._write_access_mask
          ∧ bb.dstAccessMask = 0x1000
          ∧ bb.buffer = ({ VulkanTextureContext.fresh with _image := 3 })._buffer) :=
  C7_transition_one_pipeline_barrier { VulkanTextureContext.fresh with _image := 3 }
    0 7 0x1000 0x1000 (by decide)


/-- C3: of two consecutive read transitions (destination access masks without a
write bit) that request the same layout, the second records no barrier and
leaves the whole context, so the layout and every stage and access mask,
unchanged, whatever the state before the first; and a read on a context with
no recorded write stage whose layout stays (the requested layout is the
current one, or there is no image) records no barrier and leaves the context
unchanged. -/
theorem C3_read_after_read_noop (tc : VulkanTextureContext)
    (queue_family layout s1 a1 s2 a2 : Nat)
    (h1 : a1 &&& WRITE_ACCESS_BITS = 0) (h2 : a2 &&& WRITE_ACCESS_BITS = 0) :
    ((tc.transition queue_family layout s1 a1).1.transition queue_family layout s2 a2
        = ((tc.transition queue_family layout s1 a1).1, []))
    ∧ (tc._write_stage_mask = 0 →
        (tc._image = VK_NULL_HANDLE ∨ layout = tc._layout) →
        tc.transition queue_family layout s2 a2 = (tc, [])) := by
  have key : ∀ t : VulkanTextureContext, t._write_stage_mask = 0 →
      (t._image = VK_NULL_HANDLE ∨ layout = t._layout) →
      t.transition queue_family layout s2 a2 = (t, []) := by
    intro t hw hl
    apply transition_noop
    refine ⟨?_, h2, hw⟩
    rcases hl with hl | hl
    · simp [hl]
    · simp [hl]
  refine ⟨?_, key tc⟩
  by_cases hn : tc.read_after_read layout a1
  · rw [transition_noop tc queue_family layout s1 a1 hn]
    apply key tc hn.2.2
    by_cases hi : tc._image = VK_NULL_HANDLE
    · exact Or.inl hi
    · right
      have := hn.1
      simpa [hi] using this
  · obtain ⟨src, hsrc⟩ := transition_emits tc queue_family layout s1 a1 hn
    rw [hsrc]
    apply key
    · rw [transition_emit_fst]
      simp [h1]
    · rw [transition_emit_fst]
      by_cases hi : tc._image = VK_NULL_HANDLE
      · exact Or.inl hi
      · right
        simp [hi]

/-- Witness of C3: two shader reads of an image in layout 5, the second from
another stage. -/
theorem C3_read_after_read_noop_witness :
    ((({ VulkanTextureContext.fresh with _image := 3 }).transition 0 5 0x80 0x20).1.transition
          0 5 0x8 0x20
        = ((({ VulkanTextureContext.fresh with _image := 3 }).transition 0 5 0x80 0x20).1, []))
    ∧ (({ VulkanTextureContext.fresh with _image := 3 })._write_stage_mask = 0 →
        (({ VulkanTextureContext.fresh with _image := 3 })._image = VK_NULL_HANDLE
          ∨ 5 = ({ VulkanTextureContext.fresh with _image := 3 })._layout) →
        ({ VulkanTextureContext.fresh with _image := 3 }).transition 0 5 0x8 0x20
          = ({ VulkanTextureContext.fresh with _image := 3 }, [])) :=
  C3_read_after_read_noop { VulkanTextureContext.fresh with _image := 3 }
    0 5 0x80 0x20 0x8 0x20 (by decide) (by decide)

/-- C5 fails as stated: a transfer write to a new image leaves the read stage
mask at the write's stage (0x1000), not at zero. -/
theorem C5_counterexample :
    (({ VulkanTextureContext.fresh with _image := 3 }).transition
        0 VK_IMAGE_LAYOUT_UNDEFINED 0x1000 VK_ACCESS_TRANSFER_WRITE_BIT).1._read_stage_mask
      = 0x1000
    ∧ (({ VulkanTextureContext.fresh with _image := 3 }).transition
        0 VK_IMAGE_LAYOUT_UNDEFINED 0x1000 VK_ACCESS_TRANSFER_WRITE_BIT).1._read_stage_mask
      ≠ 0 := by
  decide

/-- C5 as amended: after a transition whose destination access mask has a write
bit, `_write_stage_mask` is `dst_stage_mask`, `_write_access_mask` is the write
bits of `dst_access_mask`, and `_read_stage_mask` is `dst_stage_mask` without
the bottom-of-pipe bit. -/
theorem C5_write_records_masks (tc : VulkanTextureContext)
    (queue_family layout dst_stage_mask dst_access_mask : Nat)
    (h : dst_access_mask &&& WRITE_ACCESS_BITS ≠ 0) :
    (tc.transition queue_family layout dst_stage_mask dst_access_mask).1._write_stage_mask
      = dst_stage_mask
    ∧ (tc.transition queue_family layout dst_stage_mask dst_access_mask).1._write_access_mask
      = dst_access_mask &&& WRITE_ACCESS_BITS
    ∧ (tc.transition queue_family layout dst_stage_mask dst_access_mask).1._read_stage_mask
      = dst_stage_mask &&& not32 VK_PIPELINE_STAGE_BOTTOM_OF_PIPE_BIT := by
  rw [transition_write_eq tc queue_family layout dst_stage_mask dst_access_mask h,
    transition_emit_fst]
  simp [h]

/-- Witness of C5 as amended: a colour-attachment write at the bottom of the
pipe. -/
theorem C5_write_records_masks_witness :
    (VulkanTextureContext.fresh.transition 0 2 0x2400 0x180).1._write_stage_mask = 0x2400
    ∧ (VulkanTextureContext.fresh.transition 0 2 0x2400 0x180).1._write_access_mask
      = 0x180 &&& WRITE_ACCESS_BITS
    ∧ (VulkanTextureContext.fresh.transition 0 2 0x2400 0x180).1._read_stage_mask
      = 0x2400 &&& not32 VK_PIPELINE_STAGE_BOTTOM_OF_PIPE_BIT :=
  C5_write_records_masks VulkanTextureContext.fresh 0 2 0x2400 0x180 (by decide)

/-- C6 fails as stated: the first shader read of a new image records a barrier
and is not a write, yet it replaces the read stage mask (1 becomes 0x80, not
0x81) and sets the write stage mask to zero (it was 1). -/
theorem C6_counterexample :
    (({ VulkanTextureContext.fresh with _image := 3 }).transition 0 0 0x80 0x20).2 ≠ []
    ∧ 0x20 &&& WRITE_ACCESS_BITS = 0
    ∧ (({ VulkanTextureContext.fresh with _image := 3 }).transition 0 0 0x80 0x20).1._read_stage_mask
        = 0x80
    ∧ ({ VulkanTextureContext.fresh with _image := 3 })._read_stage_mask
          ||| (0x80 &&& not32 VK_PIPELINE_STAGE_BOTTOM_OF_PIPE_BIT) = 0x81
    ∧ (({ VulkanTextureContext.fresh with _image := 3 }).transition 0 0 0x80 0x20).1._write_stage_mask
        = 0
    ∧ ({ VulkanTextureContext.fresh with _image := 3 })._write_stage_mask = 1 := by
  decide

/-- C6 as amended: after a transition that records a barrier and is not a
write, `_read_stage_mask` is `dst_stage_mask` without the bottom-of-pipe bit
(the previous value is replaced), and `_write_stage_mask` and
`_write_access_mask` are both zero. -/
theorem C6_read_barrier_records_masks (tc : VulkanTextureContext)
    (queue_family layout dst_stage_mask dst_access_mask : Nat)
    (hr : dst_access_mask &&& WRITE_ACCESS_BITS = 0)
    (hb : (tc.transition queue_family layout dst_stage_mask dst_access_mask).2 ≠ []) :
    (tc.transition queue_family layout dst_stage_mask dst_access_mask).1._read_stage_mask
      = dst_stage_mask &&& not32 VK_PIPELINE_STAGE_BOTTOM_OF_PIPE_BIT
    ∧ (tc.transition queue_family layout dst_stage_mask dst_access_mask).1._write_stage_mask
      = 0
    ∧ (tc.transition queue_family layout dst_stage_mask dst_access_mask).1._write_access_mask
      = 0 := by
  by_cases hn : tc.read_after_read layout dst_access_mask
  · rw [transition_noop tc queue_family layout dst_stage_mask dst_access_mask hn] at hb
    exact absurd rfl hb
  · obtain ⟨src, hsrc⟩ :=
      transition_emits tc queue_family layout dst_stage_mask dst_access_mask hn
    rw [hsrc, transition_emit_fst]
    simp [hr]

/-- Witness of C6 as amended: a shader read after a transfer write. -/
theorem C6_read_barrier_records_masks_witness :
    (({ VulkanTextureContext.fresh with
          _write_stage_mask := 0x1000, _read_stage_mask := 0x1000 }).transition
        0 0 0x80 0x20).1._read_stage_mask
      = 0x80 &&& not32 VK_PIPELINE_STAGE_BOTTOM_OF_PIPE_BIT
    ∧ (({ VulkanTextureContext.fresh with
          _write_stage_mask := 0x1000, _read_stage_mask := 0x1000 }).transition
        0 0 0x80 0x20).1._write_stage_mask = 0
    ∧ (({ VulkanTextureContext.fresh with
          _write_stage_mask := 0x1000, _read_stage_mask := 0x1000 }).transition
        0 0 0x80 0x20).1._write_access_mask = 0 :=
  C6_read_barrier_records_masks
    { VulkanTextureContext.fresh with _write_stage_mask := 0x1000, _read_stage_mask := 0x1000 }
    0 0 0x80 0x20 (by decide) (by decide)

/-- C8 fails as stated: on a new context without any handle a transfer write
requested in layout 7 records a pipeline-barrier command and changes the
recorded masks. -/
theorem C8_counterexample :
    VulkanTextureContext.fresh._image = VK_NULL_HANDLE
    ∧ VulkanTextureContext.fresh._buffer = VK_NULL_HANDLE
    ∧ (VulkanTextureContext.fresh.transition 0 7 0x1000 0x1000).2
        = [⟨VK_PIPELINE_STAGE_TOP_OF_PIPE_BIT, 0x1000, 0, 0, [], []⟩]
    ∧ (VulkanTextureContext.fresh.transition 0 7 0x1000 0x1000).1._write_stage_mask = 0x1000
    ∧ VulkanTextureContext.fresh._write_stage_mask = 1
    ∧ (VulkanTextureContext.fresh.transition 0 7 0x1000 0x1000).1._write_access_mask = 0x1000
    ∧ VulkanTextureContext.fresh._write_access_mask = 0 := by
  decide

/-- C8 as amended: a transition on a context without a handle (image and buffer
both null) never changes the layout and never records an image or a buffer
barrier, for every requested layout, stage mask and access mask; it records
nothing and leaves the context unchanged exactly when the access is a read and
no write stage is recorded, and otherwise it records one pipeline-barrier
command, which carries no memory barrier. -/
theorem C8_transition_without_handle (tc : VulkanTextureContext)
    (queue_family layout dst_stage_mask dst_access_mask : Nat)
    (hi : tc._image = VK_NULL_HANDLE) (hb : tc._buffer = VK_NULL_HANDLE) :
    (tc.transition queue_family layout dst_stage_mask dst_access_mask).1._layout = tc._layout
    ∧ (∀ b ∈ (tc.transition queue_family layout dst_stage_mask dst_access_mask).2,
        b.imageMemoryBarriers = [] ∧ b.bufferMemoryBarriers = [])
    ∧ ((dst_access_mask &&& WRITE_ACCESS_BITS = 0 ∧ tc._write_stage_mask = 0) →
        tc.transition queue_family layout dst_stage_mask dst_access_mask = (tc, []))
    ∧ (¬ (dst_access_mask &&& WRITE_ACCESS_BITS = 0 ∧ tc._write_stage_mask = 0) →
        (tc.transition queue_family layout dst_stage_mask dst_access_mask).2.length = 1) := by
  have hiff : tc.read_after_read layout dst_access_mask
      ↔ (dst_access_mask &&& WRITE_ACCESS_BITS = 0 ∧ tc._write_stage_mask = 0) := by
    unfold VulkanTextureContext.read_after_read
    simp [hi]
  by_cases hn : tc.read_after_read layout dst_access_mask
  · rw [transition_noop tc queue_family layout dst_stage_mask dst_access_mask hn]
    refine ⟨rfl, ?_, fun _ => rfl, fun hc => absurd (hiff.mp hn) hc⟩
    intro b hmem
    simp at hmem
  · obtain ⟨src, hsrc⟩ :=
      transition_emits tc queue_family layout dst_stage_mask dst_access_mask hn
    obtain ⟨b, hbeq, -, -, himg, hbuf, -, -⟩ :=
      transition_emit_snd tc (if tc._image = VK_NULL_HANDLE then tc._layout else layout)
        dst_stage_mask dst_access_mask (dst_access_mask &&& WRITE_ACCESS_BITS) src
    rw [hsrc]
    refine ⟨?_, ?_, fun hc => absurd (hiff.mpr hc) hn, fun _ => ?_⟩
    · rw [transition_emit_fst]
      simp [hi]
    · intro b2 hmem
      rw [hbeq] at hmem
      simp only [List.mem_singleton] at hmem
      subst hmem
      simp only [hi, hb, ne_eq, not_true_eq_false, if_false] at himg hbuf
      exact ⟨List.length_eq_zero.mp himg, List.length_eq_zero.mp hbuf⟩
    · rw [hbeq]
      rfl

/-- Witness of C8 as amended: the new context without handles, asked for a
transfer write in layout 7. -/
theorem C8_transition_without_handle_witness :
    (VulkanTextureContext.fresh.transition 0 7 0x1000 0x1000).1._layout
      = VulkanTextureContext.fresh._layout
    ∧ (∀ b ∈ (VulkanTextureContext.fresh.transition 0 7 0x1000 0x1000).2,
        b.imageMemoryBarriers = [] ∧ b.bufferMemoryBarriers = [])
    ∧ ((0x1000 &&& WRITE_ACCESS_BITS = 0 ∧ VulkanTextureContext.fresh._write_stage_mask = 0) →
        VulkanTextureContext.fresh.transition 0 7 0x1000 0x1000
          = (VulkanTextureContext.fresh, []))
    ∧ (¬ (0x1000 &&& WRITE_ACCESS_BITS = 0 ∧ VulkanTextureContext.fresh._write_stage_mask = 0) →
        (VulkanTextureContext.fresh.transition 0 7 0x1000 0x1000).2.length = 1) :=
  C8_transition_without_handle VulkanTextureContext.fresh 0 7 0x1000 0x1000 rfl rfl

/-- C9: `release` makes no native destroy call; afterwards the image and buffer
handles of the context are null and both view lists are empty; and each pending
list of the frame data is its old content followed by, respectively, the
former image if it was not null, the former image views in order, the former
buffer if it was not null, the former buffer views in order, and the memory
block. -/
theorem C9_release_defers_destruction (tc : VulkanTextureContext)
    (frame_data : VulkanFrameData) :
    (tc.release frame_data).2.2 = []
    ∧ (tc.release frame_data).1._image = VK_NULL_HANDLE
    ∧ (tc.release frame_data).1._buffer = VK_NULL_HANDLE
    ∧ (tc.release frame_data).1._image_views = []
    ∧ (tc.release frame_data).1._buffer_views = []
    ∧ (tc.release frame_data).2.1._pending_destroy_images
        = frame_data._pending_destroy_images
          ++ (if tc._image ≠ VK_NULL_HANDLE then [tc._image] else [])
    ∧ (tc.release frame_data).2.1._pending_destroy_image_views
        = frame_data._pending_destroy_image_views ++ tc._image_views
    ∧ (tc.release frame_data).2.1._pending_destroy_buffers
        = frame_data._pending_destroy_buffers
          ++ (if tc._buffer ≠ VK_NULL_HANDLE then [tc._buffer] else [])
    ∧ (tc.release frame_data).2.1._pending_destroy_buffer_views
        = frame_data._pending_destroy_buffer_views ++ tc._buffer_views
    ∧ (tc.release frame_data).2.1._pending_free
        = frame_data._pending_free ++ [tc._block] := by
  unfold VulkanTextureContext.release
  by_cases h1 : tc._image = VK_NULL_HANDLE <;>
  by_cases h2 : tc._buffer = VK_NULL_HANDLE <;>
  cases h3 : tc._image_views <;>
  cases h4 : tc._buffer_views <;>
  simp [h1, h2, h3, h4]

theorem read_current_layout (tc : VulkanTextureContext) (q s a : Nat)
    (ha : a &&& WRITE_ACCESS_BITS = 0) :
    (tc.transition q tc._layout s a).2.length = (if tc._write_stage_mask = 0 then 0 else 1)
    ∧ (tc.transition q tc._layout s a).1._layout = tc._layout
    ∧ (tc.transition q tc._layout s a).1._write_stage_mask = 0 := by
  by_cases hw : tc._write_stage_mask = 0
  · rw [transition_noop tc q tc._layout s a ⟨by simp, ha, hw⟩]
    simp [hw]
  · rw [transition_read_barrier tc q tc._layout s a ha (by simp) hw, transition_emit_fst]
    obtain ⟨b, hb, -⟩ := transition_emit_snd tc tc._layout s a 0 tc._write_stage_mask
    rw [hb]
    simp [hw]

theorem write_current_layout (tc : VulkanTextureContext) (q s a : Nat)
    (ha : a &&& WRITE_ACCESS_BITS ≠ 0) :
    (tc.transition q tc._layout s a).2.length = 1
    ∧ (tc.transition q tc._layout s a).1._layout = tc._layout
    ∧ (tc.transition q tc._layout s a).1._write_stage_mask = s := by
  rw [transition_write_eq tc q tc._layout s a ha, transition_emit_fst]
  obtain ⟨b, hb, -⟩ := transition_emit_snd tc (if tc._image = VK_NULL_HANDLE then tc._layout
    else tc._layout) s a (a &&& WRITE_ACCESS_BITS) tc.pending_stages
  unfold VulkanTextureContext.pending_stages at hb
  rw [hb]
  simp [ha]

/-- The numbers of barriers recorded by read, read, write, read, each
requesting the current layout, from a context with the given recorded write
stage. -/
theorem read_read_write_read_counts (tc : VulkanTextureContext)
    (s1 a1 s2 a2 s3 a3 s4 a4 : Nat)
    (h1 : a1 &&& WRITE_ACCESS_BITS = 0) (h2 : a2 &&& WRITE_ACCESS_BITS = 0)
    (h3 : a3 &&& WRITE_ACCESS_BITS ≠ 0) (hs3 : s3 ≠ 0)
    (h4 : a4 &&& WRITE_ACCESS_BITS = 0) :
    (run_transitions tc
        [⟨tc._layout, s1, a1⟩, ⟨tc._layout, s2, a2⟩, ⟨tc._layout, s3, a3⟩,
         ⟨tc._layout, s4, a4⟩]).2.map List.length
      = [if tc._write_stage_mask = 0 then 0 else 1, 0, 1, 1] := by
  simp only [run_transitions, List.map_cons, List.map_nil]
  obtain ⟨c1, l1, w1⟩ := read_current_layout tc 0 s1 a1 h1
  generalize (tc.transition 0 tc._layout s1 a1).1 = t1 at c1 l1 w1 ⊢
  obtain ⟨c2, l2, w2⟩ := read_current_layout t1 0 s2 a2 h2
  rw [l1] at c2 l2 w2
  rw [w1, if_pos rfl] at c2
  generalize (t1.transition 0 tc._layout s2 a2).1 = t2 at c2 l2 w2 ⊢
  obtain ⟨c3, l3, w3⟩ := write_current_layout t2 0 s3 a3 h3
  rw [l2] at c3 l3 w3
  generalize (t2.transition 0 tc._layout s3 a3).1 = t3 at c3 l3 w3 ⊢
  obtain ⟨c4, -, -⟩ := read_current_layout t3 0 s4 a4 h4
  rw [l3] at c4
  rw [w3, if_neg hs3] at c4
  rw [c1, c2, c3, c4]

/-- C4 fails as stated: from a new context with an image, read, read, write,
read, each requesting the current layout (undefined), record a barrier on the
first, the third and the fourth call, three in total. -/
theorem C4_counterexample :
    (run_transitions { VulkanTextureContext.fresh with _image := 3 }
        [⟨0, 0x80, 0x20⟩, ⟨0, 0x80, 0x20⟩, ⟨0, 0x1000, 0x1000⟩, ⟨0, 0x80, 0x20⟩]).2.map
        List.length = [1, 0, 1, 1]
    ∧ (run_transitions { VulkanTextureContext.fresh with _image := 3 }
        [⟨0, 0x80, 0x20⟩, ⟨0, 0x80, 0x20⟩, ⟨0, 0x1000, 0x1000⟩, ⟨0, 0x80, 0x20⟩]).1._layout
        = 0
    ∧ (run_transitions { VulkanTextureContext.fresh with _image := 3 }
        [⟨0, 0x80, 0x20⟩, ⟨0, 0x80, 0x20⟩, ⟨0, 0x1000, 0x1000⟩, ⟨0, 0x80, 0x20⟩]).2.map
        List.length ≠ [0, 0, 1, 1] := by
  decide

/-- C4 as amended: the four transitions read, read, write, read, each
requesting the current layout and the write with a non-zero destination stage
mask, record a barrier on the first, third and fourth call only (three in
total) when they start from a newly constructed context, with whatever
handles, because such a context has `TOP_OF_PIPE` recorded as its write stage,
and likewise from every context with a recorded write stage; they record a
barrier on the third and fourth call only (two in total) when they start from
a context with no recorded write stage. -/
theorem C4_read_read_write_read (tc : VulkanTextureContext)
    (image buffer s1 a1 s2 a2 s3 a3 s4 a4 : Nat)
    (h1 : a1 &&& WRITE_ACCESS_BITS = 0) (h2 : a2 &&& WRITE_ACCESS_BITS = 0)
    (h3 : a3 &&& WRITE_ACCESS_BITS ≠ 0) (hs3 : s3 ≠ 0)
    (h4 : a4 &&& WRITE_ACCESS_BITS = 0) :
    ((run_transitions { VulkanTextureContext.fresh with _image := image, _buffer := buffer }
        [⟨VK_IMAGE_LAYOUT_UNDEFINED, s1, a1⟩, ⟨VK_IMAGE_LAYOUT_UNDEFINED, s2, a2⟩,
         ⟨VK_IMAGE_LAYOUT_UNDEFINED, s3, a3⟩, ⟨VK_IMAGE_LAYOUT_UNDEFINED, s4, a4⟩]).2.map
        List.length = [1, 0, 1, 1])
    ∧ (tc._write_stage_mask ≠ 0 →
        (run_transitions tc
          [⟨tc._layout, s1, a1⟩, ⟨tc._layout, s2, a2⟩, ⟨tc._layout, s3, a3⟩,
           ⟨tc._layout, s4, a4⟩]).2.map List.length = [1, 0, 1, 1])
    ∧ (tc._write_stage_mask = 0 →
        (run_transitions tc
          [⟨tc._layout, s1, a1⟩, ⟨tc._layout, s2, a2⟩, ⟨tc._layout, s3, a3⟩,
           ⟨tc._layout, s4, a4⟩]).2.map List.length = [0, 0, 1, 1]) := by
  refine ⟨?_, ?_, ?_⟩
  · exact read_read_write_read_counts
      { VulkanTextureContext.fresh with _image := image, _buffer := buffer }
      s1 a1 s2 a2 s3 a3 s4 a4 h1 h2 h3 hs3 h4
  · intro hw
    rw [read_read_write_read_counts tc s1 a1 s2 a2 s3 a3 s4 a4 h1 h2 h3 hs3 h4, if_neg hw]
  · intro hw
    rw [read_read_write_read_counts tc s1 a1 s2 a2 s3 a3 s4 a4 h1 h2 h3 hs3 h4, if_pos hw]

/-- Witness of C4 as amended: shader reads and a transfer write on a context
whose image is handle 3. -/
theorem C4_read_read_write_read_witness :
    ((run_transitions { VulkanTextureContext.fresh with _image := 3, _buffer := 0 }
        [⟨VK_IMAGE_LAYOUT_UNDEFINED, 0x80, 0x20⟩, ⟨VK_IMAGE_LAYOUT_UNDEFINED, 0x8, 0x20⟩,
         ⟨VK_IMAGE_LAYOUT_UNDEFINED, 0x1000, 0x1000⟩,
         ⟨VK_IMAGE_LAYOUT_UNDEFINED, 0x80, 0x20⟩]).2.map
        List.length = [1, 0, 1, 1])
    ∧ (VulkanTextureContext.fresh._write_stage_mask ≠ 0 →
        (run_transitions VulkanTextureContext.fresh
          [⟨VulkanTextureContext.fresh._layout, 0x80, 0x20⟩,
           ⟨VulkanTextureContext.fresh._layout, 0x8, 0x20⟩,
           ⟨VulkanTextureContext.fresh._layout, 0x1000, 0x1000⟩,
           ⟨VulkanTextureContext.fresh._layout, 0x80, 0x20⟩]).2.map List.length = [1, 0, 1, 1])
    ∧ (VulkanTextureContext.fresh._write_stage_mask = 0 →
        (run_transitions VulkanTextureContext.fresh
          [⟨VulkanTextureContext.fresh._layout, 0x80, 0x20⟩,
           ⟨VulkanTextureContext.fresh._layout, 0x8, 0x20⟩,
           ⟨VulkanTextureContext.fresh._layout, 0x1000, 0x1000⟩,
           ⟨VulkanTextureContext.fresh._layout, 0x80, 0x20⟩]).2.map List.length = [0, 0, 1, 1]) :=
  C4_read_read_write_read VulkanTextureContext.fresh 3 0 0x80 0x20 0x8 0x20 0x1000 0x1000
    0x80 0x20 (by decide) (by decide) (by decide) (by decide) (by decide)

/-- The stages a later write has to wait for after one read: those of the
read's barrier if it recorded one, the ones pending before otherwise. -/
theorem pending_stages_after_read (tc : VulkanTextureContext) (q layout s a : Nat)
    (ha : a &&& WRITE_ACCESS_BITS = 0) :
    (tc.transition q layout s a).1.pending_stages
      = match (tc.transition q layout s a).2.getLast? with
        | none => tc.pending_stages
        | some rb =>
          if rb.dstStageMask &&& not32 VK_PIPELINE_STAGE_BOTTOM_OF_PIPE_BIT = 0
            then VK_PIPELINE_STAGE_TOP_OF_PIPE_BIT
            else rb.dstStageMask &&& not32 VK_PIPELINE_STAGE_BOTTOM_OF_PIPE_BIT := by
  by_cases hn : tc.read_after_read layout a
  · rw [transition_noop tc q layout s a hn]
    rfl
  · obtain ⟨src, hsrc⟩ := transition_emits tc q layout s a hn
    obtain ⟨b, hb, -, hdst, -⟩ :=
      transition_emit_snd tc (if tc._image = VK_NULL_HANDLE then tc._layout else layout)
        s a (a &&& WRITE_ACCESS_BITS) src
    rw [hsrc, hb, transition_emit_fst]
    simp [VulkanTextureContext.pending_stages, ha, hdst]

theorem pending_stages_after_reads (reads : List Access) :
    ∀ tc : VulkanTextureContext,
    (∀ r ∈ reads, r.dst_access_mask &&& WRITE_ACCESS_BITS = 0) →
    (run_transitions tc reads).1.pending_stages
      = match last_barrier (run_transitions tc reads).2 with
        | none => tc.pending_stages
        | some rb =>
          if rb.dstStageMask &&& not32 VK_PIPELINE_STAGE_BOTTOM_OF_PIPE_BIT = 0
            then VK_PIPELINE_STAGE_TOP_OF_PIPE_BIT
            else rb.dstStageMask &&& not32 VK_PIPELINE_STAGE_BOTTOM_OF_PIPE_BIT := by
  induction reads with
  | nil => intro tc _; rfl
  | cons r rest ih =>
    intro tc hr
    have hr1 := hr r (List.mem_cons_self _ _)
    have ih2 := ih (tc.transition 0 r.layout r.dst_stage_mask r.dst_access_mask).1
      (fun x hx => hr x (List.mem_cons_of_mem _ hx))
    simp only [run_transitions, last_barrier]
    rw [ih2]
    cases hlast : last_barrier
        (run_transitions (tc.transition 0 r.layout r.dst_stage_mask r.dst_access_mask).1 rest).2 with
    | some b => rfl
    | none =>
      simp only []
      exact pending_stages_after_read tc 0 r.layout r.dst_stage_mask r.dst_access_mask hr1

/-- C2 fails as stated: on a new image a transfer write, a fragment-shader read,
a vertex-shader read and a second transfer write record barriers with source
stages 1, 0x1000, none and 0x80; the last is neither the union of the two read
stages with the write stage (0x1088) nor the union of the two read stages
(0x88). -/
theorem C2_counterexample :
    (run_transitions { VulkanTextureContext.fresh with _image := 3 }
        [⟨0, 0x1000, 0x1000⟩, ⟨0, 0x80, 0x20⟩, ⟨0, 0x8, 0x20⟩, ⟨0, 0x1000, 0x1000⟩]).2.map
        (fun out => out.map (fun b => b.srcStageMask))
      = [[1], [0x1000], [], [0x80]]
    ∧ (0x80 : Nat) ≠ 0x80 ||| 0x8 ||| 0x1000
    ∧ (0x80 : Nat) ≠ 0x80 ||| 0x8 := by
  decide

/-- C2 as amended: for every context and every sequence of read transitions
followed by a write transition, the write records exactly one barrier, whose
source stage mask is the union of the write stage mask and the read stage mask
recorded on the context at that point, or `TOP_OF_PIPE` when that union is
zero; when none of the reads recorded a barrier these are the masks from
before the reads, and otherwise the recorded write stage is zero and the
recorded read stage is the destination stage mask, without the bottom-of-pipe
bit, of the last read that recorded a barrier, so that the stages of the other
reads and of the write before them are not in the source stage mask. -/
theorem C2_write_after_reads_barrier (tc : VulkanTextureContext)
    (reads : List Access) (w : Access)
    (hr : ∀ r ∈ reads, r.dst_access_mask &&& WRITE_ACCESS_BITS = 0)
    (hw : w.dst_access_mask &&& WRITE_ACCESS_BITS ≠ 0) :
    ∃ b : PipelineBarrier,
      ((run_transitions tc reads).1.transition 0 w.layout w.dst_stage_mask
          w.dst_access_mask).2 = [b]
      ∧ b.srcStageMask = (run_transitions tc reads).1.pending_stages
      ∧ b.srcStageMask
        = match last_barrier (run_transitions tc reads).2 with
          | none => tc.pending_stages
          | some rb =>
            if rb.dstStageMask &&& not32 VK_PIPELINE_STAGE_BOTTOM_OF_PIPE_BIT = 0
              then VK_PIPELINE_STAGE_TOP_OF_PIPE_BIT
              else rb.dstStageMask &&& not32 VK_PIPELINE_STAGE_BOTTOM_OF_PIPE_BIT := by
  obtain ⟨b, hb, hsrc, -⟩ :=
    transition_emit_snd (run_transitions tc reads).1
      (if (run_transitions tc reads).1._image = VK_NULL_HANDLE
        then (run_transitions tc reads).1._layout else w.layout)
      w.dst_stage_mask w.dst_access_mask (w.dst_access_mask &&& WRITE_ACCESS_BITS)
      (run_transitions tc reads).1.pending_stages
  refine ⟨b, ?_, hsrc, ?_⟩
  · rw [transition_write_eq _ 0 w.layout w.dst_stage_mask w.dst_access_mask hw]
    exact hb
  · rw [hsrc]
    exact pending_stages_after_reads reads tc hr

/-- Witness of C2 as amended: after a transfer write, a fragment-shader read, a
vertex-shader read, then a transfer write. -/
theorem C2_write_after_reads_barrier_witness :
    ∃ b : PipelineBarrier,
      ((run_transitions
          { VulkanTextureContext.fresh with
            _image := 3, _write_stage_mask := 0x1000, _write_access_mask := 0x1000,
            _read_stage_mask := 0x1000 }
          [⟨0, 0x80, 0x20⟩, ⟨0, 0x8, 0x20⟩]).1.transition 0
            (Access.mk 0 0x1000 0x1000).layout (Access.mk 0 0x1000 0x1000).dst_stage_mask
            (Access.mk 0 0x1000 0x1000).dst_access_mask).2 = [b]
      ∧ b.srcStageMask
        = (run_transitions
            { VulkanTextureContext.fresh with
              _image := 3, _write_stage_mask := 0x1000, _write_access_mask := 0x1000,
              _read_stage_mask := 0x1000 }
            [⟨0, 0x80, 0x20⟩, ⟨0, 0x8, 0x20⟩]).1.pending_stages
      ∧ b.srcStageMask
        = match last_barrier (run_transitions
            { VulkanTextureContext.fresh with
              _image := 3, _write_stage_mask := 0x1000, _write_access_mask := 0x1000,
              _read_stage_mask := 0x1000 }
            [⟨0, 0x80, 0x20⟩, ⟨0, 0x8, 0x20⟩]).2 with
          | none =>
            ({ VulkanTextureContext.fresh with
              _image := 3, _write_stage_mask := 0x1000, _write_access_mask := 0x1000,
              _read_stage_mask := 0x1000 } : VulkanTextureContext).pending_stages
          | some rb =>
            if rb.dstStageMask &&& not32 VK_PIPELINE_STAGE_BOTTOM_OF_PIPE_BIT = 0
              then VK_PIPELINE_STAGE_TOP_OF_PIPE_BIT
              else rb.dstStageMask &&& not32 VK_PIPELINE_STAGE_BOTTOM_OF_PIPE_BIT :=
  C2_write_after_reads_barrier
    { VulkanTextureContext.fresh with
      _image := 3, _write_stage_mask := 0x1000, _write_access_mask := 0x1000,
      _read_stage_mask := 0x1000 }
    [⟨0, 0x80, 0x20⟩, ⟨0, 0x8, 0x20⟩] ⟨0, 0x1000, 0x1000⟩ (by decide) (by decide)

/-- What the loop of `do_issue_light` does: lighting is on afterwards if there
was a light, the lights with a colour get the ids from `num_enabled` on in
list order, each is enabled and bound under its id, and nothing is disabled. -/
theorem do_issue_light_loop_spec (lights : List LightNode) :
    ∀ (gsg : GraphicsStateGuardian) (n : Nat),
    (GraphicsStateGuardian.do_issue_light_loop lights gsg n).1
        = { gsg with _lighting_enabled := gsg._lighting_enabled || !lights.isEmpty }
    ∧ (GraphicsStateGuardian.do_issue_light_loop lights gsg n).2.1
        = n + (lights.filter LightNode.contributes).length
    ∧ enabled_light_ids (GraphicsStateGuardian.do_issue_light_loop lights gsg n).2.2
        = List.range' n (lights.filter LightNode.contributes).length
    ∧ disabled_light_ids (GraphicsStateGuardian.do_issue_light_loop lights gsg n).2.2 = []
    ∧ light_binds (GraphicsStateGuardian.do_issue_light_loop lights gsg n).2.2
        = (lights.filter LightNode.contributes).zip
            (List.range' n (lights.filter LightNode.contributes).length)
    ∧ lighting_switches (GraphicsStateGuardian.do_issue_light_loop lights gsg n).2.2
        = (if gsg._lighting_enabled || lights.isEmpty then [] else [true]) := by
  induction lights with
  | nil =>
    intro gsg n
    refine ⟨?_, rfl, rfl, rfl, rfl, ?_⟩
    · simp [GraphicsStateGuardian.do_issue_light_loop]
    · simp [GraphicsStateGuardian.do_issue_light_loop, lighting_switches]
  | cons l rest ih =>
    intro gsg n
    by_cases hc : l.color.x ≠ 0 ∨ l.color.y ≠ 0 ∨ l.color.z ≠ 0
    · have hcon : l.contributes = true := by simp [LightNode.contributes, hc]
      by_cases hl : gsg._lighting_enabled = true
      · obtain ⟨h1, h2, h3, h4, h5, h6⟩ := ih gsg (n + 1)
        simp only [GraphicsStateGuardian.do_issue_light_loop, hl, if_pos hc]
        simp only [hl] at h1 h6
        refine ⟨?_, ?_, ?_, ?_, ?_, ?_⟩
        · simp [h1]
        · simp [h2, hcon]; omega
        · by_cases hn : n = 0 <;>
            simp [enabled_light_ids, List.filterMap_append, hcon, hn, List.range'_succ] at h3 ⊢ <;>
            exact h3
        · by_cases hn : n = 0 <;>
            simp [disabled_light_ids, List.filterMap_append, hn] at h4 ⊢ <;> exact h4
        · by_cases hn : n = 0 <;>
            simp [light_binds, List.filterMap_append, hcon, hn, List.range'_succ] at h5 ⊢ <;>
            exact h5
        · by_cases hn : n = 0 <;>
            simp [lighting_switches, List.filterMap_append, hn] at h6 ⊢ <;> exact h6
      · have hl2 : gsg._lighting_enabled = false := by simpa using hl
        obtain ⟨h1, h2, h3, h4, h5, h6⟩ := ih { gsg with _lighting_enabled := true } (n + 1)
        simp only [GraphicsStateGuardian.do_issue_light_loop, hl2, if_pos hc]
        refine ⟨?_, ?_, ?_, ?_, ?_, ?_⟩
        · simp [h1]
        · simp [h2, hcon]; omega
        · by_cases hn : n = 0 <;>
            simp [enabled_light_ids, List.filterMap_append, hcon, hn, List.range'_succ] at h3 ⊢ <;>
            exact h3
        · by_cases hn : n = 0 <;>
            simp [disabled_light_ids, List.filterMap_append, hn] at h4 ⊢ <;> exact h4
        · by_cases hn : n = 0 <;>
            simp [light_binds, List.filterMap_append, hcon, hn, List.range'_succ] at h5 ⊢ <;>
            exact h5
        · by_cases hn : n = 0 <;>
            simp [lighting_switches, List.filterMap_append, hn] at h6 ⊢ <;> exact h6
    · have hcon : l.contributes = false := by simp [LightNode.contributes, hc]
      by_cases hl : gsg._lighting_enabled = true
      · obtain ⟨h1, h2, h3, h4, h5, h6⟩ := ih gsg n
        simp only [GraphicsStateGuardian.do_issue_light_loop, hl, if_neg hc]
        simp only [hl] at h1 h6
        refine ⟨?_, ?_, ?_, ?_, ?_, ?_⟩
        · simp [h1]
        · simp [h2, hcon]
        · simp [enabled_light_ids, List.filterMap_append, hcon] at h3 ⊢; exact h3
        · simp [disabled_light_ids, List.filterMap_append] at h4 ⊢; exact h4
        · simp [light_binds, List.filterMap_append, hcon] at h5 ⊢; exact h5
        · simp [lighting_switches, List.filterMap_append] at h6 ⊢; exact h6
      · have hl2 : gsg._lighting_enabled = false := by simpa using hl
        obtain ⟨h1, h2, h3, h4, h5, h6⟩ := ih { gsg with _lighting_enabled := true } n
        simp only [GraphicsStateGuardian.do_issue_light_loop, hl2, if_neg hc]
        refine ⟨?_, ?_, ?_, ?_, ?_, ?_⟩
        · simp [h1]
        · simp [h2, hcon]
        · simp [enabled_light_ids, List.filterMap_append, hcon] at h3 ⊢; exact h3
        · simp [disabled_light_ids, List.filterMap_append] at h4 ⊢; exact h4
        · simp [light_binds, List.filterMap_append, hcon] at h5 ⊢; exact h5
        · simp [lighting_switches, List.filterMap_append] at h6 ⊢; exact h6

/-- What the loop of `do_issue_clip_plane` does: clipping is on afterwards if
there was a visible plane, the visible planes get the ids from `num_enabled` on
in list order, and nothing is disabled. -/
theorem do_issue_clip_plane_loop_spec (planes : List PlaneNode) :
    ∀ (gsg : GraphicsStateGuardian) (n : Nat),
    (GraphicsStateGuardian.do_issue_clip_plane_loop planes gsg n).1
        = { gsg with
            _clip_planes_enabled :=
              gsg._clip_planes_enabled || !(planes.filter PlaneNode.clips_visible).isEmpty }
    ∧ (GraphicsStateGuardian.do_issue_clip_plane_loop planes gsg n).2.1
        = n + (planes.filter PlaneNode.clips_visible).length
    ∧ enabled_plane_ids (GraphicsStateGuardian.do_issue_clip_plane_loop planes gsg n).2.2
        = List.range' n (planes.filter PlaneNode.clips_visible).length
    ∧ disabled_plane_ids (GraphicsStateGuardian.do_issue_clip_plane_loop planes gsg n).2.2 = []
    ∧ clip_switches (GraphicsStateGuardian.do_issue_clip_plane_loop planes gsg n).2.2
        = (if gsg._clip_planes_enabled || (planes.filter PlaneNode.clips_visible).isEmpty
            then [] else [true]) := by
  induction planes with
  | nil =>
    intro gsg n
    refine ⟨?_, rfl, rfl, rfl, ?_⟩
    · simp [GraphicsStateGuardian.do_issue_clip_plane_loop]
    · simp [GraphicsStateGuardian.do_issue_clip_plane_loop, clip_switches]
  | cons p rest ih =>
    intro gsg n
    by_cases hc : p.clip_effect &&& CE_visible ≠ 0
    · have hcon : p.clips_visible = true := by simp [PlaneNode.clips_visible, hc]
      by_cases hl : gsg._clip_planes_enabled = true
      · obtain ⟨h1, h2, h3, h4, h6⟩ := ih gsg (n + 1)
        simp only [GraphicsStateGuardian.do_issue_clip_plane_loop, hl, if_pos hc]
        simp only [hl] at h1 h6
        refine ⟨?_, ?_, ?_, ?_, ?_⟩
        · simp [h1]
        · simp [h2, hcon]; omega
        · by_cases hn : n = 0 <;>
            simp [enabled_plane_ids, List.filterMap_append, hcon, hn, List.range'_succ] at h3 ⊢ <;>
            exact h3
        · by_cases hn : n = 0 <;>
            simp [disabled_plane_ids, List.filterMap_append, hn] at h4 ⊢ <;> exact h4
        · by_cases hn : n = 0 <;>
            simp [clip_switches, List.filterMap_append, hn] at h6 ⊢ <;> exact h6
      · have hl2 : gsg._clip_planes_enabled = false := by simpa using hl
        obtain ⟨h1, h2, h3, h4, h6⟩ := ih { gsg with _clip_planes_enabled := true } (n + 1)
        simp only [GraphicsStateGuardian.do_issue_clip_plane_loop, hl2, if_pos hc]
        refine ⟨?_, ?_, ?_, ?_, ?_⟩
        · simp [h1, hcon]
        · simp [h2, hcon]; omega
        · by_cases hn : n = 0 <;>
            simp [enabled_plane_ids, List.filterMap_append, hcon, hn, List.range'_succ] at h3 ⊢ <;>
            exact h3
        · by_cases hn : n = 0 <;>
            simp [disabled_plane_ids, List.filterMap_append, hn] at h4 ⊢ <;> exact h4
        · by_cases hn : n = 0 <;>
            simp [clip_switches, List.filterMap_append, hcon, hn] at h6 ⊢ <;> exact h6
    · have hcon : p.clips_visible = false := by simp [PlaneNode.clips_visible, hc]
      obtain ⟨h1, h2, h3, h4, h6⟩ := ih gsg n
      simp only [GraphicsStateGuardian.do_issue_clip_plane_loop, if_neg hc]
      refine ⟨?_, ?_, ?_, ?_, ?_⟩
      · simp [h1, hcon]
      · simp [h2, hcon]
      · simp [hcon, h3]
      · exact h4
      · simp [hcon, h6]

theorem disabled_light_ids_map (l : List Nat) :
    disabled_light_ids (l.map (fun i => GsgCall.enable_light i false)) = l := by
  induction l with
  | nil => rfl
  | cons a rest ih =>
    simp only [disabled_light_ids, List.map_cons, List.filterMap_cons] at ih ⊢
    rw [ih]

theorem enabled_light_ids_map (l : List Nat) :
    enabled_light_ids (l.map (fun i => GsgCall.enable_light i false)) = [] := by
  induction l with
  | nil => rfl
  | cons a rest ih =>
    simp only [enabled_light_ids, List.map_cons, List.filterMap_cons] at ih ⊢
    exact ih

theorem light_binds_map (l : List Nat) :
    light_binds (l.map (fun i => GsgCall.enable_light i false)) = [] := by
  induction l with
  | nil => rfl
  | cons a rest ih =>
    simp only [light_binds, List.map_cons, List.filterMap_cons] at ih ⊢
    exact ih

theorem lighting_switches_map (l : List Nat) :
    lighting_switches (l.map (fun i => GsgCall.enable_light i false)) = [] := by
  induction l with
  | nil => rfl
  | cons a rest ih =>
    simp only [lighting_switches, List.map_cons, List.filterMap_cons] at ih ⊢
    exact ih

theorem enabled_light_ids_append (a b : List GsgCall) :
    enabled_light_ids (a ++ b) = enabled_light_ids a ++ enabled_light_ids b := by
  simp [enabled_light_ids, List.filterMap_append]

theorem disabled_light_ids_append (a b : List GsgCall) :
    disabled_light_ids (a ++ b) = disabled_light_ids a ++ disabled_light_ids b := by
  simp [disabled_light_ids, List.filterMap_append]

theorem light_binds_append (a b : List GsgCall) :
    light_binds (a ++ b) = light_binds a ++ light_binds b := by
  simp [light_binds, List.filterMap_append]

theorem lighting_switches_append (a b : List GsgCall) :
    lighting_switches (a ++ b) = lighting_switches a ++ lighting_switches b := by
  simp [lighting_switches, List.filterMap_append]

/-- The loop of `do_issue_light` inside the function is the loop over
`filtered_lights`. -/
theorem do_issue_light_loop_eq (gsg : GraphicsStateGuardian) :
    (match gsg.target.light with
      | some attrib =>
        GraphicsStateGuardian.do_issue_light_loop
          (attrib.on_lights.take
            (min (size_t_of_int gsg._max_lights) attrib.get_num_non_ambient_lights)) gsg 0
      | none => (gsg, 0, []))
      = GraphicsStateGuardian.do_issue_light_loop gsg.filtered_lights gsg 0 := by
  unfold GraphicsStateGuardian.filtered_lights
  cases gsg.target.light <;> rfl

/-- The hook calls of `do_issue_light` that enable, disable and bind lights,
and the count it records. -/
theorem do_issue_light_calls (gsg : GraphicsStateGuardian) :
    gsg.do_issue_light.1._num_lights_enabled
        = (gsg.filtered_lights.filter LightNode.contributes).length
    ∧ enabled_light_ids gsg.do_issue_light.2
        = List.range' 0 (gsg.filtered_lights.filter LightNode.contributes).length
    ∧ disabled_light_ids gsg.do_issue_light.2
        = List.range' (gsg.filtered_lights.filter LightNode.contributes).length
            (gsg._num_lights_enabled
              - (gsg.filtered_lights.filter LightNode.contributes).length)
    ∧ light_binds gsg.do_issue_light.2
        = (gsg.filtered_lights.filter LightNode.contributes).zip
            (List.range' 0 (gsg.filtered_lights.filter LightNode.contributes).length) := by
  obtain ⟨h1, h2, h3, h4, h5, -⟩ := do_issue_light_loop_spec gsg.filtered_lights gsg 0
  have hnum : (GraphicsStateGuardian.do_issue_light_loop gsg.filtered_lights gsg 0).1._num_lights_enabled
      = gsg._num_lights_enabled := by rw [h1]
  clear h1
  unfold GraphicsStateGuardian.do_issue_light
  simp only [do_issue_light_loop_eq]
  generalize GraphicsStateGuardian.do_issue_light_loop gsg.filtered_lights gsg 0 = r
    at h2 h3 h4 h5 hnum
  obtain ⟨g1, n1, c1⟩ := r
  simp only [Nat.zero_add] at h2 h3 h4 h5 hnum
  subst h2
  simp only []
  refine ⟨?_, ?_, ?_, ?_⟩
  · split_ifs <;> rfl
  · rw [← h3]
    split_ifs <;>
      simp [enabled_light_ids_append, enabled_light_ids_map] <;>
      simp [enabled_light_ids]
  · rw [← hnum]
    split_ifs <;>
      simp [disabled_light_ids_append, disabled_light_ids_map, h4] <;>
      simp [disabled_light_ids]
  · rw [← h5]
    split_ifs <;>
      simp [light_binds_append, light_binds_map] <;>
      simp [light_binds]

theorem disabled_plane_ids_map (l : List Nat) :
    disabled_plane_ids (l.map (fun i => GsgCall.enable_clip_plane i false)) = l := by
  induction l with
  | nil => rfl
  | cons a rest ih =>
    simp only [disabled_plane_ids, List.map_cons, List.filterMap_cons] at ih ⊢
    rw [ih]

theorem enabled_plane_ids_map (l : List Nat) :
    enabled_plane_ids (l.map (fun i => GsgCall.enable_clip_plane i false)) = [] := by
  induction l with
  | nil => rfl
  | cons a rest ih =>
    simp only [enabled_plane_ids, List.map_cons, List.filterMap_cons] at ih ⊢
    exact ih

theorem clip_switches_map (l : List Nat) :
    clip_switches (l.map (fun i => GsgCall.enable_clip_plane i false)) = [] := by
  induction l with
  | nil => rfl
  | cons a rest ih =>
    simp only [clip_switches, List.map_cons, List.filterMap_cons] at ih ⊢
    exact ih

theorem enabled_plane_ids_append (a b : List GsgCall) :
    enabled_plane_ids (a ++ b) = enabled_plane_ids a ++ enabled_plane_ids b := by
  simp [enabled_plane_ids, List.filterMap_append]

theorem disabled_plane_ids_append (a b : List GsgCall) :
    disabled_plane_ids (a ++ b) = disabled_plane_ids a ++ disabled_plane_ids b := by
  simp [disabled_plane_ids, List.filterMap_append]

theorem clip_switches_append (a b : List GsgCall) :
    clip_switches (a ++ b) = clip_switches a ++ clip_switches b := by
  simp [clip_switches, List.filterMap_append]

/-- The loop of `do_issue_clip_plane` inside the function is the loop over
`filtered_planes`. -/
theorem do_issue_clip_plane_loop_eq
    (filter_to_max : ClipPlaneAttrib → Int → ClipPlaneAttrib) (gsg : GraphicsStateGuardian) :
    (match gsg.target.clip_plane with
      | some attrib =>
        GraphicsStateGuardian.do_issue_clip_plane_loop
          (filter_to_max attrib gsg._max_clip_planes).on_planes gsg 0
      | none => (gsg, 0, []))
      = GraphicsStateGuardian.do_issue_clip_plane_loop (gsg.filtered_planes filter_to_max) gsg 0 := by
  unfold GraphicsStateGuardian.filtered_planes
  cases gsg.target.clip_plane <;> rfl

/-- The hook calls of `do_issue_clip_plane` that enable and disable planes, and
the count it records. -/
theorem do_issue_clip_plane_calls
    (filter_to_max : ClipPlaneAttrib → Int → ClipPlaneAttrib) (gsg : GraphicsStateGuardian) :
    (gsg.do_issue_clip_plane filter_to_max).1._num_clip_planes_enabled
        = ((gsg.filtered_planes filter_to_max).filter PlaneNode.clips_visible).length
    ∧ enabled_plane_ids (gsg.do_issue_clip_plane filter_to_max).2
        = List.range' 0 ((gsg.filtered_planes filter_to_max).filter PlaneNode.clips_visible).length
    ∧ disabled_plane_ids (gsg.do_issue_clip_plane filter_to_max).2
        = List.range' ((gsg.filtered_planes filter_to_max).filter PlaneNode.clips_visible).length
            (gsg._num_clip_planes_enabled
              - ((gsg.filtered_planes filter_to_max).filter PlaneNode.clips_visible).length) := by
  obtain ⟨h1, h2, h3, h4, -⟩ :=
    do_issue_clip_plane_loop_spec (gsg.filtered_planes filter_to_max) gsg 0
  have hnum : (GraphicsStateGuardian.do_issue_clip_plane_loop
      (gsg.filtered_planes filter_to_max) gsg 0).1._num_clip_planes_enabled
      = gsg._num_clip_planes_enabled := by rw [h1]
  clear h1
  unfold GraphicsStateGuardian.do_issue_clip_plane
  simp only [do_issue_clip_plane_loop_eq]
  generalize GraphicsStateGuardian.do_issue_clip_plane_loop
    (gsg.filtered_planes filter_to_max) gsg 0 = r at h2 h3 h4 hnum
  obtain ⟨g1, n1, c1⟩ := r
  simp only [Nat.zero_add] at h2 h3 h4 hnum
  subst h2
  simp only []
  refine ⟨?_, ?_, ?_⟩
  · split_ifs <;> rfl
  · rw [← h3]
    split_ifs <;>
      simp [enabled_plane_ids_append, enabled_plane_ids_map] <;>
      simp [enabled_plane_ids]
  · rw [← hnum]
    split_ifs <;>
      simp [disabled_plane_ids_append, disabled_plane_ids_map, h4] <;>
      simp [disabled_plane_ids]

/-- The `enable_lighting` calls of `do_issue_light` and the flag it leaves:
each call changes the flag, and the flag is the argument of the last call. -/
theorem do_issue_light_flag (gsg : GraphicsStateGuardian) :
    switches_change gsg._lighting_enabled (lighting_switches gsg.do_issue_light.2)
    ∧ gsg.do_issue_light.1._lighting_enabled
        = flag_after gsg._lighting_enabled (lighting_switches gsg.do_issue_light.2) := by
  obtain ⟨h1, -, -, -, -, h6⟩ := do_issue_light_loop_spec gsg.filtered_lights gsg 0
  have hflag : (GraphicsStateGuardian.do_issue_light_loop gsg.filtered_lights gsg 0).1._lighting_enabled
      = (gsg._lighting_enabled || !gsg.filtered_lights.isEmpty) := by rw [h1]
  clear h1
  unfold GraphicsStateGuardian.do_issue_light
  simp only [do_issue_light_loop_eq]
  generalize GraphicsStateGuardian.do_issue_light_loop gsg.filtered_lights gsg 0 = r
    at h6 hflag
  obtain ⟨g1, n1, c1⟩ := r
  simp only [] at h6 hflag
  simp only []
  generalize gsg._lighting_enabled = f at h6 hflag
  generalize gsg.filtered_lights.isEmpty = e at h6 hflag
  cases f <;> cases e <;> simp at h6 hflag <;>
    split_ifs <;>
    simp_all [lighting_switches_append, lighting_switches_map, switches_change, flag_after] <;>
    simp_all [lighting_switches, switches_change, flag_after]

/-- The `enable_clip_planes` calls of `do_issue_clip_plane` and the flag it
leaves: each call changes the flag, and the flag is the argument of the last
call. -/
theorem do_issue_clip_plane_flag
    (filter_to_max : ClipPlaneAttrib → Int → ClipPlaneAttrib) (gsg : GraphicsStateGuardian) :
    switches_change gsg._clip_planes_enabled
        (clip_switches (gsg.do_issue_clip_plane filter_to_max).2)
    ∧ (gsg.do_issue_clip_plane filter_to_max).1._clip_planes_enabled
        = flag_after gsg._clip_planes_enabled
            (clip_switches (gsg.do_issue_clip_plane filter_to_max).2) := by
  obtain ⟨h1, h2, -, -, h6⟩ :=
    do_issue_clip_plane_loop_spec (gsg.filtered_planes filter_to_max) gsg 0
  have hflag : (GraphicsStateGuardian.do_issue_clip_plane_loop
      (gsg.filtered_planes filter_to_max) gsg 0).1._clip_planes_enabled
      = (gsg._clip_planes_enabled
          || !((gsg.filtered_planes filter_to_max).filter PlaneNode.clips_visible).isEmpty) := by
    rw [h1]
  clear h1
  unfold GraphicsStateGuardian.do_issue_clip_plane
  simp only [do_issue_clip_plane_loop_eq]
  generalize GraphicsStateGuardian.do_issue_clip_plane_loop
    (gsg.filtered_planes filter_to_max) gsg 0 = r at h2 h6 hflag
  obtain ⟨g1, n1, c1⟩ := r
  simp only [Nat.zero_add] at h2 h6 hflag
  subst h2
  simp only []
  generalize gsg._clip_planes_enabled = f at h6 hflag
  cases hl : (gsg.filtered_planes filter_to_max).filter PlaneNode.clips_visible with
  | nil =>
    rw [hl] at h6 hflag
    cases f <;> simp at h6 hflag <;>
      simp_all [clip_switches_append, clip_switches_map, switches_change, flag_after] <;>
      simp_all [clip_switches, switches_change, flag_after]
  | cons p ps =>
    rw [hl] at h6 hflag
    cases f <;> simp at h6 hflag <;>
      simp_all [clip_switches_append, clip_switches_map, switches_change, flag_after] <;>
      simp_all [clip_switches, switches_change, flag_after]

theorem do_issue_light_loop_no_clip (lights : List LightNode) :
    ∀ (gsg : GraphicsStateGuardian) (n : Nat),
    clip_switches (GraphicsStateGuardian.do_issue_light_loop lights gsg n).2.2 = [] := by
  induction lights with
  | nil => intro gsg n; rfl
  | cons l rest ih =>
    intro gsg n
    simp only [GraphicsStateGuardian.do_issue_light_loop]
    split_ifs <;> simp only [clip_switches_append, ih, List.append_nil] <;> rfl

theorem do_issue_clip_plane_loop_no_lighting (planes : List PlaneNode) :
    ∀ (gsg : GraphicsStateGuardian) (n : Nat),
    lighting_switches (GraphicsStateGuardian.do_issue_clip_plane_loop planes gsg n).2.2 = [] := by
  induction planes with
  | nil => intro gsg n; rfl
  | cons l rest ih =>
    intro gsg n
    simp only [GraphicsStateGuardian.do_issue_clip_plane_loop]
    split_ifs <;> simp only [lighting_switches_append, ih, List.append_nil] <;> rfl

/-- `do_issue_light` makes no `enable_clip_planes` call and leaves the clipping
flag alone. -/
theorem do_issue_light_no_clip (gsg : GraphicsStateGuardian) :
    clip_switches gsg.do_issue_light.2 = []
    ∧ gsg.do_issue_light.1._clip_planes_enabled = gsg._clip_planes_enabled := by
  obtain ⟨h1, -⟩ := do_issue_light_loop_spec gsg.filtered_lights gsg 0
  have hc := do_issue_light_loop_no_clip gsg.filtered_lights gsg 0
  have hflag : (GraphicsStateGuardian.do_issue_light_loop gsg.filtered_lights gsg 0).1._clip_planes_enabled
      = gsg._clip_planes_enabled := by rw [h1]
  clear h1
  unfold GraphicsStateGuardian.do_issue_light
  simp only [do_issue_light_loop_eq]
  generalize GraphicsStateGuardian.do_issue_light_loop gsg.filtered_lights gsg 0 = r
    at hc hflag
  obtain ⟨g1, n1, c1⟩ := r
  simp only [] at hc hflag
  simp only []
  refine ⟨?_, ?_⟩
  · split_ifs <;> simp [clip_switches_append, clip_switches_map, hc] <;> simp [clip_switches]
  · rw [← hflag]
    split_ifs <;> rfl

/-- `do_issue_clip_plane` makes no `enable_lighting` call and leaves the
lighting flag alone. -/
theorem do_issue_clip_plane_no_lighting
    (filter_to_max : ClipPlaneAttrib → Int → ClipPlaneAttrib) (gsg : GraphicsStateGuardian) :
    lighting_switches (gsg.do_issue_clip_plane filter_to_max).2 = []
    ∧ (gsg.do_issue_clip_plane filter_to_max).1._lighting_enabled = gsg._lighting_enabled := by
  obtain ⟨h1, -⟩ := do_issue_clip_plane_loop_spec (gsg.filtered_planes filter_to_max) gsg 0
  have hc := do_issue_clip_plane_loop_no_lighting (gsg.filtered_planes filter_to_max) gsg 0
  have hflag : (GraphicsStateGuardian.do_issue_clip_plane_loop
      (gsg.filtered_planes filter_to_max) gsg 0).1._lighting_enabled
      = gsg._lighting_enabled := by rw [h1]
  clear h1
  unfold GraphicsStateGuardian.do_issue_clip_plane
  simp only [do_issue_clip_plane_loop_eq]
  generalize GraphicsStateGuardian.do_issue_clip_plane_loop
    (gsg.filtered_planes filter_to_max) gsg 0 = r at hc hflag
  obtain ⟨g1, n1, c1⟩ := r
  simp only [] at hc hflag
  simp only []
  refine ⟨?_, ?_⟩
  · split_ifs <;> simp [lighting_switches_append, hc] <;>
      simp [lighting_switches, List.filterMap_map]
  · rw [← hflag]
    split_ifs <;> rfl

/-- C11, evaluated on the code: after a `do_issue_light` that bound light A
(node 1) to id 0 and light B (node 2) to id 1, a `do_issue_light` for the
on-lights B, C binds B to id 0 and C to id 1; B does not stay on id 1. -/
theorem C11_light_moves_to_slot_zero :
    light_binds ((GraphicsStateGuardian.make 8 8 false false).issue_light_for
        (RenderState.with_lights [⟨1, LColor.one⟩, ⟨2, LColor.one⟩])).2
      = [(⟨1, LColor.one⟩, 0), (⟨2, LColor.one⟩, 1)]
    ∧ light_binds
        (((GraphicsStateGuardian.make 8 8 false false).issue_light_for
            (RenderState.with_lights [⟨1, LColor.one⟩, ⟨2, LColor.one⟩])).1.issue_light_for
          (RenderState.with_lights [⟨2, LColor.one⟩, ⟨3, LColor.one⟩])).2
      = [(⟨2, LColor.one⟩, 0), (⟨3, LColor.one⟩, 1)] := by
  decide

/-- C12: `do_issue_light` records as `_num_lights_enabled` the number n of
lights it enables, and calls `enable_light(i, false)` exactly for the ids i from
n up to the count p that the previous run left, once each in rising order;
`do_issue_clip_plane` does the same with `enable_clip_plane` and
`_num_clip_planes_enabled`. After a state with two lights, a state with one
light gives exactly the one call `enable_light(1, false)`. -/
theorem C12_disables_slots_beyond_new_count
    (filter_to_max : ClipPlaneAttrib → Int → ClipPlaneAttrib) (gsg : GraphicsStateGuardian) :
    (gsg.do_issue_light.1._num_lights_enabled = (enabled_light_ids gsg.do_issue_light.2).length
      ∧ disabled_light_ids gsg.do_issue_light.2
          = List.range' gsg.do_issue_light.1._num_lights_enabled
              (gsg._num_lights_enabled - gsg.do_issue_light.1._num_lights_enabled))
    ∧ ((gsg.do_issue_clip_plane filter_to_max).1._num_clip_planes_enabled
          = (enabled_plane_ids (gsg.do_issue_clip_plane filter_to_max).2).length
      ∧ disabled_plane_ids (gsg.do_issue_clip_plane filter_to_max).2
          = List.range' (gsg.do_issue_clip_plane filter_to_max).1._num_clip_planes_enabled
              (gsg._num_clip_planes_enabled
                - (gsg.do_issue_clip_plane filter_to_max).1._num_clip_planes_enabled))
    ∧ disabled_light_ids
        (((GraphicsStateGuardian.make 8 8 false false).issue_light_for
            (RenderState.with_lights [⟨1, LColor.one⟩, ⟨2, LColor.one⟩])).1.issue_light_for
          (RenderState.with_lights [⟨1, LColor.one⟩])).2 = [1] := by
  obtain ⟨h1, h2, h3, -⟩ := do_issue_light_calls gsg
  obtain ⟨k1, k2, k3⟩ := do_issue_clip_plane_calls filter_to_max gsg
  refine ⟨⟨?_, ?_⟩, ⟨?_, ?_⟩, by decide⟩
  · rw [h1, h2, List.length_range']
  · rw [h1, h3]
  · rw [k1, k2, List.length_range']
  · rw [k1, k3]

/-- C13, evaluated on the code: after a state with the lights A (node 1) and B
(node 2) on ids 0 and 1, the `do_issue_light` for a state that keeps only A
binds A to id 0 again. -/
theorem C13_retained_light_rebound :
    (((GraphicsStateGuardian.make 8 8 false false).issue_light_for
        (RenderState.with_lights [⟨1, LColor.one⟩, ⟨2, LColor.one⟩])).1.issue_light_for
      (RenderState.with_lights [⟨1, LColor.one⟩])).2
      = [GsgCall.enable_light 0 true, GsgCall.begin_bind_lights,
         GsgCall.bind_light ⟨1, LColor.one⟩ 0, GsgCall.enable_light 1 false,
         GsgCall.set_ambient_light ⟨0, 0, 0, 0⟩, GsgCall.end_bind_lights]
    ∧ light_binds
        (((GraphicsStateGuardian.make 8 8 false false).issue_light_for
            (RenderState.with_lights [⟨1, LColor.one⟩, ⟨2, LColor.one⟩])).1.issue_light_for
          (RenderState.with_lights [⟨1, LColor.one⟩])).2
      = [(⟨1, LColor.one⟩, 0)] := by
  decide

/-- C16: the second of two `set_state_and_transform` calls with the same state
and transform makes no hook call and leaves every field of the GSG as it is
(in the base class the first makes none either). -/
theorem C16_set_state_and_transform_idempotent (gsg : GraphicsStateGuardian)
    (state : Option RenderState) (trans : TransformState) :
    (gsg.set_state_and_transform state trans).1.set_state_and_transform state trans
      = ((gsg.set_state_and_transform state trans).1, [])
    ∧ (gsg.set_state_and_transform state trans).2 = [] :=
  ⟨rfl, rfl⟩

/-- With a device maximum in the range of a non-negative `int`, the on-lights
that `do_issue_light` walks over are the first `_max_lights` non-ambient
on-lights of the target. -/
theorem filtered_lights_eq (gsg : GraphicsStateGuardian)
    (h0 : 0 ≤ gsg._max_lights) (h1 : gsg._max_lights < 2 ^ 31) :
    gsg.filtered_lights = gsg.target_non_ambient_lights.take gsg._max_lights.toNat := by
  have hs : size_t_of_int gsg._max_lights = gsg._max_lights.toNat := by
    unfold size_t_of_int
    rw [Int.emod_eq_of_lt h0 (by omega)]
  unfold GraphicsStateGuardian.filtered_lights GraphicsStateGuardian.target_non_ambient_lights
  cases gsg.target.light with
  | none => simp
  | some a =>
    simp only [hs, LightAttrib.on_lights, LightAttrib.get_num_non_ambient_lights]
    rw [List.take_append_of_le_length (Nat.min_le_right _ _)]
    by_cases hle : gsg._max_lights.toNat ≤ a.non_ambient_lights.length
    · rw [Nat.min_eq_left hle]
    · have hle2 : a.non_ambient_lights.length ≤ gsg._max_lights.toNat := by omega
      rw [Nat.min_eq_right hle2, List.take_of_length_le (le_refl _),
        List.take_of_length_le hle2]

/-- C15: for every device maximum `_max_lights >= 0` and every target light
attribute, `do_issue_light` (a total function) enables exactly the light ids
0, ..., k-1, where k, the count it records, is at most `_max_lights` and at
most the number of non-ambient on-lights; the lights it binds are those of
the first `_max_lights` non-ambient on-lights that have a colour, in list
order, on the ids 0, ..., k-1, so the lights beyond the maximum are not
bound. -/
theorem C15_lights_clamped_to_maximum (gsg : GraphicsStateGuardian)
    (h0 : 0 ≤ gsg._max_lights) (h1 : gsg._max_lights < 2 ^ 31) :
    enabled_light_ids gsg.do_issue_light.2
        = List.range gsg.do_issue_light.1._num_lights_enabled
    ∧ (gsg.do_issue_light.1._num_lights_enabled : Int) ≤ gsg._max_lights
    ∧ gsg.do_issue_light.1._num_lights_enabled ≤ gsg.target_non_ambient_lights.length
    ∧ light_binds gsg.do_issue_light.2
        = ((gsg.target_non_ambient_lights.take gsg._max_lights.toNat).filter
              LightNode.contributes).zip
            (List.range gsg.do_issue_light.1._num_lights_enabled) := by
  obtain ⟨c1, c2, -, c4⟩ := do_issue_light_calls gsg
  have hf := filtered_lights_eq gsg h0 h1
  have hlen : (gsg.filtered_lights.filter LightNode.contributes).length
      ≤ (gsg.target_non_ambient_lights.take gsg._max_lights.toNat).length := by
    rw [hf]
    exact List.length_filter_le _ _
  rw [List.length_take] at hlen
  refine ⟨?_, ?_, ?_, ?_⟩
  · rw [c1, c2, List.range_eq_range']
  · rw [c1]
    have : (gsg.filtered_lights.filter LightNode.contributes).length ≤ gsg._max_lights.toNat :=
      le_trans hlen (Nat.min_le_left _ _)
    omega
  · rw [c1]
    exact le_trans hlen (Nat.min_le_right _ _)
  · rw [c4, c1, List.range_eq_range', hf]

/-- Witness of C15: three coloured lights on a device with two light ids. -/
theorem C15_lights_clamped_to_maximum_witness :
    enabled_light_ids
        (GraphicsStateGuardian.do_issue_light
          { GraphicsStateGuardian.make 2 8 false false with
            _target_rs := some (RenderState.with_lights
              [⟨1, LColor.one⟩, ⟨2, LColor.one⟩, ⟨3, LColor.one⟩]) }).2
        = List.range (GraphicsStateGuardian.do_issue_light
          { GraphicsStateGuardian.make 2 8 false false with
            _target_rs := some (RenderState.with_lights
              [⟨1, LColor.one⟩, ⟨2, LColor.one⟩, ⟨3, LColor.one⟩]) }).1._num_lights_enabled
    ∧ ((GraphicsStateGuardian.do_issue_light
          { GraphicsStateGuardian.make 2 8 false false with
            _target_rs := some (RenderState.with_lights
              [⟨1, LColor.one⟩, ⟨2, LColor.one⟩, ⟨3, LColor.one⟩]) }).1._num_lights_enabled : Int)
        ≤ ({ GraphicsStateGuardian.make 2 8 false false with
            _target_rs := some (RenderState.with_lights
              [⟨1, LColor.one⟩, ⟨2, LColor.one⟩, ⟨3, LColor.one⟩]) }
            : GraphicsStateGuardian)._max_lights
    ∧ (GraphicsStateGuardian.do_issue_light
          { GraphicsStateGuardian.make 2 8 false false with
            _target_rs := some (RenderState.with_lights
              [⟨1, LColor.one⟩, ⟨2, LColor.one⟩, ⟨3, LColor.one⟩]) }).1._num_lights_enabled
        ≤ (GraphicsStateGuardian.target_non_ambient_lights
          { GraphicsStateGuardian.make 2 8 false false with
            _target_rs := some (RenderState.with_lights
              [⟨1, LColor.one⟩, ⟨2, LColor.one⟩, ⟨3, LColor.one⟩]) }).length
    ∧ light_binds
        (GraphicsStateGuardian.do_issue_light
          { GraphicsStateGuardian.make 2 8 false false with
            _target_rs := some (RenderState.with_lights
              [⟨1, LColor.one⟩, ⟨2, LColor.one⟩, ⟨3, LColor.one⟩]) }).2
        = (((GraphicsStateGuardian.target_non_ambient_lights
              { GraphicsStateGuardian.make 2 8 false false with
                _target_rs := some (RenderState.with_lights
                  [⟨1, LColor.one⟩, ⟨2, LColor.one⟩, ⟨3, LColor.one⟩]) }).take
              ({ GraphicsStateGuardian.make 2 8 false false with
                _target_rs := some (RenderState.with_lights
                  [⟨1, LColor.one⟩, ⟨2, LColor.one⟩, ⟨3, LColor.one⟩]) }
                : GraphicsStateGuardian)._max_lights.toNat).filter
              LightNode.contributes).zip
            (List.range (GraphicsStateGuardian.do_issue_light
              { GraphicsStateGuardian.make 2 8 false false with
                _target_rs := some (RenderState.with_lights
                  [⟨1, LColor.one⟩, ⟨2, LColor.one⟩, ⟨3, LColor.one⟩]) }).1._num_lights_enabled) :=
  C15_lights_clamped_to_maximum
    { GraphicsStateGuardian.make 2 8 false false with
      _target_rs := some (RenderState.with_lights
        [⟨1, LColor.one⟩, ⟨2, LColor.one⟩, ⟨3, LColor.one⟩]) }
    (by decide) (by decide)

/-- When the target has no on-light, `do_issue_light` walks over no light. -/
theorem filtered_lights_of_no_on_lights (gsg : GraphicsStateGuardian)
    (h : gsg.any_on_lights = false) : gsg.filtered_lights = [] := by
  unfold GraphicsStateGuardian.any_on_lights at h
  unfold GraphicsStateGuardian.filtered_lights
  cases hl : gsg.target.light with
  | none => rfl
  | some a =>
    rw [hl] at h
    simp only [LightAttrib.has_any_on_light, Bool.not_eq_false', List.isEmpty_iff] at h
    simp [h]

/-- What `do_issue_light` does to lighting as a whole when the target has no
on-light. -/
theorem do_issue_light_no_on_lights (gsg : GraphicsStateGuardian)
    (h : gsg.any_on_lights = false) :
    gsg.do_issue_light.1._lighting_enabled
        = (gsg._color_scale_via_lighting
            && (gsg._has_material_force_color || decide (gsg._light_color_scale ≠ LColor.one)))
    ∧ lighting_switches gsg.do_issue_light.2
        = (if gsg._lighting_enabled
              = (gsg._color_scale_via_lighting
                  && (gsg._has_material_force_color
                      || decide (gsg._light_color_scale ≠ LColor.one)))
            then []
            else [gsg._color_scale_via_lighting
                  && (gsg._has_material_force_color
                      || decide (gsg._light_color_scale ≠ LColor.one))]) := by
  have hf := filtered_lights_of_no_on_lights gsg h
  have h2 : (match gsg.target.light with
      | some attrib => attrib.has_any_on_light
      | none => false) = false := h
  unfold GraphicsStateGuardian.do_issue_light
  simp only [do_issue_light_loop_eq, hf, GraphicsStateGuardian.do_issue_light_loop, h2]
  generalize gsg._lighting_enabled = f
  generalize (gsg._color_scale_via_lighting
    && (gsg._has_material_force_color || decide (gsg._light_color_scale ≠ LColor.one))) = x
  cases f <;> cases x <;>
    simp [lighting_switches_append, lighting_switches_map] <;>
    simp [lighting_switches]

/-- What `do_issue_clip_plane` does to clipping as a whole when it enables no
plane. -/
theorem do_issue_clip_plane_none_enabled
    (filter_to_max : ClipPlaneAttrib → Int → ClipPlaneAttrib) (gsg : GraphicsStateGuardian)
    (h : enabled_plane_ids (gsg.do_issue_clip_plane filter_to_max).2 = []) :
    (gsg.do_issue_clip_plane filter_to_max).1._clip_planes_enabled = false
    ∧ clip_switches (gsg.do_issue_clip_plane filter_to_max).2
        = (if gsg._clip_planes_enabled then [false] else []) := by
  obtain ⟨-, k2, -⟩ := do_issue_clip_plane_calls filter_to_max gsg
  rw [k2] at h
  have hk : ((gsg.filtered_planes filter_to_max).filter PlaneNode.clips_visible) = [] := by
    cases hl : (gsg.filtered_planes filter_to_max).filter PlaneNode.clips_visible with
    | nil => rfl
    | cons p ps =>
      rw [hl] at h
      simp [List.range'_succ] at h
  obtain ⟨h1, h2, -, -, h6⟩ :=
    do_issue_clip_plane_loop_spec (gsg.filtered_planes filter_to_max) gsg 0
  have hflag : (GraphicsStateGuardian.do_issue_clip_plane_loop
      (gsg.filtered_planes filter_to_max) gsg 0).1._clip_planes_enabled
      = gsg._clip_planes_enabled := by
    rw [h1, hk]
    simp
  clear h1
  rw [hk] at h2 h6
  unfold GraphicsStateGuardian.do_issue_clip_plane
  simp only [do_issue_clip_plane_loop_eq]
  generalize GraphicsStateGuardian.do_issue_clip_plane_loop
    (gsg.filtered_planes filter_to_max) gsg 0 = r at h2 h6 hflag
  obtain ⟨g1, n1, c1⟩ := r
  simp only [Nat.zero_add, List.length_nil] at h2 h6 hflag
  subst h2
  simp only [List.isEmpty_nil, Bool.or_true, if_true] at h6
  simp only [if_true]
  rw [hflag]
  generalize gsg._clip_planes_enabled = f
  cases f <;>
    simp [clip_switches_append, clip_switches_map, h6] <;>
    simp [clip_switches]

/-- C14 fails as stated: on a GSG that applies colour scale through lighting
and has a material force colour, `do_issue_light` for a target without any
on-light turns lighting on. -/
theorem C14_counterexample :
    (GraphicsStateGuardian.do_issue_light
        { GraphicsStateGuardian.make 8 8 true false with
          _has_material_force_color := true
          _target_rs := some (RenderState.with_lights []) }).1._lighting_enabled = true
    ∧ (GraphicsStateGuardian.do_issue_light
        { GraphicsStateGuardian.make 8 8 true false with
          _has_material_force_color := true
          _target_rs := some (RenderState.with_lights []) }).2
        = [GsgCall.enable_lighting true, GsgCall.set_ambient_light LColor.one]
    ∧ (GraphicsStateGuardian.any_on_lights
        { GraphicsStateGuardian.make 8 8 true false with
          _has_material_force_color := true
          _target_rs := some (RenderState.with_lights []) }) = false := by
  decide

/-- C14 as amended: when the target state has no on-light, `do_issue_light`
leaves lighting disabled as a whole (issuing `enable_lighting(false)` exactly
if it was on) unless `_color_scale_via_lighting` is set and there is a material
force colour or a light colour scale other than 1, in which case it leaves
lighting enabled (issuing `enable_lighting(true)` exactly if it was off); when
`do_issue_clip_plane` enables no plane it leaves clipping disabled as a whole,
issuing `enable_clip_planes(false)` exactly if it was on. -/
theorem C14_empty_target_disables (filter_to_max : ClipPlaneAttrib → Int → ClipPlaneAttrib)
    (gsg : GraphicsStateGuardian) :
    (gsg.any_on_lights = false →
      gsg.do_issue_light.1._lighting_enabled
          = (gsg._color_scale_via_lighting
              && (gsg._has_material_force_color
                  || decide (gsg._light_color_scale ≠ LColor.one)))
      ∧ lighting_switches gsg.do_issue_light.2
          = (if gsg._lighting_enabled
                = (gsg._color_scale_via_lighting
                    && (gsg._has_material_force_color
                        || decide (gsg._light_color_scale ≠ LColor.one)))
              then []
              else [gsg._color_scale_via_lighting
                    && (gsg._has_material_force_color
                        || decide (gsg._light_color_scale ≠ LColor.one))]))
    ∧ (enabled_plane_ids (gsg.do_issue_clip_plane filter_to_max).2 = [] →
      (gsg.do_issue_clip_plane filter_to_max).1._clip_planes_enabled = false
      ∧ clip_switches (gsg.do_issue_clip_plane filter_to_max).2
          = (if gsg._clip_planes_enabled then [false] else [])) :=
  ⟨do_issue_light_no_on_lights gsg, do_issue_clip_plane_none_enabled filter_to_max gsg⟩

/-- Witness of C14 as amended: lighting and clipping are on, and the target has
neither lights nor planes. -/
theorem C14_empty_target_disables_witness :
    ((GraphicsStateGuardian.do_issue_light
        { GraphicsStateGuardian.make 8 8 false false with
          _lighting_enabled := true, _clip_planes_enabled := true }).1._lighting_enabled = false
      ∧ lighting_switches (GraphicsStateGuardian.do_issue_light
        { GraphicsStateGuardian.make 8 8 false false with
          _lighting_enabled := true, _clip_planes_enabled := true }).2 = [false])
    ∧ ((GraphicsStateGuardian.do_issue_clip_plane (fun a _ => a)
        { GraphicsStateGuardian.make 8 8 false false with
          _lighting_enabled := true, _clip_planes_enabled := true }).1._clip_planes_enabled
          = false
      ∧ clip_switches (GraphicsStateGuardian.do_issue_clip_plane (fun a _ => a)
        { GraphicsStateGuardian.make 8 8 false false with
          _lighting_enabled := true, _clip_planes_enabled := true }).2 = [false]) :=
  ⟨(C14_empty_target_disables (fun a _ => a)
      { GraphicsStateGuardian.make 8 8 false false with
        _lighting_enabled := true, _clip_planes_enabled := true }).1 (by decide),
   (C14_empty_target_disables (fun a _ => a)
      { GraphicsStateGuardian.make 8 8 false false with
        _lighting_enabled := true, _clip_planes_enabled := true }).2 (by decide)⟩

/-- `set_coordinate_system` writes only the coordinate system and the two
coordinate-system transforms. -/
theorem set_coordinate_system_frame (default_cs : CoordinateSystem)
    (gsg : GraphicsStateGuardian) (cs : CoordinateSystem) :
    ∃ c t ti, gsg.set_coordinate_system default_cs cs
      = { gsg with _coordinate_system := c, _cs_transform := t, _inv_cs_transform := ti } := by
  unfold GraphicsStateGuardian.set_coordinate_system
  simp only []
  split_ifs <;>
    first
    | exact ⟨gsg._coordinate_system, gsg._cs_transform, gsg._inv_cs_transform, rfl⟩
    | exact ⟨_, _, _, rfl⟩

/-- C18: `set_scene` returns false when the lens of the scene is null and when
the projection matrix of the lens cannot be computed (`calc_projection_mat`
returns null, as it does for a lens that is not linear); in these cases the
bound render state `_state_rs`, the state mask and the lighting, clip-plane
and colour flags and counts of the GSG are as before the call. -/
theorem C18_set_scene_failure_keeps_state (default_cs : CoordinateSystem)
    (gsg : GraphicsStateGuardian) (scene_setup : SceneSetup)
    (h : scene_setup.lens = none
      ∨ ∃ lens, scene_setup.lens = some lens
          ∧ ∀ g : GraphicsStateGuardian, g.calc_projection_mat (some lens) = none) :
    (gsg.set_scene default_cs scene_setup).2 = false
    ∧ (gsg.set_scene default_cs scene_setup).1._state_rs = gsg._state_rs
    ∧ (gsg.set_scene default_cs scene_setup).1._state_mask = gsg._state_mask
    ∧ (gsg.set_scene default_cs scene_setup).1._lighting_enabled = gsg._lighting_enabled
    ∧ (gsg.set_scene default_cs scene_setup).1._num_lights_enabled = gsg._num_lights_enabled
    ∧ (gsg.set_scene default_cs scene_setup).1._clip_planes_enabled = gsg._clip_planes_enabled
    ∧ (gsg.set_scene default_cs scene_setup).1._num_clip_planes_enabled
        = gsg._num_clip_planes_enabled
    ∧ (gsg.set_scene default_cs scene_setup).1._vertex_colors_enabled
        = gsg._vertex_colors_enabled
    ∧ (gsg.set_scene default_cs scene_setup).1._has_scene_graph_color
        = gsg._has_scene_graph_color
    ∧ (gsg.set_scene default_cs scene_setup).1._color_scale_enabled = gsg._color_scale_enabled
    ∧ (gsg.set_scene default_cs scene_setup).1._has_texture_alpha_scale
        = gsg._has_texture_alpha_scale
    ∧ (gsg.set_scene default_cs scene_setup).1._has_material_force_color
        = gsg._has_material_force_color := by
  rcases h with h | ⟨lens, hl, hp⟩
  · simp [GraphicsStateGuardian.set_scene, h]
  · obtain ⟨c, t, ti, hcs⟩ := set_coordinate_system_frame default_cs
      { gsg with _scene_setup := some scene_setup, _current_lens := some lens }
      lens.coordinate_system
    simp [GraphicsStateGuardian.set_scene, hl, hp, hcs]

/-- A lens that is not linear has no projection matrix. -/
theorem calc_projection_mat_nonlinear (g : GraphicsStateGuardian) (lens : Lens)
    (h : lens.is_linear = false) : g.calc_projection_mat (some lens) = none := by
  simp [GraphicsStateGuardian.calc_projection_mat, h]

/-- Witness of C18: a scene whose lens is not linear. -/
theorem C18_set_scene_failure_keeps_state_witness :
    ((GraphicsStateGuardian.make 8 8 false false).set_scene CoordinateSystem.CS_zup_right
        ⟨1, some ⟨1, CoordinateSystem.CS_yup_right, false⟩⟩).2 = false
    ∧ ((GraphicsStateGuardian.make 8 8 false false).set_scene CoordinateSystem.CS_zup_right
        ⟨1, some ⟨1, CoordinateSystem.CS_yup_right, false⟩⟩).1._state_rs
        = (GraphicsStateGuardian.make 8 8 false false)._state_rs
    ∧ ((GraphicsStateGuardian.make 8 8 false false).set_scene CoordinateSystem.CS_zup_right
        ⟨1, some ⟨1, CoordinateSystem.CS_yup_right, false⟩⟩).1._state_mask
        = (GraphicsStateGuardian.make 8 8 false false)._state_mask :=
  have h := C18_set_scene_failure_keeps_state CoordinateSystem.CS_zup_right
    (GraphicsStateGuardian.make 8 8 false false)
    ⟨1, some ⟨1, CoordinateSystem.CS_yup_right, false⟩⟩
    (Or.inr ⟨⟨1, CoordinateSystem.CS_yup_right, false⟩, rfl,
      fun g => calc_projection_mat_nonlinear g _ rfl⟩)
  ⟨h.1, h.2.1, h.2.2.1⟩

/-- Clearing a bit never sets a bit. -/
theorem get_bit_clear_bit_of_false (m : SlotMask) (i j : Nat) (h : m.get_bit i = false) :
    (m.clear_bit j).get_bit i = false := by
  unfold SlotMask.get_bit SlotMask.clear_bit at *
  simp [Nat.testBit_and, h]

/-- Clearing a bit of the 32-bit mask leaves it off. -/
theorem get_bit_clear_bit_self (m : SlotMask) (i : Nat) (h : i < 32) :
    (m.clear_bit i).get_bit i = false := by
  unfold SlotMask.get_bit SlotMask.clear_bit
  have h1 : (1 <<< i) % 2 ^ 32 = 2 ^ i := by
    rw [Nat.shiftLeft_eq, Nat.one_mul]
    exact Nat.mod_eq_of_lt (Nat.pow_lt_pow_right (by decide) h)
  have h2 : Nat.testBit 0xFFFFFFFF i = true := by
    have := Nat.testBit_two_pow_sub_one 32 i
    simpa [h] using this
  rw [h1]
  simp [Nat.testBit_and, Nat.testBit_xor, h2]

/-- `determine_light_color_scale` writes only the material force colour and the
light colour scale. -/
theorem determine_light_color_scale_frame (gsg : GraphicsStateGuardian) :
    gsg.determine_light_color_scale._state_mask = gsg._state_mask
    ∧ gsg.determine_light_color_scale._alpha_scale_via_texture = gsg._alpha_scale_via_texture
    ∧ gsg.determine_light_color_scale._has_scene_graph_color = gsg._has_scene_graph_color
    ∧ gsg.determine_light_color_scale._vertex_colors_enabled = gsg._vertex_colors_enabled
    ∧ gsg.determine_light_color_scale._has_texture_alpha_scale
        = gsg._has_texture_alpha_scale := by
  unfold GraphicsStateGuardian.determine_light_color_scale
  simp only []
  split_ifs <;> exact ⟨rfl, rfl, rfl, rfl, rfl⟩

/-- What the texture bit and the flags read by the last block of
`do_issue_color_scale` are in `g` compared with `g0`: the flags are the same,
and the texture bit is clear in `g` if it is clear in `g0`. -/
theorem clear_state_bit_spec (g : GraphicsStateGuardian) (slot i : Nat) :
    (g._state_mask.get_bit i = false → (g.clear_state_bit slot)._state_mask.get_bit i = false)
    ∧ (g.clear_state_bit slot)._alpha_scale_via_texture = g._alpha_scale_via_texture
    ∧ (g.clear_state_bit slot)._has_scene_graph_color = g._has_scene_graph_color
    ∧ (g.clear_state_bit slot)._vertex_colors_enabled = g._vertex_colors_enabled
    ∧ (g.clear_state_bit slot)._has_texture_alpha_scale = g._has_texture_alpha_scale :=
  ⟨fun h => get_bit_clear_bit_of_false _ _ _ h, rfl, rfl, rfl, rfl⟩

theorem clear_state_bit_if_spec (c : Bool) (g : GraphicsStateGuardian) (slot i : Nat) :
    (g._state_mask.get_bit i = false →
        (if c = true then g.clear_state_bit slot else g)._state_mask.get_bit i = false)
    ∧ (if c = true then g.clear_state_bit slot else g)._alpha_scale_via_texture
        = g._alpha_scale_via_texture
    ∧ (if c = true then g.clear_state_bit slot else g)._has_scene_graph_color
        = g._has_scene_graph_color
    ∧ (if c = true then g.clear_state_bit slot else g)._vertex_colors_enabled
        = g._vertex_colors_enabled
    ∧ (if c = true then g.clear_state_bit slot else g)._has_texture_alpha_scale
        = g._has_texture_alpha_scale := by
  cases c
  · exact ⟨fun h => h, rfl, rfl, rfl, rfl⟩
  · exact clear_state_bit_spec g slot i

/-- The first block clears the texture bit if a texture alpha scale was set, and
writes nothing but the state mask. -/
theorem color_scale_clear_previous_spec (slots : ClassSlots) (gsg : GraphicsStateGuardian)
    (hslot : slots.TextureAttrib < 32) :
    (gsg._has_texture_alpha_scale = true →
        (gsg.color_scale_clear_previous slots)._state_mask.get_bit slots.TextureAttrib = false)
    ∧ (gsg.color_scale_clear_previous slots).target = gsg.target
    ∧ (gsg.color_scale_clear_previous slots)._alpha_scale_via_texture
        = gsg._alpha_scale_via_texture
    ∧ (gsg.color_scale_clear_previous slots)._has_scene_graph_color
        = gsg._has_scene_graph_color
    ∧ (gsg.color_scale_clear_previous slots)._vertex_colors_enabled
        = gsg._vertex_colors_enabled := by
  unfold GraphicsStateGuardian.color_scale_clear_previous
  split_ifs with h
  · exact ⟨fun _ => get_bit_clear_bit_self _ _ hslot, rfl, rfl, rfl, rfl⟩
  · exact ⟨fun h2 => absurd h2 h, rfl, rfl, rfl, rfl⟩

/-- The second block leaves the state mask and the flags read by the last block
alone. -/
theorem color_scale_take_target_spec (tcs : ColorScaleAttrib) (gsg : GraphicsStateGuardian) :
    (gsg.color_scale_take_target tcs)._state_mask = gsg._state_mask
    ∧ (gsg.color_scale_take_target tcs)._alpha_scale_via_texture = gsg._alpha_scale_via_texture
    ∧ (gsg.color_scale_take_target tcs)._has_scene_graph_color = gsg._has_scene_graph_color
    ∧ (gsg.color_scale_take_target tcs)._vertex_colors_enabled = gsg._vertex_colors_enabled
    ∧ (gsg.color_scale_take_target tcs)._has_texture_alpha_scale = false :=
  ⟨rfl, rfl, rfl, rfl, rfl⟩

/-- The third block only clears bits of the state mask, and leaves the flags read
by the last block alone. -/
theorem color_scale_invalidate_spec (slots : ClassSlots) (gsg : GraphicsStateGuardian) :
    (gsg._state_mask.get_bit slots.TextureAttrib = false →
        (gsg.color_scale_invalidate slots)._state_mask.get_bit slots.TextureAttrib = false)
    ∧ (gsg.color_scale_invalidate slots)._alpha_scale_via_texture = gsg._alpha_scale_via_texture
    ∧ (gsg.color_scale_invalidate slots)._has_scene_graph_color = gsg._has_scene_graph_color
    ∧ (gsg.color_scale_invalidate slots)._vertex_colors_enabled = gsg._vertex_colors_enabled
    ∧ (gsg.color_scale_invalidate slots)._has_texture_alpha_scale
        = gsg._has_texture_alpha_scale := by
  unfold GraphicsStateGuardian.color_scale_invalidate
  simp only []
  obtain ⟨a1, a2, a3, a4, a5⟩ := clear_state_bit_if_spec
    gsg._color_blend_involves_color_scale gsg slots.TransparencyAttrib slots.TextureAttrib
  generalize (if gsg._color_blend_involves_color_scale = true then
      gsg.clear_state_bit slots.TransparencyAttrib else gsg) = g1 at a1 a2 a3 a4 a5 ⊢
  obtain ⟨b1, b2, b3, b4, b5⟩ := clear_state_bit_if_spec
    g1._texture_involves_color_scale g1 slots.TextureAttrib slots.TextureAttrib
  generalize (if g1._texture_involves_color_scale = true then
      g1.clear_state_bit slots.TextureAttrib else g1) = g2 at b1 b2 b3 b4 b5 ⊢
  rw [← a2, ← a3, ← a4, ← a5, ← b2, ← b3, ← b4, ← b5]
  have hmask : gsg._state_mask.get_bit slots.TextureAttrib = false →
      g2._state_mask.get_bit slots.TextureAttrib = false := fun h => b1 (a1 h)
  clear a1 a2 a3 a4 a5 b1 b2 b3 b4 b5
  by_cases h4 : g2._color_scale_via_lighting = true
  · rw [if_pos h4]
    obtain ⟨c1, c2, c3, c4, c5⟩ := clear_state_bit_spec g2 slots.LightAttrib slots.TextureAttrib
    generalize g2.clear_state_bit slots.LightAttrib = g3 at c1 c2 c3 c4 c5 ⊢
    obtain ⟨d1, d2, d3, d4, d5⟩ :=
      clear_state_bit_spec g3 slots.MaterialAttrib slots.TextureAttrib
    generalize g3.clear_state_bit slots.MaterialAttrib = g4 at d1 d2 d3 d4 d5 ⊢
    obtain ⟨e1, e2, e3, e4, e5⟩ := determine_light_color_scale_frame g4
    rw [e1, e2, e3, e4, e5, d2, d3, d4, d5, c2, c3, c4, c5]
    exact ⟨fun h => d1 (c1 (hmask h)), rfl, rfl, rfl, rfl⟩
  · rw [if_neg h4]
    exact ⟨hmask, rfl, rfl, rfl, rfl⟩

/-- The last block sets `_has_texture_alpha_scale` and clears the texture bit
when its test holds, and changes nothing otherwise. -/
theorem color_scale_set_texture_spec (slots : ClassSlots) (tcs : ColorScaleAttrib)
    (gsg : GraphicsStateGuardian) (hslot : slots.TextureAttrib < 32) :
    (gsg.color_scale_set_texture slots tcs)._has_texture_alpha_scale
        = ((gsg._alpha_scale_via_texture && !gsg._has_scene_graph_color
            && gsg._vertex_colors_enabled && tcs.has_alpha_scale)
          || gsg._has_texture_alpha_scale)
    ∧ ((gsg._alpha_scale_via_texture && !gsg._has_scene_graph_color
            && gsg._vertex_colors_enabled && tcs.has_alpha_scale) = true →
        (gsg.color_scale_set_texture slots tcs)._state_mask.get_bit slots.TextureAttrib = false)
    ∧ (gsg._state_mask.get_bit slots.TextureAttrib = false →
        (gsg.color_scale_set_texture slots tcs)._state_mask.get_bit slots.TextureAttrib
          = false) := by
  unfold GraphicsStateGuardian.color_scale_set_texture
  by_cases h : (gsg._alpha_scale_via_texture && !gsg._has_scene_graph_color
            && gsg._vertex_colors_enabled && tcs.has_alpha_scale) = true
  · rw [if_pos h, h]
    refine ⟨rfl, fun _ => ?_, fun _ => ?_⟩
    · exact get_bit_clear_bit_of_false _ _ _ (get_bit_clear_bit_self _ _ hslot)
    · exact get_bit_clear_bit_of_false _ _ _ (get_bit_clear_bit_self _ _ hslot)
  · rw [if_neg h]
    have h' : (gsg._alpha_scale_via_texture && !gsg._has_scene_graph_color
            && gsg._vertex_colors_enabled && tcs.has_alpha_scale) = false := by
      simpa using h
    rw [h']
    exact ⟨by simp, fun h2 => absurd h2 (by simp), fun h2 => h2⟩

/-- C19: `do_issue_color_scale` leaves `_has_texture_alpha_scale` true exactly
when alpha scale via texture is on, there is no scene-graph colour, vertex
colours are enabled and the target colour scale has an alpha scale; and
whenever `_has_texture_alpha_scale` was true before the call or is true after
it, in particular whenever it changes, the bit of the `TextureAttrib` slot in
`_state_mask` is clear afterwards (class slots are below the 32 bits of the
mask). -/
theorem C19_texture_alpha_scale_invalidates_texture (slots : ClassSlots)
    (gsg : GraphicsStateGuardian) (hslot : slots.TextureAttrib < 32) :
    (gsg.do_issue_color_scale slots)._has_texture_alpha_scale
        = (gsg._alpha_scale_via_texture && !gsg._has_scene_graph_color
            && gsg._vertex_colors_enabled && gsg.target.color_scale.has_alpha_scale)
    ∧ ((gsg._has_texture_alpha_scale = true
          ∨ (gsg.do_issue_color_scale slots)._has_texture_alpha_scale = true) →
        (gsg.do_issue_color_scale slots)._state_mask.get_bit slots.TextureAttrib = false)
    ∧ ((gsg.do_issue_color_scale slots)._has_texture_alpha_scale
          ≠ gsg._has_texture_alpha_scale →
        (gsg.do_issue_color_scale slots)._state_mask.get_bit slots.TextureAttrib = false) := by
  obtain ⟨a1, a2, a3, a4, a5⟩ := color_scale_clear_previous_spec slots gsg hslot
  have hdef : gsg.do_issue_color_scale slots
      = (((gsg.color_scale_clear_previous slots).color_scale_take_target
            gsg.target.color_scale).color_scale_invalidate slots).color_scale_set_texture
          slots gsg.target.color_scale := by
    unfold GraphicsStateGuardian.do_issue_color_scale
    simp only [a2]
  rw [hdef]
  generalize gsg.color_scale_clear_previous slots = g1 at a1 a3 a4 a5 ⊢
  clear a2 hdef
  generalize gsg.target.color_scale = tcs
  obtain ⟨b1, b2, b3, b4, b5⟩ := color_scale_take_target_spec tcs g1
  generalize g1.color_scale_take_target tcs = g2 at b1 b2 b3 b4 b5 ⊢
  obtain ⟨c1, c2, c3, c4, c5⟩ := color_scale_invalidate_spec slots g2
  generalize g2.color_scale_invalidate slots = g3 at c1 c2 c3 c4 c5 ⊢
  obtain ⟨d1, d2, d3⟩ := color_scale_set_texture_spec slots tcs g3 hslot
  simp only [c2, c3, c4, c5, b2, b3, b4, b5, a3, a4, a5, Bool.or_false] at d1 d2
  have hmask : gsg._has_texture_alpha_scale = true →
      (g3.color_scale_set_texture slots tcs)._state_mask.get_bit slots.TextureAttrib = false := by
    intro h
    apply d3
    apply c1
    rw [b1]
    exact a1 h
  have key : (gsg._has_texture_alpha_scale = true
      ∨ (g3.color_scale_set_texture slots tcs)._has_texture_alpha_scale = true) →
      (g3.color_scale_set_texture slots tcs)._state_mask.get_bit slots.TextureAttrib = false := by
    rintro (h | h)
    · exact hmask h
    · rw [d1] at h
      exact d2 h
  refine ⟨d1, key, ?_⟩
  intro hne
  apply key
  cases h1 : gsg._has_texture_alpha_scale
  · right
    rw [h1] at hne
    simpa using hne
  · exact Or.inl rfl

/-- Witness of C19: a colour scale with alpha on a GSG that scales alpha through
a texture; the texture slot is 5 and its bit was set. -/
theorem C19_texture_alpha_scale_invalidates_texture_witness :
    (GraphicsStateGuardian.do_issue_color_scale (⟨5, 6, 7, 8, 9⟩ : ClassSlots)
        ({ GraphicsStateGuardian.make 8 8 false true with
          _state_mask := ⟨0xFFFFFFFF⟩
          _target_rs := some { RenderState.make_empty with
            color_scale := ⟨true, true, ⟨1, 1, 1, 0⟩⟩ } } : GraphicsStateGuardian))._has_texture_alpha_scale
        = (({ GraphicsStateGuardian.make 8 8 false true with
          _state_mask := ⟨0xFFFFFFFF⟩
          _target_rs := some { RenderState.make_empty with
            color_scale := ⟨true, true, ⟨1, 1, 1, 0⟩⟩ } } : GraphicsStateGuardian)._alpha_scale_via_texture
            && !({ GraphicsStateGuardian.make 8 8 false true with
          _state_mask := ⟨0xFFFFFFFF⟩
          _target_rs := some { RenderState.make_empty with
            color_scale := ⟨true, true, ⟨1, 1, 1, 0⟩⟩ } } : GraphicsStateGuardian)._has_scene_graph_color
            && ({ GraphicsStateGuardian.make 8 8 false true with
          _state_mask := ⟨0xFFFFFFFF⟩
          _target_rs := some { RenderState.make_empty with
            color_scale := ⟨true, true, ⟨1, 1, 1, 0⟩⟩ } } : GraphicsStateGuardian)._vertex_colors_enabled
            && ({ GraphicsStateGuardian.make 8 8 false true with
          _state_mask := ⟨0xFFFFFFFF⟩
          _target_rs := some { RenderState.make_empty with
            color_scale := ⟨true, true, ⟨1, 1, 1, 0⟩⟩ } } : GraphicsStateGuardian).target.color_scale.has_alpha_scale)
    ∧ ((({ GraphicsStateGuardian.make 8 8 false true with
          _state_mask := ⟨0xFFFFFFFF⟩
          _target_rs := some { RenderState.make_empty with
            color_scale := ⟨true, true, ⟨1, 1, 1, 0⟩⟩ } } : GraphicsStateGuardian)._has_texture_alpha_scale = true
          ∨ (GraphicsStateGuardian.do_issue_color_scale (⟨5, 6, 7, 8, 9⟩ : ClassSlots)
              ({ GraphicsStateGuardian.make 8 8 false true with
          _state_mask := ⟨0xFFFFFFFF⟩
          _target_rs := some { RenderState.make_empty with
            color_scale := ⟨true, true, ⟨1, 1, 1, 0⟩⟩ } } : GraphicsStateGuardian))._has_texture_alpha_scale = true) →
        (GraphicsStateGuardian.do_issue_color_scale (⟨5, 6, 7, 8, 9⟩ : ClassSlots)
          ({ GraphicsStateGuardian.make 8 8 false true with
          _state_mask := ⟨0xFFFFFFFF⟩
          _target_rs := some { RenderState.make_empty with
            color_scale := ⟨true, true, ⟨1, 1, 1, 0⟩⟩ } } : GraphicsStateGuardian))._state_mask.get_bit (⟨5, 6, 7, 8, 9⟩ : ClassSlots).TextureAttrib = false)
    ∧ ((GraphicsStateGuardian.do_issue_color_scale (⟨5, 6, 7, 8, 9⟩ : ClassSlots)
          ({ GraphicsStateGuardian.make 8 8 false true with
          _state_mask := ⟨0xFFFFFFFF⟩
          _target_rs := some { RenderState.make_empty with
            color_scale := ⟨true, true, ⟨1, 1, 1, 0⟩⟩ } } : GraphicsStateGuardian))._has_texture_alpha_scale
          ≠ ({ GraphicsStateGuardian.make 8 8 false true with
          _state_mask := ⟨0xFFFFFFFF⟩
          _target_rs := some { RenderState.make_empty with
            color_scale := ⟨true, true, ⟨1, 1, 1, 0⟩⟩ } } : GraphicsStateGuardian)._has_texture_alpha_scale →
        (GraphicsStateGuardian.do_issue_color_scale (⟨5, 6, 7, 8, 9⟩ : ClassSlots)
          ({ GraphicsStateGuardian.make 8 8 false true with
          _state_mask := ⟨0xFFFFFFFF⟩
          _target_rs := some { RenderState.make_empty with
            color_scale := ⟨true, true, ⟨1, 1, 1, 0⟩⟩ } } : GraphicsStateGuardian))._state_mask.get_bit (⟨5, 6, 7, 8, 9⟩ : ClassSlots).TextureAttrib = false) :=
  C19_texture_alpha_scale_invalidates_texture (⟨5, 6, 7, 8, 9⟩ : ClassSlots)
    ({ GraphicsStateGuardian.make 8 8 false true with
          _state_mask := ⟨0xFFFFFFFF⟩
          _target_rs := some { RenderState.make_empty with
            color_scale := ⟨true, true, ⟨1, 1, 1, 0⟩⟩ } } : GraphicsStateGuardian) (by decide)

theorem flag_after_append (f : Bool) (a b : List Bool) :
    flag_after f (a ++ b) = flag_after (flag_after f a) b := by
  unfold flag_after
  cases hb : b.getLast? with
  | none =>
    have : b = [] := List.getLast?_eq_none_iff.mp hb
    subst this
    simp
  | some x =>
    rw [List.getLast?_append, hb]
    simp

theorem switches_change_append (f : Bool) (a b : List Bool) :
    switches_change f (a ++ b)
      ↔ switches_change f a ∧ switches_change (flag_after f a) b := by
  induction a generalizing f with
  | nil => simp [switches_change, flag_after]
  | cons x xs ih =>
    have hfa : flag_after f (x :: xs) = flag_after x xs := by
      unfold flag_after
      cases xs with
      | nil => simp
      | cons y ys =>
        rw [List.getLast?_cons_cons]
        cases hl : (y :: ys).getLast? with
        | none => simp at hl
        | some z => rfl
    have hcons : switches_change f (x :: (xs ++ b))
        ↔ x ≠ f ∧ switches_change x (xs ++ b) := Iff.rfl
    have hcons2 : switches_change f (x :: xs) ↔ x ≠ f ∧ switches_change x xs := Iff.rfl
    rw [List.cons_append, hcons, hcons2, ih, hfa, and_assoc]

/-- One state change keeps both enable flags in step with the enable calls. -/
theorem issue_flags (filter_to_max : ClipPlaneAttrib → Int → ClipPlaneAttrib)
    (gsg : GraphicsStateGuardian) (op : IssueOp) :
    switches_change gsg._lighting_enabled (lighting_switches (gsg.issue filter_to_max op).2)
    ∧ (gsg.issue filter_to_max op).1._lighting_enabled
        = flag_after gsg._lighting_enabled (lighting_switches (gsg.issue filter_to_max op).2)
    ∧ switches_change gsg._clip_planes_enabled (clip_switches (gsg.issue filter_to_max op).2)
    ∧ (gsg.issue filter_to_max op).1._clip_planes_enabled
        = flag_after gsg._clip_planes_enabled
            (clip_switches (gsg.issue filter_to_max op).2) := by
  cases op with
  | light target =>
    obtain ⟨h1, h2⟩ := do_issue_light_flag { gsg with _target_rs := some target }
    obtain ⟨h3, h4⟩ := do_issue_light_no_clip { gsg with _target_rs := some target }
    refine ⟨h1, h2, ?_, ?_⟩
    · show switches_change _ (clip_switches
        (GraphicsStateGuardian.do_issue_light { gsg with _target_rs := some target }).2)
      rw [h3]
      trivial
    · show (GraphicsStateGuardian.do_issue_light
        { gsg with _target_rs := some target }).1._clip_planes_enabled = flag_after _
          (clip_switches (GraphicsStateGuardian.do_issue_light
            { gsg with _target_rs := some target }).2)
      rw [h3, h4]
      rfl
  | clip_plane target =>
    obtain ⟨h1, h2⟩ := do_issue_clip_plane_flag filter_to_max
      { gsg with _target_rs := some target }
    obtain ⟨h3, h4⟩ := do_issue_clip_plane_no_lighting filter_to_max
      { gsg with _target_rs := some target }
    refine ⟨?_, ?_, h1, h2⟩
    · show switches_change _ (lighting_switches
        (GraphicsStateGuardian.do_issue_clip_plane filter_to_max
          { gsg with _target_rs := some target }).2)
      rw [h3]
      trivial
    · show (GraphicsStateGuardian.do_issue_clip_plane filter_to_max
        { gsg with _target_rs := some target }).1._lighting_enabled = flag_after _
          (lighting_switches (GraphicsStateGuardian.do_issue_clip_plane filter_to_max
            { gsg with _target_rs := some target }).2)
      rw [h3, h4]
      rfl

/-- A sequence of state changes keeps both enable flags in step with the enable
calls. -/
theorem issue_all_flags (filter_to_max : ClipPlaneAttrib → Int → ClipPlaneAttrib)
    (ops : List IssueOp) :
    ∀ gsg : GraphicsStateGuardian,
    switches_change gsg._lighting_enabled
        (lighting_switches (gsg.issue_all filter_to_max ops).2)
    ∧ (gsg.issue_all filter_to_max ops).1._lighting_enabled
        = flag_after gsg._lighting_enabled
            (lighting_switches (gsg.issue_all filter_to_max ops).2)
    ∧ switches_change gsg._clip_planes_enabled
        (clip_switches (gsg.issue_all filter_to_max ops).2)
    ∧ (gsg.issue_all filter_to_max ops).1._clip_planes_enabled
        = flag_after gsg._clip_planes_enabled
            (clip_switches (gsg.issue_all filter_to_max ops).2) := by
  induction ops with
  | nil =>
    intro gsg
    exact ⟨trivial, rfl, trivial, rfl⟩
  | cons op rest ih =>
    intro gsg
    obtain ⟨a1, a2, a3, a4⟩ := issue_flags filter_to_max gsg op
    obtain ⟨b1, b2, b3, b4⟩ := ih (gsg.issue filter_to_max op).1
    simp only [GraphicsStateGuardian.issue_all, lighting_switches_append, clip_switches_append,
      switches_change_append, flag_after_append]
    rw [← a2, ← a4]
    exact ⟨⟨a1, b1⟩, b2, ⟨a3, b3⟩, b4⟩

/-- C20: in `do_issue_light` and `do_issue_clip_plane` the derived flags follow
the enable calls. Every `enable_lighting(b)` (resp. `enable_clip_planes(b)`)
call is made with a b that differs from `_lighting_enabled` (resp.
`_clip_planes_enabled`) as it stands at the call, and the flag after the
function is the argument of its last such call, or the flag before if it made
none; so after every sequence of these operations on a reset GSG each flag is
the argument of the last enable call made, or false if there was none. -/
theorem C20_flags_follow_enable_calls
    (filter_to_max : ClipPlaneAttrib → Int → ClipPlaneAttrib)
    (gsg : GraphicsStateGuardian) (ops : List IssueOp) :
    (switches_change gsg._lighting_enabled (lighting_switches gsg.do_issue_light.2)
      ∧ gsg.do_issue_light.1._lighting_enabled
          = flag_after gsg._lighting_enabled (lighting_switches gsg.do_issue_light.2))
    ∧ (switches_change gsg._clip_planes_enabled
          (clip_switches (gsg.do_issue_clip_plane filter_to_max).2)
      ∧ (gsg.do_issue_clip_plane filter_to_max).1._clip_planes_enabled
          = flag_after gsg._clip_planes_enabled
              (clip_switches (gsg.do_issue_clip_plane filter_to_max).2))
    ∧ (switches_change false (lighting_switches (gsg.reset.issue_all filter_to_max ops).2)
      ∧ (gsg.reset.issue_all filter_to_max ops).1._lighting_enabled
          = flag_after false (lighting_switches (gsg.reset.issue_all filter_to_max ops).2)
      ∧ switches_change false (clip_switches (gsg.reset.issue_all filter_to_max ops).2)
      ∧ (gsg.reset.issue_all filter_to_max ops).1._clip_planes_enabled
          = flag_after false (clip_switches (gsg.reset.issue_all filter_to_max ops).2)) :=
  ⟨do_issue_light_flag gsg, do_issue_clip_plane_flag filter_to_max gsg,
    issue_all_flags filter_to_max ops gsg.reset⟩

theorem find_entry_some (es : List (Int × GeomMunger)) (k : Int) :
    ∀ i, find_entry es k = some i → ∃ m, es[i]? = some (k, m) := by
  induction es with
  | nil => intro i h; simp [find_entry] at h
  | cons e rest ih =>
    intro i h
    unfold find_entry at h
    split_ifs at h with he
    · cases h
      exact ⟨e.2, by simp [← he]⟩
    · cases hr : find_entry rest k with
      | none => simp [hr] at h
      | some j =>
        simp [hr] at h
        subst h
        obtain ⟨m, hm⟩ := ih j hr
        exact ⟨m, by simpa using hm⟩

theorem find_entry_none (es : List (Int × GeomMunger)) (k : Int) :
    find_entry es k = none ↔ es.filter (fun e => decide (e.1 = k)) = [] := by
  induction es with
  | nil => simp [find_entry]
  | cons e rest ih =>
    unfold find_entry
    by_cases he : e.1 = k
    · simp [he]
    · simp [he, List.filter_cons, ih]

theorem filter_key_of_nodup (es : List (Int × GeomMunger)) (k : Int)
    (hwf : (es.map Prod.fst).Nodup) :
    ∀ (i : Nat) (m : GeomMunger), es[i]? = some (k, m) →
      es.filter (fun e => decide (e.1 = k)) = [(k, m)]
      ∧ find_entry es k = some i
      ∧ (es.eraseIdx i).filter (fun e => decide (e.1 = k)) = [] := by
  induction es with
  | nil => intro i m h; simp at h
  | cons e rest ih =>
    intro i m h
    have hnd : e.1 ∉ rest.map Prod.fst ∧ (rest.map Prod.fst).Nodup := by
      rw [List.map_cons] at hwf
      exact List.nodup_cons.mp hwf
    cases i with
    | zero =>
      simp at h
      subst h
      have hrest : rest.filter (fun e => decide (e.1 = k)) = [] := by
        rw [List.filter_eq_nil_iff]
        intro x hx hxk
        simp at hxk
        apply hnd.1
        have hmem := List.mem_map_of_mem Prod.fst hx
        rw [hxk] at hmem
        exact hmem
      refine ⟨by simp [List.filter_cons, hrest], by simp [find_entry], by simpa using hrest⟩
    | succ j =>
      simp at h
      obtain ⟨h1, h2, h3⟩ := ih hnd.2 j m h
      have hek : e.1 ≠ k := by
        intro hek
        apply hnd.1
        rw [hek]
        have hmem : (k, m) ∈ rest := List.getElem?_mem h
        exact List.mem_map_of_mem Prod.fst hmem
      refine ⟨by simp [List.filter_cons, hek, h1], by simp [find_entry, hek, h2],
        by simp [List.filter_cons, hek, h3]⟩

theorem nodup_eraseIdx (es : List (Int × GeomMunger)) (i : Nat)
    (hwf : (es.map Prod.fst).Nodup) : ((es.eraseIdx i).map Prod.fst).Nodup :=
  List.Nodup.sublist (List.Sublist.map _ (List.eraseIdx_sublist es i)) hwf

/-- Creating a munger when the map has no entry for the GSG caches it. -/
theorem get_geom_munger_create_spec (gsg : GraphicsStateGuardian)
    (make_geom_munger : RenderState → Option GeomMunger) (state : RenderState)
    (hmake : ∀ s, ∃ m, make_geom_munger s = some m
      ∧ m.is_registered = true ∧ m.is_state_munger = true)
    (hno : state._mungers.entries.filter (fun e => decide (e.1 = gsg._id)) = []) :
    ∃ m, (gsg.get_geom_munger_create make_geom_munger state).2 = some m
      ∧ munger_cached gsg._id (gsg.get_geom_munger_create make_geom_munger state).1 m := by
  obtain ⟨m, hm, hreg, hsm⟩ := hmake state
  have hfind : find_entry state._mungers.entries gsg._id = none :=
    (find_entry_none _ _).mpr hno
  refine ⟨m, ?_, ?_⟩
  · simp [GraphicsStateGuardian.get_geom_munger_create, hm, hreg, hsm]
  · simp only [GraphicsStateGuardian.get_geom_munger_create, hm, hreg, hsm, Mungers.store, hfind,
      munger_cached]
    refine ⟨trivial, ?_, ?_, ?_⟩
    · simp [List.filter_append, hno]
    · simp
    · simp

/-- The keyed lookup of `get_geom_munger` on a well-formed map. -/
theorem get_geom_munger_lookup_spec (gsg : GraphicsStateGuardian)
    (make_geom_munger : RenderState → Option GeomMunger) (state : RenderState)
    (hwf : (state._mungers.entries.map Prod.fst).Nodup)
    (hmake : ∀ s, ∃ m, make_geom_munger s = some m
      ∧ m.is_registered = true ∧ m.is_state_munger = true) :
    (∃ m, (gsg.get_geom_munger_lookup make_geom_munger state).2 = some m
      ∧ munger_cached gsg._id (gsg.get_geom_munger_lookup make_geom_munger state).1 m)
    ∧ (∀ m0, (gsg._id, m0) ∈ state._mungers.entries → m0.is_registered = true →
        (gsg.get_geom_munger_lookup make_geom_munger state).2 = some m0
        ∧ (gsg.get_geom_munger_lookup make_geom_munger state).1._mungers = state._mungers) := by
  unfold GraphicsStateGuardian.get_geom_munger_lookup
  simp only [Mungers.find]
  cases hf : find_entry state._mungers.entries gsg._id with
  | none =>
    have hno := (find_entry_none _ _).mp hf
    have hneg : ¬ ((-1 : Int) ≥ 0) := by decide
    simp only [hneg, if_false]
    refine ⟨get_geom_munger_create_spec gsg make_geom_munger state hmake hno, ?_⟩
    intro m0 hmem _
    exfalso
    have : (gsg._id, m0) ∈ state._mungers.entries.filter (fun e => decide (e.1 = gsg._id)) := by
      simp [List.mem_filter, hmem]
    rw [hno] at this
    simp at this
  | some i =>
    obtain ⟨munger, hent⟩ := find_entry_some _ _ i hf
    obtain ⟨hfilt, -, herase⟩ := filter_key_of_nodup _ _ hwf i munger hent
    have huniq : ∀ m0, (gsg._id, m0) ∈ state._mungers.entries → m0 = munger := by
      intro m0 hmem
      have : (gsg._id, m0) ∈ state._mungers.entries.filter (fun e => decide (e.1 = gsg._id)) := by
        simp [List.mem_filter, hmem]
      rw [hfilt] at this
      simpa using this
    have hpos : ((i : Int) ≥ 0) := by omega
    simp only [hpos, if_true, Int.toNat_ofNat, Mungers.get_data, hent, Option.map_some']
    by_cases hreg : munger.is_registered = true
    · simp only [hreg, if_true]
      refine ⟨⟨munger, rfl, hreg, hfilt, by simp, by simpa using hent⟩, ?_⟩
      intro m0 hmem _
      rw [huniq m0 hmem]
      simp
    · simp only [hreg, if_false, Bool.false_eq_true]
      refine ⟨?_, ?_⟩
      · exact get_geom_munger_create_spec gsg make_geom_munger _ hmake herase
      · intro m0 hmem hr0
        rw [huniq m0 hmem] at hr0
        exact absurd hr0 hreg

/-- C17 fails as stated: when `make_geom_munger` yields a munger that is
registered but is not a `StateMunger`, `get_geom_munger` on a state without
mungers returns it through the second `nassertr` without storing it, and the
munger map of the state has no entry under the id of the GSG afterwards. -/
theorem C17_counterexample :
    ((GraphicsStateGuardian.make 8 8 false false).get_geom_munger
        (fun _ => some ⟨1, true, false⟩) RenderState.make_empty).2 = some ⟨1, true, false⟩
    ∧ ((GraphicsStateGuardian.make 8 8 false false).get_geom_munger
        (fun _ => some ⟨1, true, false⟩) RenderState.make_empty).1._mungers.entries = []
    ∧ ((GraphicsStateGuardian.make 8 8 false false).get_geom_munger
        (fun _ => some ⟨1, true, false⟩) RenderState.make_empty).1._last_mi = -1 := by
  decide

/-- C17 as amended: on a state whose munger map is well formed (no two entries
under one id), and given that `make_geom_munger` yields a munger that is
registered and is a `StateMunger` (what the two `nassertr` checks ask for),
`get_geom_munger` returns a munger that is registered, is afterwards the one
entry of the map under the id of this GSG, and is indexed by `_last_mi`; and
whenever the map had a registered munger under this id, that munger is the one
returned and the map is unchanged. -/
theorem C17_get_geom_munger_caches (gsg : GraphicsStateGuardian)
    (make_geom_munger : RenderState → Option GeomMunger) (state : RenderState)
    (hwf : (state._mungers.entries.map Prod.fst).Nodup)
    (hmake : ∀ s, ∃ m, make_geom_munger s = some m
      ∧ m.is_registered = true ∧ m.is_state_munger = true) :
    (∃ m, (gsg.get_geom_munger make_geom_munger state).2 = some m
      ∧ munger_cached gsg._id (gsg.get_geom_munger make_geom_munger state).1 m)
    ∧ (∀ m0, (gsg._id, m0) ∈ state._mungers.entries → m0.is_registered = true →
        (gsg.get_geom_munger make_geom_munger state).2 = some m0
        ∧ (gsg.get_geom_munger make_geom_munger state).1._mungers = state._mungers) := by
  unfold GraphicsStateGuardian.get_geom_munger
  by_cases hempty : state._mungers.is_empty = true
  · have hnil : state._mungers.entries = [] := by
      simpa [Mungers.is_empty, List.isEmpty_iff] using hempty
    simp only [hempty, Bool.not_true, Bool.false_eq_true, if_false]
    refine ⟨get_geom_munger_create_spec gsg make_geom_munger state hmake (by simp [hnil]), ?_⟩
    intro m0 hmem
    rw [hnil] at hmem
    simp at hmem
  · have hne : (!state._mungers.is_empty) = true := by simpa using hempty
    simp only [hne, if_true]
    by_cases hc : state._last_mi ≥ 0
        ∧ state._last_mi.toNat < state._mungers.get_num_entries
        ∧ state._mungers.get_key state._last_mi.toNat = some gsg._id
    · rw [if_pos hc]
      obtain ⟨hc1, -, hc3⟩ := hc
      have hent : ∃ munger, state._mungers.entries[state._last_mi.toNat]?
          = some (gsg._id, munger) := by
        unfold Mungers.get_key at hc3
        cases he : state._mungers.entries[state._last_mi.toNat]? with
        | none => rw [he] at hc3; simp at hc3
        | some e =>
          rw [he] at hc3
          simp at hc3
          exact ⟨e.2, by rw [← hc3]⟩
      obtain ⟨munger, hent⟩ := hent
      obtain ⟨hfilt, -, -⟩ := filter_key_of_nodup _ _ hwf _ munger hent
      simp only [Mungers.get_data, hent, Option.map_some']
      by_cases hreg : munger.is_registered = true
      · simp only [hreg, if_true]
        refine ⟨⟨munger, rfl, hreg, hfilt, hc1, hent⟩, ?_⟩
        intro m0 hmem _
        have : (gsg._id, m0) ∈ state._mungers.entries.filter
            (fun e => decide (e.1 = gsg._id)) := by
          simp [List.mem_filter, hmem]
        rw [hfilt] at this
        simp at this
        rw [this]
        simp
      · simp only [hreg, if_false, Bool.false_eq_true]
        exact get_geom_munger_lookup_spec gsg make_geom_munger state hwf hmake
    · rw [if_neg hc]
      exact get_geom_munger_lookup_spec gsg make_geom_munger state hwf hmake

/-- Witness of C17 as amended: the map holds an unregistered munger for GSG 0
and a munger for GSG 4; the stale entry is replaced. -/
theorem C17_get_geom_munger_caches_witness :
    (∃ m, ((GraphicsStateGuardian.make 8 8 false false).get_geom_munger
          (fun _ => some ⟨9, true, true⟩)
          { RenderState.make_empty with
            _mungers := ⟨[(0, ⟨1, false, true⟩), (4, ⟨2, true, true⟩)]⟩, _last_mi := 0 }).2
        = some m
      ∧ munger_cached (GraphicsStateGuardian.make 8 8 false false)._id
          ((GraphicsStateGuardian.make 8 8 false false).get_geom_munger
            (fun _ => some ⟨9, true, true⟩)
            { RenderState.make_empty with
              _mungers := ⟨[(0, ⟨1, false, true⟩), (4, ⟨2, true, true⟩)]⟩, _last_mi := 0 }).1 m)
    ∧ ((GraphicsStateGuardian.make 8 8 false false).get_geom_munger
          (fun _ => some ⟨9, true, true⟩)
          { RenderState.make_empty with
            _mungers := ⟨[(0, ⟨1, false, true⟩), (4, ⟨2, true, true⟩)]⟩, _last_mi := 0 }).1._mungers
        = ⟨[(4, ⟨2, true, true⟩), (0, ⟨9, true, true⟩)]⟩ :=
  ⟨(C17_get_geom_munger_caches (GraphicsStateGuardian.make 8 8 false false)
      (fun _ => some ⟨9, true, true⟩)
      { RenderState.make_empty with
        _mungers := ⟨[(0, ⟨1, false, true⟩), (4, ⟨2, true, true⟩)]⟩, _last_mi := 0 }
      (by decide) (fun _ => ⟨⟨9, true, true⟩, rfl, rfl, rfl⟩)).1,
   by decide⟩

theorem draw_objects_calls (gsg : Nat) (force : Bool) (draws : CullableObject → Bool)
    (objects : List ObjectData) :
    (draw_objects gsg force draws objects).map (fun r => (r.object, r.gsg, r.force))
      = objects.map (fun d => (d._object, gsg, force)) := by
  induction objects with
  | nil => rfl
  | cons d rest ih => simp [draw_objects, ih]

theorem fill_objects_eq (objects : List ObjectData) :
    fill_objects objects = objects.map (fun d => d._object) := by
  induction objects with
  | nil => rfl
  | cons d rest ih => simp [fill_objects, ih]

/-- C21: `draw(force)` makes exactly one draw call per entry of the bin, in the
order of the entries, each with the GSG of the bin and the same force flag, and
this sequence of calls is the same whatever the outcomes of the draws are: a
drawable that fails to draw does not make a later entry be skipped. -/
theorem C21_draw_visits_every_entry (bin : CullBinFixed) (gsg : Nat) (force : Bool)
    (draws draws2 : CullableObject → Bool) :
    (bin.draw_on gsg force draws).2.map (fun r => (r.object, r.gsg, r.force))
        = bin._objects.map (fun d => (d._object, gsg, force))
    ∧ (bin.draw_on gsg force draws).2.length = bin._objects.length
    ∧ (bin.draw_on gsg force draws).2.map (fun r => (r.object, r.gsg, r.force))
        = (bin.draw_on gsg force draws2).2.map (fun r => (r.object, r.gsg, r.force))
    ∧ (bin.draw_on gsg force draws).2.map (fun r => DrawCall.mk r.object r.force)
        = bin.draw force
    ∧ ((CullBinFixed.submit [⟨1, 5⟩, ⟨2, 1⟩, ⟨3, 5⟩]).finish_cull.draw_on 7 force
          (fun o => decide (o.id ≠ 2))).2
        = [⟨⟨2, 1⟩, 7, force, false⟩, ⟨⟨1, 5⟩, 7, force, true⟩, ⟨⟨3, 5⟩, 7, force, true⟩] := by
  have h1 := draw_objects_calls gsg force draws bin._objects
  have h2 := draw_objects_calls gsg force draws2 bin._objects
  refine ⟨h1, ?_, h1.trans h2.symm, ?_, ?_⟩
  · have := congrArg List.length h1
    simpa using this
  · have := congrArg (List.map (fun t : CullableObject × Nat × Bool => DrawCall.mk t.1 t.2.2)) h1
    simpa [CullBinFixed.draw, CullBinFixed.draw_on, List.map_map, Function.comp] using this
  · cases force <;> decide

/-- C22: `fill_result_graph` hands the builder exactly the objects that `draw`
visits, in the same order, and both leave the bin, so the sequence of its
entries, as it was. -/
theorem C22_fill_result_graph_follows_draw (bin : CullBinFixed) (gsg : Nat) (force : Bool)
    (draws : CullableObject → Bool) :
    bin.fill_result_graph_on.2 = (bin.draw_on gsg force draws).2.map (fun r => r.object)
    ∧ bin.fill_result_graph_on.2 = bin._objects.map (fun d => d._object)
    ∧ bin.fill_result_graph_on.2 = bin.fill_result_graph
    ∧ bin.fill_result_graph = (bin.draw force).map (fun c => c.object)
    ∧ bin.fill_result_graph_on.1 = bin
    ∧ (bin.draw_on gsg force draws).1 = bin := by
  have h1 := draw_objects_calls gsg force draws bin._objects
  have h3 := fill_objects_eq bin._objects
  refine ⟨?_, h3, h3, ?_, rfl, rfl⟩
  · have := congrArg (List.map (fun t : CullableObject × Nat × Bool => t.1)) h1
    simp only [List.map_map] at this
    show fill_objects bin._objects = _
    rw [h3]
    simpa [CullBinFixed.draw_on, Function.comp] using this.symm
  · simp [CullBinFixed.fill_result_graph, CullBinFixed.draw, List.map_map, Function.comp]

/-- C23: on the base GSG `dispatch_compute` raises the assertion failure
"Compute shaders not supported by GSG" for every triple of work-group counts,
exactly once; it returns nothing (so no soft failure) and leaves every field
of the GSG as it was. -/
theorem C23_dispatch_compute_raises (gsg : GraphicsStateGuardian)
    (num_groups_x num_groups_y num_groups_z : Int) :
    (gsg.dispatch_compute num_groups_x num_groups_y num_groups_z).2
        = [AssertRaise.compute_shaders_not_supported]
    ∧ (gsg.dispatch_compute num_groups_x num_groups_y num_groups_z).1 = gsg :=
  ⟨rfl, rfl⟩

/-- A union of bit masks is zero only when both are. -/
theorem lor_eq_zero_iff (a b : Nat) : a ||| b = 0 ↔ a = 0 ∧ b = 0 := by
  constructor
  · intro h
    have key : ∀ i, a.testBit i = false ∧ b.testBit i = false := by
      intro i
      have h1 : (a ||| b).testBit i = false := by rw [h]; simp
      rw [Nat.testBit_or] at h1
      simpa using h1
    constructor
    · apply Nat.eq_of_testBit_eq
      intro i
      simp [(key i).1]
    · apply Nat.eq_of_testBit_eq
      intro i
      simp [(key i).2]
  · rintro ⟨rfl, rfl⟩
    rfl

theorem transition_emit_src (tc : VulkanTextureContext) (layout s a wm src : Nat) :
    (tc.transition_emit layout s a wm src).2.map (fun b => b.srcStageMask) = [src] := rfl

/-- C24: the source stage masks of the barrier commands issued by `transition`
are these: when the layout changes or the access is a write, one command whose
source stage mask is the top-of-pipe bit if neither a write stage nor a read
stage is recorded and the union of the recorded write and read stages
otherwise; when the layout stays and the access is a read, no command if no
write stage is recorded and otherwise one command whose source stage mask is
the recorded write stage. Every command issued has a non-zero source stage
mask. -/
theorem C24_source_stage_mask_nonzero (tc : VulkanTextureContext)
    (queue_family layout dst_stage_mask dst_access_mask : Nat) :
    (tc.transition queue_family layout dst_stage_mask dst_access_mask).2.map
        (fun b => b.srcStageMask)
      = (if tc._layout ≠ (if tc._image = VK_NULL_HANDLE then tc._layout else layout)
            ∨ dst_access_mask &&& WRITE_ACCESS_BITS ≠ 0 then
          [if tc._write_stage_mask = 0 ∧ tc._read_stage_mask = 0
            then VK_PIPELINE_STAGE_TOP_OF_PIPE_BIT
            else tc._write_stage_mask ||| tc._read_stage_mask]
        else if tc._write_stage_mask = 0 then []
        else [tc._write_stage_mask])
    ∧ ∀ b ∈ (tc.transition queue_family layout dst_stage_mask dst_access_mask).2,
        b.srcStageMask ≠ 0 := by
  have h1 : (tc.transition queue_family layout dst_stage_mask dst_access_mask).2.map
        (fun b => b.srcStageMask)
      = (if tc._layout ≠ (if tc._image = VK_NULL_HANDLE then tc._layout else layout)
            ∨ dst_access_mask &&& WRITE_ACCESS_BITS ≠ 0 then
          [if tc._write_stage_mask = 0 ∧ tc._read_stage_mask = 0
            then VK_PIPELINE_STAGE_TOP_OF_PIPE_BIT
            else tc._write_stage_mask ||| tc._read_stage_mask]
        else if tc._write_stage_mask = 0 then []
        else [tc._write_stage_mask]) := by
    unfold VulkanTextureContext.transition
    simp only []
    by_cases hc : tc._layout ≠ (if tc._image = VK_NULL_HANDLE then tc._layout else layout)
        ∨ dst_access_mask &&& WRITE_ACCESS_BITS ≠ 0
    · rw [if_pos hc, if_pos hc, transition_emit_src]
      by_cases hz : tc._write_stage_mask ||| tc._read_stage_mask = 0
      · rw [if_pos hz, if_pos ((lor_eq_zero_iff _ _).mp hz)]
      · rw [if_neg hz, if_neg (fun h => hz ((lor_eq_zero_iff _ _).mpr h))]
    · rw [if_neg hc, if_neg hc]
      by_cases hw : tc._write_stage_mask = 0
      · rw [if_pos hw, if_pos hw]
        rfl
      · rw [if_neg hw, if_neg hw, transition_emit_src]
  refine ⟨h1, ?_⟩
  intro b hb
  have hm : b.srcStageMask ∈ (tc.transition queue_family layout dst_stage_mask
      dst_access_mask).2.map (fun b => b.srcStageMask) := List.mem_map_of_mem _ hb
  rw [h1] at hm
  by_cases hc : tc._layout ≠ (if tc._image = VK_NULL_HANDLE then tc._layout else layout)
      ∨ dst_access_mask &&& WRITE_ACCESS_BITS ≠ 0
  · rw [if_pos hc, List.mem_singleton] at hm
    rw [hm]
    by_cases hz : tc._write_stage_mask = 0 ∧ tc._read_stage_mask = 0
    · rw [if_pos hz]
      decide
    · rw [if_neg hz]
      exact fun h => hz ((lor_eq_zero_iff _ _).mp h)
  · rw [if_neg hc] at hm
    by_cases hw : tc._write_stage_mask = 0
    · rw [if_pos hw] at hm
      cases hm
    · rw [if_neg hw, List.mem_singleton] at hm
      rw [hm]
      exact hw

/-- Witness of C24: the first write to a context on which no stage is recorded
waits on the top of the pipe. -/
theorem C24_source_stage_mask_nonzero_witness :
    (({ VulkanTextureContext.fresh with
          _image := 3, _write_stage_mask := 0, _read_stage_mask := 0 }).transition
        0 7 0x1000 VK_ACCESS_TRANSFER_WRITE_BIT).2.map
          (fun b : PipelineBarrier => b.srcStageMask)
      = [VK_PIPELINE_STAGE_TOP_OF_PIPE_BIT]
    ∧ ∀ b : PipelineBarrier, b ∈ (({ VulkanTextureContext.fresh with
          _image := 3, _write_stage_mask := 0, _read_stage_mask := 0 }).transition
        0 7 0x1000 VK_ACCESS_TRANSFER_WRITE_BIT).2 → b.srcStageMask ≠ 0 :=
  ⟨by decide,
   (C24_source_stage_mask_nonzero
      { VulkanTextureContext.fresh with
          _image := 3, _write_stage_mask := 0, _read_stage_mask := 0 }
      0 7 0x1000 VK_ACCESS_TRANSFER_WRITE_BIT).2⟩

/-- Either `transition` returns early or it runs to its end. -/
theorem transition_cases (tc : VulkanTextureContext) (q layout s a : Nat) :
    tc.transition q layout s a = (tc, [])
    ∨ ∃ src, tc.transition q layout s a
        = tc.transition_emit (if tc._image = VK_NULL_HANDLE then tc._layout else layout)
            s a (a &&& WRITE_ACCESS_BITS) src := by
  by_cases h : tc.read_after_read layout a
  · exact Or.inl (transition_noop tc q layout s a h)
  · exact Or.inr (transition_emits tc q layout s a h)

/-- Without an image handle the command has no image barrier. -/
theorem transition_emit_no_image (tc : VulkanTextureContext) (layout s a wm src : Nat)
    (h : tc._image = VK_NULL_HANDLE) :
    ∀ b ∈ (tc.transition_emit layout s a wm src).2, b.imageMemoryBarriers = [] := by
  intro b hb
  obtain ⟨b2, hb2, -, -, hlen, -⟩ := transition_emit_snd tc layout s a wm src
  rw [hb2, List.mem_singleton] at hb
  subst hb
  rw [if_neg (not_not.mpr h)] at hlen
  exact List.length_eq_zero.mp hlen

/-- C25: for a context whose image handle is null, `transition` ignores the
layout argument: two calls that differ only in the requested layout issue the
same barrier commands and end in the same state, and `_layout` after the call
is what it was before. -/
theorem C25_buffer_layout_ignored (tc : VulkanTextureContext)
    (queue_family layout1 layout2 dst_stage_mask dst_access_mask : Nat)
    (h : tc._image = VK_NULL_HANDLE) :
    tc.transition queue_family layout1 dst_stage_mask dst_access_mask
        = tc.transition queue_family layout2 dst_stage_mask dst_access_mask
    ∧ (tc.transition queue_family layout1 dst_stage_mask dst_access_mask).1._layout
        = tc._layout
    ∧ ∀ b ∈ (tc.transition queue_family layout1 dst_stage_mask dst_access_mask).2,
        b.imageMemoryBarriers = [] := by
  refine ⟨?_, ?_, ?_⟩
  · unfold VulkanTextureContext.transition
    simp only [h, if_true]
  · unfold VulkanTextureContext.transition
    simp only [h, if_true]
    split_ifs <;> first | rfl | (rw [transition_emit_fst])
  · intro b hb
    rcases transition_cases tc queue_family layout1 dst_stage_mask dst_access_mask with hc | ⟨src, hc⟩
    · rw [hc] at hb
      cases hb
    · rw [hc] at hb
      exact transition_emit_no_image tc _ _ _ _ _ h b hb

/-- Witness of C25: a buffer texture whose recorded layout is 4, asked for the
layouts 7 and 9 with a transfer write. -/
theorem C25_buffer_layout_ignored_witness :
    ({ VulkanTextureContext.fresh with _buffer := 6, _layout := 4 }).transition
          0 7 0x1000 VK_ACCESS_TRANSFER_WRITE_BIT
        = ({ VulkanTextureContext.fresh with _buffer := 6, _layout := 4 }).transition
          0 9 0x1000 VK_ACCESS_TRANSFER_WRITE_BIT
    ∧ (({ VulkanTextureContext.fresh with _buffer := 6, _layout := 4 }).transition
          0 7 0x1000 VK_ACCESS_TRANSFER_WRITE_BIT).1._layout = 4
    ∧ (({ VulkanTextureContext.fresh with _buffer := 6, _layout := 4 }).transition
          0 7 0x1000 VK_ACCESS_TRANSFER_WRITE_BIT).2.length = 1 :=
  have h := C25_buffer_layout_ignored
    { VulkanTextureContext.fresh with _buffer := 6, _layout := 4 }
    0 7 9 0x1000 VK_ACCESS_TRANSFER_WRITE_BIT rfl
  ⟨h.1, h.2.1, by decide⟩

/-- How often one `enable_light(i, false)` occurs among the calls that switch
off the ids from `s` up to `s + n`. -/
theorem count_disable_lights (n s i : Nat) :
    ((List.range' s n).map (fun j => GsgCall.enable_light j false)).count
        (GsgCall.enable_light i false)
      = if s ≤ i ∧ i < s + n then 1 else 0 := by
  induction n generalizing s with
  | zero =>
    rw [if_neg (fun h => by omega)]
    rfl
  | succ n ih =>
    rw [List.range'_succ, List.map_cons, List.count_cons, ih]
    by_cases h : s = i
    · subst h
      simp
    · have h2 : ¬ (GsgCall.enable_light s false == GsgCall.enable_light i false) = true := by
        simpa using h
      rw [if_neg h2]
      by_cases h3 : s + 1 ≤ i ∧ i < s + 1 + n
      · rw [if_pos h3, if_pos ⟨by omega, by omega⟩]
      · rw [if_neg h3, if_neg (fun h4 => h3 ⟨by omega, by omega⟩)]

/-- How often one `enable_clip_plane(i, false)` occurs among the calls that
switch off the ids from `s` up to `s + n`. -/
theorem count_disable_planes (n s i : Nat) :
    ((List.range' s n).map (fun j => GsgCall.enable_clip_plane j false)).count
        (GsgCall.enable_clip_plane i false)
      = if s ≤ i ∧ i < s + n then 1 else 0 := by
  induction n generalizing s with
  | zero =>
    rw [if_neg (fun h => by omega)]
    rfl
  | succ n ih =>
    rw [List.range'_succ, List.map_cons, List.count_cons, ih]
    by_cases h : s = i
    · subst h
      simp
    · have h2 : ¬ (GsgCall.enable_clip_plane s false == GsgCall.enable_clip_plane i false)
          = true := by
        simpa using h
      rw [if_neg h2]
      by_cases h3 : s + 1 ≤ i ∧ i < s + 1 + n
      · rw [if_pos h3, if_pos ⟨by omega, by omega⟩]
      · rw [if_neg h3, if_neg (fun h4 => h3 ⟨by omega, by omega⟩)]

theorem end_scene_calls (gsg : GraphicsStateGuardian) :
    gsg.end_scene.2
      = (List.range' 0 gsg._num_lights_enabled).map (fun i => GsgCall.enable_light i false)
        ++ (List.range' 0 gsg._num_clip_planes_enabled).map
            (fun i => GsgCall.enable_clip_plane i false) := rfl

/-- C26: `end_scene` calls `enable_light(i, false)` for i = 0, 1, .. below the
count of enabled lights and then `enable_clip_plane(i, false)` for i = 0, 1, ..
below the count of enabled clip planes, each of these calls exactly once and no
other hook call; afterwards both counts are 0, the bound render state is the
empty state and the state mask is clear. -/
theorem C26_end_scene_resets_bindings (gsg : GraphicsStateGuardian) (i : Nat) (enable : Bool) :
    gsg.end_scene.2
      = (List.range gsg._num_lights_enabled).map (fun i => GsgCall.enable_light i false)
        ++ (List.range gsg._num_clip_planes_enabled).map
            (fun i => GsgCall.enable_clip_plane i false)
    ∧ gsg.end_scene.2.count (GsgCall.enable_light i enable)
        = (if enable = false ∧ i < gsg._num_lights_enabled then 1 else 0)
    ∧ gsg.end_scene.2.count (GsgCall.enable_clip_plane i enable)
        = (if enable = false ∧ i < gsg._num_clip_planes_enabled then 1 else 0)
    ∧ gsg.end_scene.1._num_lights_enabled = 0
    ∧ gsg.end_scene.1._num_clip_planes_enabled = 0
    ∧ gsg.end_scene.1._state_rs = RenderState.make_empty
    ∧ gsg.end_scene.1._state_mask = ⟨0⟩
    ∧ (∀ slot, gsg.end_scene.1._state_mask.get_bit slot = false) := by
  refine ⟨?_, ?_, ?_, rfl, rfl, rfl, rfl, ?_⟩
  · rw [end_scene_calls, List.range_eq_range', List.range_eq_range']
  · rw [end_scene_calls, List.count_append]
    have h2 : ((List.range' 0 gsg._num_clip_planes_enabled).map
        (fun i => GsgCall.enable_clip_plane i false)).count (GsgCall.enable_light i enable)
        = 0 := by
      rw [List.count_eq_zero]
      simp
    rw [h2, Nat.add_zero]
    cases enable
    · rw [count_disable_lights]
      simp
    · have h3 : ((List.range' 0 gsg._num_lights_enabled).map
          (fun i => GsgCall.enable_light i false)).count (GsgCall.enable_light i true)
          = 0 := by
        rw [List.count_eq_zero]
        simp
      rw [h3]
      simp
  · rw [end_scene_calls, List.count_append]
    have h2 : ((List.range' 0 gsg._num_lights_enabled).map
        (fun i => GsgCall.enable_light i false)).count (GsgCall.enable_clip_plane i enable)
        = 0 := by
      rw [List.count_eq_zero]
      simp
    rw [h2, Nat.zero_add]
    cases enable
    · rw [count_disable_planes]
      simp
    · have h3 : ((List.range' 0 gsg._num_clip_planes_enabled).map
          (fun i => GsgCall.enable_clip_plane i false)).count (GsgCall.enable_clip_plane i true)
          = 0 := by
        rw [List.count_eq_zero]
        simp
      rw [h3]
      simp
  · intro slot
    show (SlotMask.mk 0).get_bit slot = false
    simp [SlotMask.get_bit]

/-- C29: `release` and `destroy_now` set `_layout` and `_format` to UNDEFINED and
leave `_write_stage_mask`, `_read_stage_mask` and `_write_access_mask` as they
were. So a context that held an image written by a transfer, was released and
was given a new image has the masks of the transfer, not those of a new
context, and its next transition waits on the transfer stage where a new
context waits on the top of the pipe. -/
theorem C29_release_keeps_hazard_masks (tc : VulkanTextureContext)
    (frame_data : VulkanFrameData) :
    ((tc.release frame_data).1._layout = VK_IMAGE_LAYOUT_UNDEFINED
      ∧ (tc.release frame_data).1._format = VK_FORMAT_UNDEFINED
      ∧ (tc.release frame_data).1._write_stage_mask = tc._write_stage_mask
      ∧ (tc.release frame_data).1._read_stage_mask = tc._read_stage_mask
      ∧ (tc.release frame_data).1._write_access_mask = tc._write_access_mask)
    ∧ (tc.destroy_now.1._layout = VK_IMAGE_LAYOUT_UNDEFINED
      ∧ tc.destroy_now.1._format = VK_FORMAT_UNDEFINED
      ∧ tc.destroy_now.1._write_stage_mask = tc._write_stage_mask
      ∧ tc.destroy_now.1._read_stage_mask = tc._read_stage_mask
      ∧ tc.destroy_now.1._write_access_mask = tc._write_access_mask)
    ∧ (released_and_reused._write_stage_mask = 0x1000
      ∧ released_and_reused._read_stage_mask = 0x1000
      ∧ released_and_reused._write_access_mask = VK_ACCESS_TRANSFER_WRITE_BIT
      ∧ barrier_sources (released_and_reused.transition 0 7 0x80 0x20).2
          = [(0x1000, [VK_ACCESS_TRANSFER_WRITE_BIT])]
      ∧ barrier_sources
            (({ VulkanTextureContext.fresh with _image := 9 }).transition 0 7 0x80 0x20).2
          = [(VK_PIPELINE_STAGE_TOP_OF_PIPE_BIT, [0])]) := by
  refine ⟨?_, ?_, by decide⟩
  · unfold VulkanTextureContext.release
    by_cases h1 : tc._image = VK_NULL_HANDLE <;>
    by_cases h2 : tc._buffer = VK_NULL_HANDLE <;>
    cases h3 : tc._image_views <;>
    cases h4 : tc._buffer_views <;>
    simp [h1, h2, h3, h4]
  · unfold VulkanTextureContext.destroy_now
    by_cases h1 : tc._image = VK_NULL_HANDLE <;>
    by_cases h2 : tc._buffer = VK_NULL_HANDLE <;>
    simp [h1, h2]

/-- C30: `set_scene` stores the scene setup and the lens before it checks them.
For a scene whose lens is null it returns false with `_scene_setup` the new
scene setup and `_current_lens` null; for a lens whose projection matrix cannot
be computed it returns false with `_scene_setup` and `_current_lens` replaced
and `_projection_mat` null, while `_projection_mat_inv` is what it was before
the call. -/
theorem C30_set_scene_not_atomic (default_cs : CoordinateSystem)
    (gsg : GraphicsStateGuardian) (scene_setup : SceneSetup) :
    (scene_setup.lens = none →
        (gsg.set_scene default_cs scene_setup).2 = false
        ∧ (gsg.set_scene default_cs scene_setup).1._scene_setup = some scene_setup
        ∧ (gsg.set_scene default_cs scene_setup).1._current_lens = none)
    ∧ (∀ lens, scene_setup.lens = some lens →
        (∀ g : GraphicsStateGuardian, g.calc_projection_mat (some lens) = none) →
        (gsg.set_scene default_cs scene_setup).2 = false
        ∧ (gsg.set_scene default_cs scene_setup).1._scene_setup = some scene_setup
        ∧ (gsg.set_scene default_cs scene_setup).1._current_lens = some lens
        ∧ (gsg.set_scene default_cs scene_setup).1._projection_mat = none
        ∧ (gsg.set_scene default_cs scene_setup).1._projection_mat_inv
            = gsg._projection_mat_inv) := by
  constructor
  · intro h
    simp [GraphicsStateGuardian.set_scene, h]
  · intro lens hl hp
    obtain ⟨c, t, ti, hcs⟩ := set_coordinate_system_frame default_cs
      { gsg with _scene_setup := some scene_setup, _current_lens := some lens }
      lens.coordinate_system
    simp [GraphicsStateGuardian.set_scene, hl, hp, hcs]

/-- Witness of C30: a GSG that holds a projection matrix and its inverse is
given a scene without a lens, and a scene whose lens is not linear. -/
theorem C30_set_scene_not_atomic_witness :
    (({ GraphicsStateGuardian.make 8 8 false false with
            _projection_mat := some TransformState.make_identity
            _projection_mat_inv := some (TransformState.inverse_of TransformState.make_identity)
        }).set_scene CoordinateSystem.CS_zup_right ⟨1, none⟩).1._scene_setup
        = some ⟨1, none⟩
    ∧ (({ GraphicsStateGuardian.make 8 8 false false with
            _projection_mat := some TransformState.make_identity
            _projection_mat_inv := some (TransformState.inverse_of TransformState.make_identity)
        }).set_scene CoordinateSystem.CS_zup_right
          ⟨2, some ⟨1, CoordinateSystem.CS_yup_right, false⟩⟩).1._projection_mat = none
    ∧ (({ GraphicsStateGuardian.make 8 8 false false with
            _projection_mat := some TransformState.make_identity
            _projection_mat_inv := some (TransformState.inverse_of TransformState.make_identity)
        }).set_scene CoordinateSystem.CS_zup_right
          ⟨2, some ⟨1, CoordinateSystem.CS_yup_right, false⟩⟩).1._projection_mat_inv
        = some (TransformState.inverse_of TransformState.make_identity) :=
  ⟨((C30_set_scene_not_atomic CoordinateSystem.CS_zup_right
      { GraphicsStateGuardian.make 8 8 false false with
          _projection_mat := some TransformState.make_identity
          _projection_mat_inv := some (TransformState.inverse_of TransformState.make_identity) }
      ⟨1, none⟩).1 rfl).2.1,
   ((C30_set_scene_not_atomic CoordinateSystem.CS_zup_right
      { GraphicsStateGuardian.make 8 8 false false with
          _projection_mat := some TransformState.make_identity
          _projection_mat_inv := some (TransformState.inverse_of TransformState.make_identity) }
      ⟨2, some ⟨1, CoordinateSystem.CS_yup_right, false⟩⟩).2
        ⟨1, CoordinateSystem.CS_yup_right, false⟩ rfl
        (fun g => calc_projection_mat_nonlinear g _ rfl)).2.2.2.1,
   ((C30_set_scene_not_atomic CoordinateSystem.CS_zup_right
      { GraphicsStateGuardian.make 8 8 false false with
          _projection_mat := some TransformState.make_identity
          _projection_mat_inv := some (TransformState.inverse_of TransformState.make_identity) }
      ⟨2, some ⟨1, CoordinateSystem.CS_yup_right, false⟩⟩).2
        ⟨1, CoordinateSystem.CS_yup_right, false⟩ rfl
        (fun g => calc_projection_mat_nonlinear g _ rfl)).2.2.2.2⟩

/-! ### The bracket of bind calls -/

theorem BindPhase.run_append (a b : List BindEvent) :
    ∀ p : BindPhase, BindPhase.run p (a ++ b) = (BindPhase.run p a).bind (fun q => BindPhase.run q b) := by
  induction a with
  | nil => intro p; rfl
  | cons e rest ih =>
    intro p
    simp only [List.cons_append, BindPhase.run]
    cases h : p.step e with
    | none => rfl
    | some q => exact ih q

theorem BindPhase.step_other (p : BindPhase) : p.step BindEvent.other = some p := by
  cases p <;> rfl

theorem BindPhase.run_others (evs : List BindEvent) (h : ∀ e ∈ evs, e = BindEvent.other) :
    ∀ p : BindPhase, BindPhase.run p evs = some p := by
  induction evs with
  | nil => intro p; rfl
  | cons e rest ih =>
    intro p
    have he : e = BindEvent.other := h e (List.mem_cons_self _ _)
    subst he
    simp only [BindPhase.run, BindPhase.step_other]
    exact ih (fun e he => h e (List.mem_cons_of_mem _ he)) p

theorem count_others (evs : List BindEvent) (h : ∀ e ∈ evs, e = BindEvent.other)
    (e : BindEvent) (he : e ≠ BindEvent.other) : evs.count e = 0 := by
  rw [List.count_eq_zero]
  intro hm
  exact he (h e hm)

/-- What a run of calls without a begin, bind or end does to the bracket. -/
theorem others_spec (evs : List BindEvent) (h : ∀ e ∈ evs, e = BindEvent.other)
    (p : BindPhase) :
    BindPhase.run p evs = some p
    ∧ evs.count BindEvent.begin_bind = 0
    ∧ evs.count BindEvent.bind = 0
    ∧ evs.count BindEvent.end_bind = 0 :=
  ⟨BindPhase.run_others evs h p, count_others evs h _ (by decide),
    count_others evs h _ (by decide), count_others evs h _ (by decide)⟩

/-- The bracket through the loop of `do_issue_light`. -/
theorem do_issue_light_loop_bracket (lights : List LightNode) :
    ∀ (gsg : GraphicsStateGuardian) (n : Nat),
    n ≤ (GraphicsStateGuardian.do_issue_light_loop lights gsg n).2.1
    ∧ BindPhase.run (loop_phase n)
          ((GraphicsStateGuardian.do_issue_light_loop lights gsg n).2.2.map light_bind_event)
        = some (loop_phase (GraphicsStateGuardian.do_issue_light_loop lights gsg n).2.1)
    ∧ ((GraphicsStateGuardian.do_issue_light_loop lights gsg n).2.2.map light_bind_event).count
          BindEvent.begin_bind
        = (if n = 0 ∧ (GraphicsStateGuardian.do_issue_light_loop lights gsg n).2.1 ≠ 0
            then 1 else 0)
    ∧ ((GraphicsStateGuardian.do_issue_light_loop lights gsg n).2.2.map light_bind_event).count
          BindEvent.bind
        = (GraphicsStateGuardian.do_issue_light_loop lights gsg n).2.1 - n
    ∧ ((GraphicsStateGuardian.do_issue_light_loop lights gsg n).2.2.map light_bind_event).count
          BindEvent.end_bind = 0 := by
  induction lights with
  | nil =>
    intro gsg n
    simp [GraphicsStateGuardian.do_issue_light_loop, BindPhase.run]
  | cons l rest ih =>
    intro gsg n
    have hc1 : ∀ c ∈ (if (!gsg._lighting_enabled) = true
        then [GsgCall.enable_lighting true] else []), light_bind_event c = BindEvent.other := by
      intro c hc
      split_ifs at hc
      · rw [List.mem_singleton] at hc
        subst hc
        rfl
      · cases hc
    have ho := fun p => others_spec
      ((if (!gsg._lighting_enabled) = true
        then [GsgCall.enable_lighting true] else []).map light_bind_event)
      (by
        intro e he
        obtain ⟨c, hc, rfl⟩ := List.mem_map.mp he
        exact hc1 c hc) p
    generalize hcs : (if (!gsg._lighting_enabled) = true
        then [GsgCall.enable_lighting true] else []) = calls1 at ho
    by_cases hc : l.color.x ≠ 0 ∨ l.color.y ≠ 0 ∨ l.color.z ≠ 0
    · simp only [GraphicsStateGuardian.do_issue_light_loop, if_pos hc, hcs]
      generalize (if (!gsg._lighting_enabled) = true
        then { gsg with _lighting_enabled := true } else gsg) = g1
      obtain ⟨h1, h2, h3, h4, h5⟩ := ih g1 (n + 1)
      generalize GraphicsStateGuardian.do_issue_light_loop rest g1 (n + 1) = r at h1 h2 h3 h4 h5
      obtain ⟨g2, n2, c2⟩ := r
      simp only [] at h1 h2 h3 h4 h5 ⊢
      have hn2 : n2 ≠ 0 := by omega
      simp only [List.map_append, List.count_append, BindPhase.run_append, (ho _).1,
        (ho BindPhase.idle).2.1, (ho BindPhase.idle).2.2.1, (ho BindPhase.idle).2.2.2,
        Option.some_bind, h3, h4, h5]
      have hp1 : loop_phase (n + 1) = BindPhase.bound := by simp [loop_phase]
      rw [hp1] at h2
      by_cases hn : n = 0
      · subst hn
        refine ⟨by omega, ?_, ?_, ?_, ?_⟩
        · simp [loop_phase, light_bind_event, BindPhase.run, BindPhase.step, h2]
        · simp [light_bind_event, hn2]
        · simp [light_bind_event]
          omega
        · simp [light_bind_event]
      · refine ⟨by omega, ?_, ?_, ?_, ?_⟩
        · simp [loop_phase, hn, light_bind_event, BindPhase.run, BindPhase.step, h2]
        · simp [light_bind_event, hn]
        · simp [light_bind_event, hn]
          omega
        · simp [light_bind_event, hn]
    · simp only [GraphicsStateGuardian.do_issue_light_loop, if_neg hc, hcs]
      generalize (if (!gsg._lighting_enabled) = true
        then { gsg with _lighting_enabled := true } else gsg) = g1
      obtain ⟨h1, h2, h3, h4, h5⟩ := ih g1 n
      generalize GraphicsStateGuardian.do_issue_light_loop rest g1 n = r at h1 h2 h3 h4 h5
      obtain ⟨g2, n2, c2⟩ := r
      simp only [] at h1 h2 h3 h4 h5 ⊢
      simp only [List.map_append, List.count_append, BindPhase.run_append, (ho _).1,
        (ho BindPhase.idle).2.1, (ho BindPhase.idle).2.2.1, (ho BindPhase.idle).2.2.2,
        Option.some_bind, h2, h3, h4, h5, Nat.zero_add]
      exact ⟨h1, trivial, trivial, trivial, trivial⟩

/-- The bracket through the loop of `do_issue_clip_plane`. -/
theorem do_issue_clip_plane_loop_bracket (planes : List PlaneNode) :
    ∀ (gsg : GraphicsStateGuardian) (n : Nat),
    n ≤ (GraphicsStateGuardian.do_issue_clip_plane_loop planes gsg n).2.1
    ∧ BindPhase.run (loop_phase n)
          ((GraphicsStateGuardian.do_issue_clip_plane_loop planes gsg n).2.2.map plane_bind_event)
        = some (loop_phase (GraphicsStateGuardian.do_issue_clip_plane_loop planes gsg n).2.1)
    ∧ ((GraphicsStateGuardian.do_issue_clip_plane_loop planes gsg n).2.2.map
          plane_bind_event).count BindEvent.begin_bind
        = (if n = 0 ∧ (GraphicsStateGuardian.do_issue_clip_plane_loop planes gsg n).2.1 ≠ 0
            then 1 else 0)
    ∧ ((GraphicsStateGuardian.do_issue_clip_plane_loop planes gsg n).2.2.map
          plane_bind_event).count BindEvent.bind
        = (GraphicsStateGuardian.do_issue_clip_plane_loop planes gsg n).2.1 - n
    ∧ ((GraphicsStateGuardian.do_issue_clip_plane_loop planes gsg n).2.2.map
          plane_bind_event).count BindEvent.end_bind = 0 := by
  induction planes with
  | nil =>
    intro gsg n
    simp [GraphicsStateGuardian.do_issue_clip_plane_loop, BindPhase.run]
  | cons l rest ih =>
    intro gsg n
    have hc1 : ∀ c ∈ (if (!gsg._clip_planes_enabled) = true
        then [GsgCall.enable_clip_planes true] else []),
        plane_bind_event c = BindEvent.other := by
      intro c hc
      split_ifs at hc
      · rw [List.mem_singleton] at hc
        subst hc
        rfl
      · cases hc
    have ho := fun p => others_spec
      ((if (!gsg._clip_planes_enabled) = true
        then [GsgCall.enable_clip_planes true] else []).map plane_bind_event)
      (by
        intro e he
        obtain ⟨c, hc, rfl⟩ := List.mem_map.mp he
        exact hc1 c hc) p
    generalize hcs : (if (!gsg._clip_planes_enabled) = true
        then [GsgCall.enable_clip_planes true] else []) = calls1 at ho
    by_cases hc : l.clip_effect &&& CE_visible ≠ 0
    · simp only [GraphicsStateGuardian.do_issue_clip_plane_loop, if_pos hc, hcs]
      generalize (if (!gsg._clip_planes_enabled) = true
        then { gsg with _clip_planes_enabled := true } else gsg) = g1
      obtain ⟨h1, h2, h3, h4, h5⟩ := ih g1 (n + 1)
      generalize GraphicsStateGuardian.do_issue_clip_plane_loop rest g1 (n + 1) = r
        at h1 h2 h3 h4 h5
      obtain ⟨g2, n2, c2⟩ := r
      simp only [] at h1 h2 h3 h4 h5 ⊢
      have hn2 : n2 ≠ 0 := by omega
      simp only [List.map_append, List.count_append, BindPhase.run_append, (ho _).1,
        (ho BindPhase.idle).2.1, (ho BindPhase.idle).2.2.1, (ho BindPhase.idle).2.2.2,
        Option.some_bind, h3, h4, h5]
      have hp1 : loop_phase (n + 1) = BindPhase.bound := by simp [loop_phase]
      rw [hp1] at h2
      by_cases hn : n = 0
      · subst hn
        refine ⟨by omega, ?_, ?_, ?_, ?_⟩
        · simp [loop_phase, plane_bind_event, BindPhase.run, BindPhase.step, h2]
        · simp [plane_bind_event, hn2]
        · simp [plane_bind_event]
          omega
        · simp [plane_bind_event]
      · refine ⟨by omega, ?_, ?_, ?_, ?_⟩
        · simp [loop_phase, hn, plane_bind_event, BindPhase.run, BindPhase.step, h2]
        · simp [plane_bind_event, hn]
        · simp [plane_bind_event, hn]
          omega
        · simp [plane_bind_event, hn]
    · simp only [GraphicsStateGuardian.do_issue_clip_plane_loop, if_neg hc]
      exact ih gsg n

/-- The calls that switch ids off are outside the light bracket. -/
theorem disable_lights_other (s n : Nat) :
    ∀ e ∈ ((List.range' s n).map (fun i => GsgCall.enable_light i false)).map light_bind_event,
      e = BindEvent.other := by
  intro e he
  simp only [List.map_map, List.mem_map] at he
  obtain ⟨i, -, rfl⟩ := he
  rfl

/-- The calls that switch ids off are outside the clip-plane bracket. -/
theorem disable_planes_other (s n : Nat) :
    ∀ e ∈ ((List.range' s n).map (fun i => GsgCall.enable_clip_plane i false)).map
        plane_bind_event,
      e = BindEvent.other := by
  intro e he
  simp only [List.map_map, List.mem_map] at he
  obtain ⟨i, -, rfl⟩ := he
  rfl

/-- The bracket of `do_issue_light` in terms of the count it records. -/
theorem do_issue_light_bracket (gsg : GraphicsStateGuardian) :
    BindPhase.run BindPhase.idle (gsg.do_issue_light.2.map light_bind_event)
        = some (if gsg.do_issue_light.1._num_lights_enabled = 0
            then BindPhase.idle else BindPhase.ended)
    ∧ (gsg.do_issue_light.2.map light_bind_event).count BindEvent.begin_bind
        = (if gsg.do_issue_light.1._num_lights_enabled = 0 then 0 else 1)
    ∧ (gsg.do_issue_light.2.map light_bind_event).count BindEvent.bind
        = gsg.do_issue_light.1._num_lights_enabled
    ∧ (gsg.do_issue_light.2.map light_bind_event).count BindEvent.end_bind
        = (if gsg.do_issue_light.1._num_lights_enabled = 0 then 0 else 1) := by
  obtain ⟨-, h2, h3, h4, h5⟩ := do_issue_light_loop_bracket gsg.filtered_lights gsg 0
  obtain ⟨hnum, -⟩ := do_issue_light_calls gsg
  obtain ⟨-, hn1, -⟩ := do_issue_light_loop_spec gsg.filtered_lights gsg 0
  rw [hnum]
  generalize (gsg.filtered_lights.filter LightNode.contributes).length = k at hn1 ⊢
  unfold GraphicsStateGuardian.do_issue_light
  simp only [do_issue_light_loop_eq]
  generalize GraphicsStateGuardian.do_issue_light_loop gsg.filtered_lights gsg 0 = r
    at h2 h3 h4 h5 hn1
  obtain ⟨g1, n1, c1⟩ := r
  simp only [Nat.sub_zero, true_and, Nat.zero_add] at h2 h3 h4 h5 hn1
  subst hn1
  have hd := fun p => others_spec _ (disable_lights_other n1 (g1._num_lights_enabled - n1)) p
  generalize hdis : (List.range' n1 (g1._num_lights_enabled - n1)).map
    (fun i => GsgCall.enable_light i false) = dis at hd
  have hp0 : loop_phase 0 = BindPhase.idle := rfl
  rw [hp0] at h2
  simp only [hdis]
  have hd1 := fun p => (hd p).1
  obtain ⟨-, hd2, hd3, hd4⟩ := hd BindPhase.idle
  by_cases hn : n1 = 0
  · simp only [hn, ne_eq, not_true_eq_false, if_false, if_true] at h2 h3 h4 ⊢
    split_ifs <;>
      simp only [List.map_append, List.count_append, BindPhase.run_append, h2, h3, h4, h5, hd1,
        hd2, hd3, hd4, Option.some_bind] <;>
      simp [light_bind_event, BindPhase.run, BindPhase.step, loop_phase]
  · simp only [hn, ne_eq, not_false_eq_true, if_false, if_true] at h2 h3 h4 ⊢
    split_ifs <;>
      simp only [List.map_append, List.count_append, BindPhase.run_append, h2, h3, h4, h5, hd1,
        hd2, hd3, hd4, Option.some_bind] <;>
      simp [light_bind_event, BindPhase.run, BindPhase.step, loop_phase, hn]

/-- The bracket of `do_issue_clip_plane` in terms of the count it records. -/
theorem do_issue_clip_plane_bracket
    (filter_to_max : ClipPlaneAttrib → Int → ClipPlaneAttrib) (gsg : GraphicsStateGuardian) :
    BindPhase.run BindPhase.idle ((gsg.do_issue_clip_plane filter_to_max).2.map plane_bind_event)
        = some (if (gsg.do_issue_clip_plane filter_to_max).1._num_clip_planes_enabled = 0
            then BindPhase.idle else BindPhase.ended)
    ∧ ((gsg.do_issue_clip_plane filter_to_max).2.map plane_bind_event).count BindEvent.begin_bind
        = (if (gsg.do_issue_clip_plane filter_to_max).1._num_clip_planes_enabled = 0
            then 0 else 1)
    ∧ ((gsg.do_issue_clip_plane filter_to_max).2.map plane_bind_event).count BindEvent.bind
        = (gsg.do_issue_clip_plane filter_to_max).1._num_clip_planes_enabled
    ∧ ((gsg.do_issue_clip_plane filter_to_max).2.map plane_bind_event).count BindEvent.end_bind
        = (if (gsg.do_issue_clip_plane filter_to_max).1._num_clip_planes_enabled = 0
            then 0 else 1) := by
  obtain ⟨-, h2, h3, h4, h5⟩ :=
    do_issue_clip_plane_loop_bracket (gsg.filtered_planes filter_to_max) gsg 0
  obtain ⟨hnum, -⟩ := do_issue_clip_plane_calls filter_to_max gsg
  obtain ⟨-, hn1, -⟩ := do_issue_clip_plane_loop_spec (gsg.filtered_planes filter_to_max) gsg 0
  rw [hnum]
  generalize ((gsg.filtered_planes filter_to_max).filter PlaneNode.clips_visible).length = k
    at hn1 ⊢
  unfold GraphicsStateGuardian.do_issue_clip_plane
  simp only [do_issue_clip_plane_loop_eq]
  generalize GraphicsStateGuardian.do_issue_clip_plane_loop
    (gsg.filtered_planes filter_to_max) gsg 0 = r at h2 h3 h4 h5 hn1
  obtain ⟨g1, n1, c1⟩ := r
  simp only [Nat.sub_zero, true_and, Nat.zero_add] at h2 h3 h4 h5 hn1
  subst hn1
  have hd := fun p =>
    others_spec _ (disable_planes_other n1 (g1._num_clip_planes_enabled - n1)) p
  generalize hdis : (List.range' n1 (g1._num_clip_planes_enabled - n1)).map
    (fun i => GsgCall.enable_clip_plane i false) = dis at hd
  have hp0 : loop_phase 0 = BindPhase.idle := rfl
  rw [hp0] at h2
  simp only [hdis]
  have hd1 := fun p => (hd p).1
  obtain ⟨-, hd2, hd3, hd4⟩ := hd BindPhase.idle
  by_cases hn : n1 = 0
  · simp only [hn, ne_eq, not_true_eq_false, if_false, if_true] at h2 h3 h4 ⊢
    split_ifs <;>
      simp only [List.map_append, List.count_append, BindPhase.run_append, h2, h3, h4, h5, hd1,
        hd2, hd3, hd4, Option.some_bind] <;>
      simp [plane_bind_event, BindPhase.run, BindPhase.step, loop_phase]
  · simp only [hn, ne_eq, not_false_eq_true, if_false, if_true] at h2 h3 h4 ⊢
    simp only [List.map_append, List.count_append, BindPhase.run_append, h2, h3, h4, h5, hd1,
        hd2, hd3, hd4, Option.some_bind]
    simp [plane_bind_event, BindPhase.run, BindPhase.step, loop_phase, hn]

/-- The events of the light bracket counted on the hook calls. -/
theorem light_event_counts (calls : List GsgCall) :
    (calls.map light_bind_event).count BindEvent.begin_bind
        = calls.count GsgCall.begin_bind_lights
    ∧ (calls.map light_bind_event).count BindEvent.bind = (light_binds calls).length
    ∧ (calls.map light_bind_event).count BindEvent.end_bind
        = calls.count GsgCall.end_bind_lights := by
  induction calls with
  | nil => exact ⟨rfl, rfl, rfl⟩
  | cons c rest ih =>
    obtain ⟨h1, h2, h3⟩ := ih
    unfold light_binds at h2 ⊢
    cases c <;>
      simp [light_bind_event, List.count_cons, h1, h2, h3, List.filterMap_cons]

/-- The events of the clip-plane bracket counted on the hook calls. -/
theorem plane_event_counts (calls : List GsgCall) :
    (calls.map plane_bind_event).count BindEvent.begin_bind
        = calls.count GsgCall.begin_bind_clip_planes
    ∧ (calls.map plane_bind_event).count BindEvent.bind = (plane_binds calls).length
    ∧ (calls.map plane_bind_event).count BindEvent.end_bind
        = calls.count GsgCall.end_bind_clip_planes := by
  induction calls with
  | nil => exact ⟨rfl, rfl, rfl⟩
  | cons c rest ih =>
    obtain ⟨h1, h2, h3⟩ := ih
    unfold plane_binds at h2 ⊢
    cases c <;>
      simp [plane_bind_event, List.count_cons, h1, h2, h3, List.filterMap_cons]

/-- C27: in every run of `do_issue_light` the hook calls follow the bracket
"begin_bind_lights, one or more bind_light, end_bind_lights": when no light is
bound there is neither a begin nor an end, and when a light is bound there is
exactly one `begin_bind_lights`, before the first bind, and exactly one
`end_bind_lights`, after the last bind. `do_issue_clip_plane` brackets its
`bind_clip_plane` calls with `begin_bind_clip_planes` and
`end_bind_clip_planes` in the same way. -/
theorem C27_bind_calls_bracketed
    (filter_to_max : ClipPlaneAttrib → Int → ClipPlaneAttrib) (gsg : GraphicsStateGuardian) :
    (BindPhase.run BindPhase.idle (gsg.do_issue_light.2.map light_bind_event)
        = some (if light_binds gsg.do_issue_light.2 = []
            then BindPhase.idle else BindPhase.ended)
      ∧ gsg.do_issue_light.2.count GsgCall.begin_bind_lights
        = (if light_binds gsg.do_issue_light.2 = [] then 0 else 1)
      ∧ gsg.do_issue_light.2.count GsgCall.end_bind_lights
        = (if light_binds gsg.do_issue_light.2 = [] then 0 else 1))
    ∧ (BindPhase.run BindPhase.idle
          ((gsg.do_issue_clip_plane filter_to_max).2.map plane_bind_event)
        = some (if plane_binds (gsg.do_issue_clip_plane filter_to_max).2 = []
            then BindPhase.idle else BindPhase.ended)
      ∧ (gsg.do_issue_clip_plane filter_to_max).2.count GsgCall.begin_bind_clip_planes
        = (if plane_binds (gsg.do_issue_clip_plane filter_to_max).2 = [] then 0 else 1)
      ∧ (gsg.do_issue_clip_plane filter_to_max).2.count GsgCall.end_bind_clip_planes
        = (if plane_binds (gsg.do_issue_clip_plane filter_to_max).2 = [] then 0 else 1)) := by
  constructor
  · obtain ⟨h1, h2, h3, h4⟩ := do_issue_light_bracket gsg
    obtain ⟨e1, e2, e3⟩ := light_event_counts gsg.do_issue_light.2
    rw [e1] at h2
    rw [e2] at h3
    rw [e3] at h4
    have hiff : (light_binds gsg.do_issue_light.2 = [])
        ↔ gsg.do_issue_light.1._num_lights_enabled = 0 := by
      rw [← h3]
      exact List.length_eq_zero.symm
    simp only [hiff]
    exact ⟨h1, h2, h4⟩
  · obtain ⟨h1, h2, h3, h4⟩ := do_issue_clip_plane_bracket filter_to_max gsg
    obtain ⟨e1, e2, e3⟩ := plane_event_counts (gsg.do_issue_clip_plane filter_to_max).2
    rw [e1] at h2
    rw [e2] at h3
    rw [e3] at h4
    have hiff : (plane_binds (gsg.do_issue_clip_plane filter_to_max).2 = [])
        ↔ (gsg.do_issue_clip_plane filter_to_max).1._num_clip_planes_enabled = 0 := by
      rw [← h3]
      exact List.length_eq_zero.symm
    simp only [hiff]
    exact ⟨h1, h2, h4⟩

/-- `set_coordinate_system` reads `CS_default` as the default coordinate
system. -/
theorem set_coordinate_system_resolves (default_cs : CoordinateSystem)
    (gsg : GraphicsStateGuardian) (cs : CoordinateSystem) :
    gsg.set_coordinate_system default_cs cs
      = gsg.set_coordinate_system default_cs
          (if cs = CoordinateSystem.CS_default then default_cs else cs) := by
  unfold GraphicsStateGuardian.set_coordinate_system
  by_cases h : cs = CoordinateSystem.CS_default
  · subst h
    by_cases h2 : default_cs = CoordinateSystem.CS_default
    · simp [h2]
    · simp [h2]
  · simp [h]

/-- For a coordinate system other than `CS_default` the two functions agree in
every state. -/
theorem get_cs_transform_for_eq (default_cs : CoordinateSystem)
    (gsg : GraphicsStateGuardian) (cs : CoordinateSystem)
    (h : cs ≠ CoordinateSystem.CS_default) :
    (gsg.get_cs_transform_for cs).2 = (gsg.set_coordinate_system default_cs cs)._cs_transform := by
  unfold GraphicsStateGuardian.get_cs_transform_for GraphicsStateGuardian.set_coordinate_system
  simp only [if_neg h]
  by_cases h1 : gsg._coordinate_system = cs
  · simp [h1]
  · by_cases h2 : gsg._internal_coordinate_system = CoordinateSystem.CS_default
        ∨ gsg._internal_coordinate_system = cs
    · simp [h1, h2]
    · simp [h1, h2]

/-- `set_coordinate_system` leaves the stored transform current when it was
current before or when the call changes the coordinate system. -/
theorem set_coordinate_system_current (default_cs : CoordinateSystem)
    (gsg : GraphicsStateGuardian) (cs : CoordinateSystem)
    (h : gsg.cs_transform_current
      ∨ gsg._coordinate_system ≠ (if cs = CoordinateSystem.CS_default then default_cs else cs)) :
    (gsg.set_coordinate_system default_cs cs).cs_transform_current := by
  unfold GraphicsStateGuardian.set_coordinate_system
  simp only []
  by_cases h1 : gsg._coordinate_system
      = (if cs = CoordinateSystem.CS_default then default_cs else cs)
  · rw [if_pos h1]
    rcases h with h | h
    · exact h
    · exact absurd h1 h
  · rw [if_neg h1]
    unfold GraphicsStateGuardian.cs_transform_current
    split_ifs <;> rfl

/-- C28: `get_cs_transform_for(cs)` changes no state and returns the transform
that `_cs_transform` holds after `set_coordinate_system(cs)` from the same
state. For every `cs` other than `CS_default` the two are the same in every
state; `set_coordinate_system` replaces `CS_default` by the default coordinate
system before it compares, while `get_cs_transform_for` hands `CS_default` on
to `LMatrix4::convert_mat`, so for `CS_default` the two are the same matrix
`mat` in every state whose stored transform is current, given that
`convert_mat` reads `CS_default` as the default coordinate system and converts
the default coordinate system to itself by the identity. -/
theorem C28_get_cs_transform_for_agrees (default_cs : CoordinateSystem)
    (gsg : GraphicsStateGuardian) (cs : CoordinateSystem) :
    (gsg.get_cs_transform_for cs).1 = gsg
    ∧ (cs ≠ CoordinateSystem.CS_default →
        (gsg.get_cs_transform_for cs).2
          = (gsg.set_coordinate_system default_cs cs)._cs_transform)
    ∧ (gsg.get_cs_transform_for
          (if cs = CoordinateSystem.CS_default then default_cs else cs)).2
        = (gsg.set_coordinate_system default_cs cs)._cs_transform
    ∧ (∀ (M : Type) (mat : TransformState → M),
        (∀ target, mat (TransformState.convert_mat CoordinateSystem.CS_default target)
            = mat (TransformState.convert_mat default_cs target)) →
        mat (TransformState.convert_mat default_cs default_cs)
            = mat TransformState.make_identity →
        gsg.cs_transform_current →
        mat (gsg.get_cs_transform_for cs).2
          = mat (gsg.set_coordinate_system default_cs cs)._cs_transform) := by
  have h3 : (gsg.get_cs_transform_for
        (if cs = CoordinateSystem.CS_default then default_cs else cs)).2
      = (gsg.set_coordinate_system default_cs cs)._cs_transform := by
    rw [set_coordinate_system_resolves]
    by_cases hc : cs = CoordinateSystem.CS_default
    · rw [if_pos hc]
      by_cases hd : default_cs = CoordinateSystem.CS_default
      · rw [hd]
        unfold GraphicsStateGuardian.get_cs_transform_for
          GraphicsStateGuardian.set_coordinate_system
        by_cases h1 : gsg._coordinate_system = CoordinateSystem.CS_default
        · simp [h1]
        · by_cases h2 : gsg._internal_coordinate_system = CoordinateSystem.CS_default
          · simp [h1, h2]
          · simp [h1, h2]
      · exact get_cs_transform_for_eq default_cs gsg default_cs hd
    · rw [if_neg hc]
      exact get_cs_transform_for_eq default_cs gsg cs hc
  refine ⟨?_, fun h => get_cs_transform_for_eq default_cs gsg cs h, h3, ?_⟩
  · unfold GraphicsStateGuardian.get_cs_transform_for
    split_ifs <;> rfl
  · intro M mat hdef hid hcur
    by_cases h : cs = CoordinateSystem.CS_default
    · subst h
      rw [← h3]
      simp only [if_true]
      by_cases hd : default_cs = CoordinateSystem.CS_default
      · rw [hd]
      · have hd2 : ¬ CoordinateSystem.CS_default = default_cs := fun h => hd h.symm
        unfold GraphicsStateGuardian.cs_transform_current at hcur
        unfold GraphicsStateGuardian.get_cs_transform_for
        by_cases hi : gsg._internal_coordinate_system = CoordinateSystem.CS_default
        · by_cases h1 : gsg._coordinate_system = CoordinateSystem.CS_default
          · rw [if_pos h1, if_neg (by rw [h1]; exact hd2), if_pos (Or.inl hi), hcur,
              if_pos (Or.inl hi)]
          · by_cases h2 : gsg._coordinate_system = default_cs
            · rw [if_neg h1, if_pos (Or.inl hi), if_pos h2, hcur, if_pos (Or.inl hi)]
            · rw [if_neg h1, if_pos (Or.inl hi), if_neg h2, if_pos (Or.inl hi)]
        · by_cases h1 : gsg._coordinate_system = CoordinateSystem.CS_default
          · have h2 : ¬ gsg._coordinate_system = default_cs := by
              rw [h1]
              exact hd2
            have hi2 : ¬ (gsg._internal_coordinate_system = CoordinateSystem.CS_default
                ∨ gsg._internal_coordinate_system = gsg._coordinate_system) := by
              rw [h1]
              simp [hi]
            rw [if_pos h1, if_neg h2, hcur, if_neg hi2, h1]
            by_cases h4 : gsg._internal_coordinate_system = default_cs
            · rw [if_pos (Or.inr h4), h4, hdef, hid]
            · rw [if_neg (by simp [hi, h4]), hdef]
          · have hi3 : ¬ (gsg._internal_coordinate_system = CoordinateSystem.CS_default
                ∨ gsg._internal_coordinate_system = CoordinateSystem.CS_default) := by
              simp [hi]
            rw [if_neg h1, if_neg hi3]
            by_cases h2 : gsg._coordinate_system = default_cs
            · rw [if_pos h2, hcur, h2]
              by_cases h4 : gsg._internal_coordinate_system = default_cs
              · rw [if_pos (Or.inr h4), h4, hdef, hid]
              · rw [if_neg (by simp [hi, h4]), hdef]
            · rw [if_neg h2]
              by_cases h4 : gsg._internal_coordinate_system = default_cs
              · rw [if_pos (Or.inr h4), h4, hdef, hid]
              · rw [if_neg (by simp [hi, h4]), hdef]
    · rw [get_cs_transform_for_eq default_cs gsg cs h]

/-- Witness of C28: a GSG with the internal coordinate system `CS_yup_right` on
which `set_coordinate_system` has made `CS_zup_right`, the default, the
coordinate system, asked for `CS_default`. -/
theorem C28_get_cs_transform_for_agrees_witness :
    (({ GraphicsStateGuardian.make 8 8 false false with
            _internal_coordinate_system := CoordinateSystem.CS_yup_right
        }).set_coordinate_system CoordinateSystem.CS_zup_right
          CoordinateSystem.CS_zup_right).cs_transform_current
    ∧ TransformState.resolved CoordinateSystem.CS_zup_right
        ((({ GraphicsStateGuardian.make 8 8 false false with
            _internal_coordinate_system := CoordinateSystem.CS_yup_right
          }).set_coordinate_system CoordinateSystem.CS_zup_right
            CoordinateSystem.CS_zup_right).get_cs_transform_for CoordinateSystem.CS_default).2
      = TransformState.resolved CoordinateSystem.CS_zup_right
        ((({ GraphicsStateGuardian.make 8 8 false false with
            _internal_coordinate_system := CoordinateSystem.CS_yup_right
          }).set_coordinate_system CoordinateSystem.CS_zup_right
            CoordinateSystem.CS_zup_right).set_coordinate_system CoordinateSystem.CS_zup_right
              CoordinateSystem.CS_default)._cs_transform
    ∧ (({ GraphicsStateGuardian.make 8 8 false false with
            _internal_coordinate_system := CoordinateSystem.CS_yup_right
        }).get_cs_transform_for CoordinateSystem.CS_yup_left).2
      = (({ GraphicsStateGuardian.make 8 8 false false with
            _internal_coordinate_system := CoordinateSystem.CS_yup_right
        }).set_coordinate_system CoordinateSystem.CS_zup_right
          CoordinateSystem.CS_yup_left)._cs_transform :=
  ⟨by decide,
   (C28_get_cs_transform_for_agrees CoordinateSystem.CS_zup_right
      (({ GraphicsStateGuardian.make 8 8 false false with
            _internal_coordinate_system := CoordinateSystem.CS_yup_right
        }).set_coordinate_system CoordinateSystem.CS_zup_right CoordinateSystem.CS_zup_right)
      CoordinateSystem.CS_default).2.2.2 TransformState
        (TransformState.resolved CoordinateSystem.CS_zup_right)
        (fun target => by cases target <;> rfl) rfl (by decide),
   (C28_get_cs_transform_for_agrees CoordinateSystem.CS_zup_right
      { GraphicsStateGuardian.make 8 8 false false with
            _internal_coordinate_system := CoordinateSystem.CS_yup_right }
      CoordinateSystem.CS_yup_left).2.1 (by decide)⟩

/-! ### Lemmas on the frame ring -/

end Panda
